import Mathlib

/-!
# ISL29018 ambient light sensor driver: sampling and thresholding engine

A shallow embedding of `ISL29018/client.cpp`, `ISL29018/device.cpp`,
`ISL29018/Device.h` and `ISL29018/isl29018.h`.

Conventions of the embedding.

* `NTSTATUS` is the signed 32-bit status code as an `Int`; `NT_SUCCESS` is `0 ≤ Status`.
* `FLOAT` values are exact rationals.
* `ULONG` and `ULONGLONG` values are naturals (`Nat`) and `LONGLONG` values integers
  (`Int`); arithmetic that the source performs in 64-bit unsigned registers is reduced
  modulo `2 ^ 64` explicitly (`toULONGLONG`, `toLONGLONG`).
* Every call returns, next to its status and the device context after the call, the
  list of calls it made to its collaborators (bus, lock, timer, publish sink), in
  order, as a list of `Event`s.
* Answers of the collaborators (bus status, clock readings, ...) are arguments of
  the call, collected in an `...Env` record.
* The bus lock is the hold count `m_I2CWaitLock`. The routines called by the class
  extension (`PowerOn`, `PowerOff`, `OnStart`, `OnStop`) and `GetData` are described as
  entered with the lock free. The timer callback is described with the lock as it finds
  it: `WdfWaitLockAcquire` has no timeout and the lock is not recursive, so a callback
  that calls it on a held lock does not return, and its `Course` ends there.
-/

namespace ISL29018

/-! ## Basic types and status codes -/

abbrev NTSTATUS := Int
abbrev BYTE := Fin 256
abbrev FLOAT := ℚ

def STATUS_SUCCESS : NTSTATUS := 0
def STATUS_UNSUCCESSFUL : NTSTATUS := 0xC0000001 - 0x100000000
def STATUS_INVALID_PARAMETER : NTSTATUS := 0xC000000D - 0x100000000
def STATUS_INSUFFICIENT_RESOURCES : NTSTATUS := 0xC000009A - 0x100000000
def STATUS_NOT_SUPPORTED : NTSTATUS := 0xC00000BB - 0x100000000
def STATUS_DATA_NOT_ACCEPTED : NTSTATUS := 0xC000021B - 0x100000000
def STATUS_NOT_FOUND : NTSTATUS := 0xC0000225 - 0x100000000

/-- The status test of the NT headers: a status is a success when it is not negative. -/
def NT_SUCCESS (Status : NTSTATUS) : Bool := decide (0 ≤ Status)

/-- Reduction of a natural number to an unsigned 64-bit register. -/
def toULONGLONG (n : Nat) : Nat := n % 2 ^ 64

/-- Reading of an unsigned 64-bit register as a signed one (two's complement). -/
def toLONGLONG (n : Nat) : Int :=
  if n % 2 ^ 64 < 2 ^ 63 then ((n % 2 ^ 64 : Nat) : Int) else ((n % 2 ^ 64 : Nat) : Int) - 2 ^ 64

/-- The cast `static_cast<SHORT>`: the low 16 bits read as a signed number. -/
def toSHORT (n : Nat) : Int :=
  if n % 2 ^ 16 < 2 ^ 15 then ((n % 2 ^ 16 : Nat) : Int) else ((n % 2 ^ 16 : Nat) : Int) - 2 ^ 16

/-- The WDF helper `WDF_REL_TIMEOUT_IN_MS(Time)`, `Time * -1 * WDF_TIMEOUT_TO_MS` computed
in unsigned 64-bit arithmetic and returned as a `LONGLONG`: a relative due time, in units
of 100 ns, hence not positive for every delay the driver can ask for. -/
def WDF_REL_TIMEOUT_IN_MS (Time : Nat) : Int :=
  toLONGLONG (toULONGLONG (toULONGLONG (Time * (2 ^ 64 - 1)) * 10000))

/-! ## Constants of `isl29018.h` and `client.cpp` -/

def ISL29018_REG_ADD_COMMAND1 : Nat := 0x00
def ISL29018_CMD1_ISR_SHIFT : Nat := 2
def ISL29018_CMD1_ISR_MASK : Nat := 0x1 <<< ISL29018_CMD1_ISR_SHIFT
def ISL29018_CMD1_OPMODE_SHIFT : Nat := 5
def ISL29018_CMD1_OPMODE_MASK : Nat := 7 <<< ISL29018_CMD1_OPMODE_SHIFT
def ISL29018_CMD1_OPMODE_POWER_DOWN : Nat := 0
def ISL29018_CMD1_OPMODE_ALS_ONCE : Nat := 1
def ISL29018_CMD1_OPMODE_ALS_CONT : Nat := 5
def ISL29018_REG_ADD_COMMAND2 : Nat := 0x01
def ISL29018_CMD2_RESOLUTION_SHIFT : Nat := 2
def ISL29018_CMD2_RESOLUTION_MASK : Nat := 0x3 <<< ISL29018_CMD2_RESOLUTION_SHIFT
def ISL29018_CMD2_RANGE_SHIFT : Nat := 0
def ISL29018_CMD2_RANGE_MASK : Nat := 0x3 <<< ISL29018_CMD2_RANGE_SHIFT
def ISL29018_CMD2_SCHEME_SHIFT : Nat := 7
def ISL29018_CMD2_SCHEME_MASK : Nat := 0x1 <<< ISL29018_CMD2_SCHEME_SHIFT
def ISL29018_REG_ADD_DATA_LSB : Nat := 0x02
def ISL29018_REG_ADD_DATA_MSB : Nat := 0x03
def ISL290185_DATA_SIZE_BYTES : Nat := 2
def ISL29018_REG_ADDR_TEST : Nat := 0x08

def Als_Initial_MinDataInterval_Ms : Nat := 90
def Als_Initial_Lux_Threshold_Pct : FLOAT := 1
def Als_Initial_Lux_Threshold_Abs : FLOAT := 0
def AlsDevice_Minimum_Lux : FLOAT := 0
def AlsDevice_Maximum_Lux : FLOAT := 4000
def AlsDevice_Precision : FLOAT := 65536
def AlsDevice_Range_Lux : FLOAT := AlsDevice_Maximum_Lux - AlsDevice_Minimum_Lux
def AlsDevice_Resolution_Lux : FLOAT := AlsDevice_Range_Lux / AlsDevice_Precision
def SYSTEM_TICK_COUNT_1MS : Nat := 1
def TIMERR_NOERROR : Nat := 0

/-- The values of the `SENSOR_STATE` enumeration of the sensor class extension. -/
def SensorState_Initializing : Nat := 0
def SensorState_Idle : Nat := 1
def SensorState_Active : Nat := 2
def SensorState_Error : Nat := 3

/-! ## Indices of `Device.h` -/

def SENSOR_PROPERTY_STATE : Nat := 0
def SENSOR_PROPERTY_MIN_DATA_INTERVAL : Nat := 1
def SENSOR_PROPERTY_MAX_DATA_FIELD_SIZE : Nat := 2
def SENSOR_PROPERTY_TYPE : Nat := 3
def SENSOR_PROPERTY_ALS_RESPONSE_CURVE : Nat := 4
def SENSOR_PROPERTIES_COUNT : Nat := 5

def SENSOR_ENUMERATION_PROPERTY_TYPE : Nat := 0
def SENSOR_ENUMERATION_PROPERTY_MANUFACTURER : Nat := 1
def SENSOR_ENUMERATION_PROPERTY_MODEL : Nat := 2
def SENSOR_ENUMERATION_PROPERTY_CONNECTION_TYPE : Nat := 3
def SENSOR_ENUMERATION_PROPERTY_PERSISTENT_UNIQUE_ID : Nat := 4
def SENSOR_ENUMERATION_PROPERTY_CATEGORY : Nat := 5
def SENSOR_ENUMERATION_PROPERTY_ISPRIMARY : Nat := 6
def SENSOR_ENUMERATION_PROPERTIES_COUNT : Nat := 7

def ALS_DATA_TIMESTAMP : Nat := 0
def ALS_DATA_LUX : Nat := 1
def ALS_DATA_COUNT : Nat := 2

def SENSOR_DATA_FIELD_PROPERTY_RESOLUTION : Nat := 0
def SENSOR_DATA_FIELD_PROPERTY_RANGE_MIN : Nat := 1
def SENSOR_DATA_FIELD_PROPERTY_RANGE_MAX : Nat := 2
def SENSOR_DATA_FIELD_PROPERTIES_COUNT : Nat := 3

def ALS_THRESHOLD_LUX_PCT : Nat := 0
def ALS_THRESHOLD_LUX_ABS : Nat := 1
def ALS_THRESHOLD_COUNT : Nat := 2

/-! ## Property keys, values and lists -/

/-- The property keys the driver names, and `other` for every key it does not. -/
inductive PROPERTYKEY
  | PKEY_Sensor_State
  | PKEY_Sensor_MinimumDataInterval_Ms
  | PKEY_Sensor_MaximumDataFieldSize_Bytes
  | PKEY_Sensor_Type
  | PKEY_LightSensor_ResponseCurve
  | DEVPKEY_Sensor_Type
  | DEVPKEY_Sensor_Manufacturer
  | DEVPKEY_Sensor_Model
  | DEVPKEY_Sensor_ConnectionType
  | DEVPKEY_Sensor_PersistentUniqueId
  | DEVPKEY_Sensor_Category
  | DEVPKEY_Sensor_IsPrimary
  | PKEY_SensorData_Timestamp
  | PKEY_SensorData_LightLevel_Lux
  | PKEY_SensorData_LightLevel_Lux_Threshold_AbsoluteDifference
  | PKEY_SensorDataField_Resolution
  | PKEY_SensorDataField_RangeMinimum
  | PKEY_SensorDataField_RangeMaximum
  | other (id : Nat)
  deriving DecidableEq

/-- The identifiers stored as `VT_CLSID` values. -/
inductive GUID
  | GUID_SensorType_AmbientLight
  | GUID_SensorCategory_Light
  | GUID_AlsDevice_UniqueID
  deriving DecidableEq

/-- The variants of `PROPVARIANT` the driver stores. -/
inductive PROPVARIANT
  | VT_EMPTY
  | VT_UI4 (ulVal : Nat)
  | VT_R4 (fltVal : FLOAT)
  | VT_FILETIME (filetime : Nat)
  | VT_CLSID (puuid : GUID)
  | VT_LPWSTR (pwszVal : String)
  | VT_BOOL (boolVal : Bool)
  | VT_VECTOR_UI4 (caul : List Nat)
  deriving DecidableEq

structure SENSOR_VALUE_PAIR where
  Key : PROPERTYKEY
  Value : PROPVARIANT
  deriving DecidableEq

/-- A `SENSOR_COLLECTION_LIST`; its `Count` is the length of `List`. -/
structure SENSOR_COLLECTION_LIST where
  AllocatedSizeInBytes : Nat
  List : List SENSOR_VALUE_PAIR
  deriving DecidableEq

/-- A `SENSOR_PROPERTY_LIST`; its `Count` is the length of `List`. -/
structure SENSOR_PROPERTY_LIST where
  AllocatedSizeInBytes : Nat
  List : List PROPERTYKEY
  deriving DecidableEq

def SENSOR_COLLECTION_LIST.Count (l : SENSOR_COLLECTION_LIST) : Nat := l.List.length

def SENSOR_PROPERTY_LIST.Count (l : SENSOR_PROPERTY_LIST) : Nat := l.List.length

/-- The assignment `pList->List[Index].Value = Value`. -/
def SetValueAt (pList : SENSOR_COLLECTION_LIST) (Index : Nat) (Value : PROPVARIANT) :
    SENSOR_COLLECTION_LIST :=
  { pList with List := pList.List.modify (fun p => { p with Value := Value }) Index }

/-- The value `pList->List[Index].Value`. -/
def ValueAt (pList : SENSOR_COLLECTION_LIST) (Index : Nat) : Option PROPVARIANT :=
  (pList.List.get? Index).map (fun p => p.Value)

structure REGISTER_SETTING where
  Register : Nat
  Value : Nat
  deriving DecidableEq

/-- The initial device configuration of `Device.h`. -/
def g_ConfigurationSettings : List REGISTER_SETTING :=
  [ { Register := ISL29018_REG_ADDR_TEST, Value := 0x00 },
    { Register := ISL29018_REG_ADD_COMMAND1, Value := 0x00 },
    { Register := ISL29018_REG_ADD_COMMAND2, Value := 0x01 } ]

/-! ## Calls to the collaborators -/

/-- One call the driver makes to a collaborator. -/
inductive Event
  | WdfWaitLockAcquire
  | WdfWaitLockRelease
  | I2CSensorReadRegister (Register : Nat) (Size : Nat)
  | I2CSensorWriteRegister (Register : Nat) (Value : Nat) (Size : Nat)
  | WdfTimerStart (DueTime : Int)
  | WdfTimerStop (Wait : Bool)
  | SensorsCxSensorDataReady (pSensorData : SENSOR_COLLECTION_LIST)
  | timeEndPeriod (uPeriod : Nat)
  deriving DecidableEq

/-! ## The device context -/

structure AlsThresholdData where
  LuxPct : FLOAT
  LuxAbs : FLOAT
  deriving DecidableEq

/-- The device context `AlsDevice` of `Device.h`. `m_I2CWaitLock` is the hold count of
the bus lock and `m_Timer` the due time the timer is armed with, if it is armed.
`m_Interval`, `m_MinimumInterval` and `m_StartTime` are `ULONG`s, `m_SampleCount` is a
`ULONGLONG`. -/
structure AlsDevice where
  m_I2CWaitLock : Int
  m_Timer : Option Int
  m_PoweredOn : Bool
  m_Started : Bool
  m_Interval : Nat
  m_MinimumInterval : Nat
  m_FirstSample : Bool
  m_StartTime : Nat
  m_SampleCount : Nat
  m_CachedThresholds : AlsThresholdData
  m_CachedData : FLOAT
  m_LastSample : FLOAT
  m_pSupportedDataFields : SENSOR_PROPERTY_LIST
  m_pEnumerationProperties : SENSOR_COLLECTION_LIST
  m_pSensorProperties : SENSOR_COLLECTION_LIST
  m_pSensorData : SENSOR_COLLECTION_LIST
  m_pDataFieldProperties : SENSOR_COLLECTION_LIST
  m_pThresholds : SENSOR_COLLECTION_LIST
  deriving DecidableEq

/-! ## `AlsDevice::GetData` -/

/-- What the collaborators answer during one call of `GetData`: the status of the bus
read and the two bytes it delivered, the status and reading of `GetPerformanceTime`,
and the reading of `GetSystemTimePreciseAsFileTime`. -/
structure GetDataEnv where
  ReadStatus : NTSTATUS
  DataBuffer0 : BYTE
  DataBuffer1 : BYTE
  PerfStatus : NTSTATUS
  PerfTime : Nat
  TimeStamp : Nat

/-- The data conversion of `GetData`: `luxRaw * AlsDevice_Resolution_Lux` with
`luxRaw = static_cast<SHORT>((DataBuffer[1] << 8) | DataBuffer[0])`. -/
def luxOfDataBuffer (DataBuffer0 DataBuffer1 : BYTE) : FLOAT :=
  let luxRaw : Int := toSHORT ((DataBuffer1.val <<< 8) ||| DataBuffer0.val)
  (luxRaw : FLOAT) * AlsDevice_Resolution_Lux

/-- The comparison of `GetData` of the change of data to the thresholds. -/
def thresholdsExceeded (d : AlsDevice) : Bool :=
  decide (|d.m_CachedData - d.m_LastSample| ≥ d.m_LastSample * d.m_CachedThresholds.LuxPct) &&
    decide (|d.m_CachedData - d.m_LastSample| ≥ d.m_CachedThresholds.LuxAbs)

/-- The calls `GetData` makes for its bus read. -/
def GetData_readEvents : List Event :=
  [ Event.WdfWaitLockAcquire,
    Event.I2CSensorReadRegister ISL29018_REG_ADD_DATA_LSB ISL290185_DATA_SIZE_BYTES,
    Event.WdfWaitLockRelease ]

/-- The branch `DataReady != FALSE` of `GetData`: update the last sample, write it and
the time stamp into the data record, hand the record to the class extension and clear
`m_FirstSample`. -/
def GetData_push (Status : NTSTATUS) (d : AlsDevice) (env : GetDataEnv) :
    NTSTATUS × AlsDevice × List Event :=
  let m_LastSample := d.m_CachedData
  let data := SetValueAt d.m_pSensorData ALS_DATA_LUX (PROPVARIANT.VT_R4 m_LastSample)
  let data := SetValueAt data ALS_DATA_TIMESTAMP (PROPVARIANT.VT_FILETIME env.TimeStamp)
  (Status,
   { d with m_LastSample := m_LastSample, m_pSensorData := data, m_FirstSample := false },
   GetData_readEvents ++ [Event.SensorsCxSensorDataReady data])

/-- The routine `AlsDevice::GetData`. -/
def GetData (d : AlsDevice) (env : GetDataEnv) : NTSTATUS × AlsDevice × List Event :=
  -- Read the device data
  let d := { d with m_I2CWaitLock := d.m_I2CWaitLock + 1 - 1 }
  let Status := env.ReadStatus
  let d :=
    if NT_SUCCESS Status then
      { d with m_CachedData := luxOfDataBuffer env.DataBuffer0 env.DataBuffer1 }
    else d
  -- new sample?
  if d.m_FirstSample then
    let Status := env.PerfStatus
    let d := { d with m_StartTime := if NT_SUCCESS Status then env.PerfTime else 0 }
    let d := { d with m_SampleCount := 0 }
    GetData_push Status d env
  else if thresholdsExceeded d then
    GetData_push Status d env
  else
    (STATUS_DATA_NOT_ACCEPTED, d, GetData_readEvents)

/-! ## `AlsDevice::OnStart` and `AlsDevice::OnStop` -/

/-- The routine `AlsDevice::OnStart`. `SensorInstance` is the device context
`GetAlsDeviceContextFromSensorInstance` finds, if any; `WriteStatus` is the status of
the register write. -/
def OnStart (SensorInstance : Option AlsDevice) (WriteStatus : NTSTATUS) :
    NTSTATUS × Option AlsDevice × List Event :=
  match SensorInstance with
  | none => (STATUS_INVALID_PARAMETER, none, [])
  | some pDevice =>
    if !pDevice.m_PoweredOn then
      (STATUS_INVALID_PARAMETER, some pDevice, [])
    else
      let pDevice := { pDevice with m_I2CWaitLock := pDevice.m_I2CWaitLock + 1 }
      -- Set accelerometer to measurement mode
      let setting : REGISTER_SETTING :=
        { Register := ISL29018_REG_ADD_COMMAND1,
          Value := (ISL29018_CMD1_OPMODE_ALS_CONT <<< ISL29018_CMD1_OPMODE_SHIFT) % 256 }
      let events := [Event.WdfWaitLockAcquire,
        Event.I2CSensorWriteRegister setting.Register setting.Value 1]
      let Status := WriteStatus
      if !NT_SUCCESS Status then
        (Status, some { pDevice with m_I2CWaitLock := pDevice.m_I2CWaitLock - 1 },
          events ++ [Event.WdfWaitLockRelease])
      else
        let DueTime := WDF_REL_TIMEOUT_IN_MS pDevice.m_MinimumInterval
        (Status,
         some { pDevice with
                m_FirstSample := true,
                m_Started := true,
                m_pSensorProperties :=
                  SetValueAt pDevice.m_pSensorProperties SENSOR_PROPERTY_STATE
                    (PROPVARIANT.VT_UI4 SensorState_Active),
                m_Timer := some DueTime },
         events ++ [Event.WdfTimerStart DueTime])

/-- What the collaborators answer during one call of `OnStop`: the status of the
register write and the result of `timeEndPeriod`. -/
structure StopEnv where
  WriteStatus : NTSTATUS
  TimeEndPeriodResult : Nat

/-- The routine `AlsDevice::OnStop`. -/
def OnStop (SensorInstance : Option AlsDevice) (env : StopEnv) :
    NTSTATUS × Option AlsDevice × List Event :=
  match SensorInstance with
  | none => (STATUS_INVALID_PARAMETER, none, [])
  | some pDevice =>
    let pDevice := { pDevice with m_Started := false }
    -- Stop polling
    let pDevice := { pDevice with m_Timer := none }
    -- Set sensor to standby
    let setting : REGISTER_SETTING :=
      { Register := ISL29018_REG_ADD_COMMAND1,
        Value := (ISL29018_CMD1_OPMODE_POWER_DOWN <<< ISL29018_CMD1_OPMODE_SHIFT) % 256 }
    let Status := env.WriteStatus
    let pDevice := { pDevice with m_I2CWaitLock := pDevice.m_I2CWaitLock - 1 }
    let events := [Event.WdfTimerStop true,
      Event.I2CSensorWriteRegister setting.Register setting.Value 1,
      Event.WdfWaitLockRelease]
    if !NT_SUCCESS Status then
      (Status, some pDevice, events)
    else
      let pDevice := { pDevice with
        m_pSensorProperties :=
          SetValueAt pDevice.m_pSensorProperties SENSOR_PROPERTY_STATE
            (PROPVARIANT.VT_UI4 SensorState_Idle) }
      -- Restoring system time resolution
      if TIMERR_NOERROR ≠ env.TimeEndPeriodResult then
        (STATUS_UNSUCCESSFUL, some pDevice, events ++ [Event.timeEndPeriod SYSTEM_TICK_COUNT_1MS])
      else
        (Status, some pDevice, events ++ [Event.timeEndPeriod SYSTEM_TICK_COUNT_1MS])

/-! ## `AlsDevice::OnGetDataInterval` and `AlsDevice::OnSetDataInterval` -/

/-- The routine `AlsDevice::OnSetDataInterval`. -/
def OnSetDataInterval (SensorInstance : Option AlsDevice) (DataRateMs : Nat) :
    NTSTATUS × Option AlsDevice × List Event :=
  match SensorInstance with
  | none => (STATUS_INVALID_PARAMETER, none, [])
  | some pDevice =>
    if DataRateMs = 0 then
      (STATUS_INVALID_PARAMETER, some pDevice, [])
    else
      let pDevice := { pDevice with m_Interval := DataRateMs }
      -- reschedule sample to return as soon as possible if it's started
      if pDevice.m_Started then
        let pDevice := { pDevice with m_Started := false }
        let pDevice := { pDevice with m_Timer := none }
        let pDevice := { pDevice with m_Started := true }
        let pDevice := { pDevice with m_FirstSample := true }
        let DueTime := WDF_REL_TIMEOUT_IN_MS pDevice.m_MinimumInterval
        (STATUS_SUCCESS, some { pDevice with m_Timer := some DueTime },
          [Event.WdfTimerStop true, Event.WdfTimerStart DueTime])
      else
        (STATUS_SUCCESS, some pDevice, [])

/-! ## `AlsDevice::OnTimerExpire` -/

/-- What the collaborators answer during one call of `OnTimerExpire`: the answers to
`GetData`, then the status and reading of the `GetPerformanceTime` call of the
scheduling step. -/
structure TimerEnv where
  getData : GetDataEnv
  PerfStatus : NTSTATUS
  CurrentTimeMs : Nat

/-- The time of the next sample as `OnTimerExpire` computes it, in 64-bit unsigned
arithmetic: `m_StartTime + (m_Interval * (m_SampleCount + 1))`. -/
def idealNextTime (pDevice : AlsDevice) : Nat :=
  toULONGLONG (pDevice.m_StartTime +
    toULONGLONG (pDevice.m_Interval * toULONGLONG (pDevice.m_SampleCount + 1)))

/-- The wait time in milliseconds `OnTimerExpire` computes from the clock reading
`CurrentTimeMs`, a `LONGLONG`, once `m_SampleCount` is incremented. -/
def OnTimerExpire_WaitTime (pDevice : AlsDevice) (CurrentTimeMs : Nat) : Int :=
  if CurrentTimeMs > idealNextTime pDevice then
    -- If we skipped two or more beats, reschedule the timer with a zero due time
    0
  else
    -- Else, just compute the remaining time
    toLONGLONG (idealNextTime pDevice - CurrentTimeMs)

/-- The scheduling step of `OnTimerExpire` (the statements after `GetData` and the
release of the lock), entered when the three conditions hold: the device after the step
and the due time for `WdfTimerStart`. -/
def OnTimerExpire_schedule (pDevice : AlsDevice) (env : TimerEnv) : AlsDevice × Int :=
  if pDevice.m_StartTime = 0 then
    -- in case we fail to get sensor start time, use static wait time
    (pDevice, WDF_REL_TIMEOUT_IN_MS pDevice.m_Interval)
  else
    -- dynamically calculate wait time to avoid jitter
    if !NT_SUCCESS env.PerfStatus then
      (pDevice, WDF_REL_TIMEOUT_IN_MS pDevice.m_Interval)
    else
      let pDevice := { pDevice with m_SampleCount := toULONGLONG (pDevice.m_SampleCount + 1) }
      let WaitTime := OnTimerExpire_WaitTime pDevice env.CurrentTimeMs
      (pDevice, WDF_REL_TIMEOUT_IN_MS (WaitTime % 2 ^ 64).toNat)

/-- The call `WdfWaitLockAcquire(m_I2CWaitLock, NULL)` of a callback. The call has no
timeout: on a free lock it returns with the hold count one higher, on a held lock it
does not return (`none`). -/
def WdfWaitLockAcquire (d : AlsDevice) : Option AlsDevice :=
  if 0 < d.m_I2CWaitLock then none
  else some { d with m_I2CWaitLock := d.m_I2CWaitLock + 1 }

/-- How far a callback gets: the device context it leaves, the calls it made to its
collaborators, in order, and whether it returned. A callback that did not return waits
for ever in the last call of the list. -/
structure Course where
  device : Option AlsDevice
  events : List Event
  returned : Bool

/-- The callback `AlsDevice::OnTimerExpire`. The timer is a one-shot timer: it is not
armed any more when its callback runs. The callback calls `WdfWaitLockAcquire` and,
holding the lock, `GetData`, whose first statement is `WdfWaitLockAcquire` on the same
lock: the lock is not recursive, so that call does not return, and the statements after
it (the bus read, the release and the scheduling step `OnTimerExpire_schedule`) are
never reached, and the answers of the collaborators are never asked for. -/
def OnTimerExpire (SensorInstance : Option AlsDevice) (_env : TimerEnv) : Course :=
  match SensorInstance with
  | none => { device := none, events := [], returned := true }
  | some pDevice =>
    let pDevice := { pDevice with m_Timer := none }
    -- Get data and push to clx
    match WdfWaitLockAcquire pDevice with
    | none =>
      -- the lock is held: `WdfWaitLockAcquire` of the callback does not return
      { device := some pDevice, events := [Event.WdfWaitLockAcquire], returned := false }
    | some pDevice =>
      -- `GetData`: its `WdfWaitLockAcquire`, on the lock the callback holds, does not return
      { device := some pDevice,
        events := [Event.WdfWaitLockAcquire, Event.WdfWaitLockAcquire],
        returned := false }

/-- The callback `AlsDevice::OnInterruptWorkItem`, once its sensor instance is found. -/
def OnInterruptWorkItem (SensorInstance : Option AlsDevice) (env : GetDataEnv) :
    Option AlsDevice × List Event :=
  match SensorInstance with
  | none => (none, [])
  | some pDevice =>
    let r := GetData pDevice env
    (some r.2.1, r.2.2)

/-! ## `AlsDevice::PowerOn` and `AlsDevice::PowerOff` (`device.cpp`) -/

/-- The loop of `PowerOn` over the configuration settings from index `i` on:
`WriteStatus k` is the status of the `k`-th register write. The result is the status
of the last write made (or `Status` when no write is made) and the writes made. -/
def PowerOn_loop (WriteStatus : Nat → NTSTATUS) :
    List REGISTER_SETTING → Nat → NTSTATUS → NTSTATUS × List Event
  | [], _, Status => (Status, [])
  | setting :: rest, i, _ =>
    let status := WriteStatus i
    let event := Event.I2CSensorWriteRegister setting.Register setting.Value 1
    if !NT_SUCCESS status then
      (status, [event])
    else
      let r := PowerOn_loop WriteStatus rest (i + 1) status
      (r.1, event :: r.2)

/-- The routine `AlsDevice::PowerOn`. -/
def PowerOn (d : AlsDevice) (WriteStatus : Nat → NTSTATUS) : NTSTATUS × AlsDevice × List Event :=
  let status := STATUS_SUCCESS
  let d := { d with m_I2CWaitLock := d.m_I2CWaitLock + 1 }
  let r := PowerOn_loop WriteStatus g_ConfigurationSettings 0 status
  let d := { d with m_I2CWaitLock := d.m_I2CWaitLock - 1 }
  let events := [Event.WdfWaitLockAcquire] ++ r.2 ++ [Event.WdfWaitLockRelease]
  if !NT_SUCCESS r.1 then
    (r.1, d, events)
  else
    (r.1,
     { d with
       m_pSensorProperties :=
         SetValueAt d.m_pSensorProperties SENSOR_PROPERTY_STATE
           (PROPVARIANT.VT_UI4 SensorState_Idle),
       m_PoweredOn := true },
     events)

/-- The routine `AlsDevice::PowerOff`. -/
def PowerOff (d : AlsDevice) (WriteStatus : NTSTATUS) : NTSTATUS × AlsDevice × List Event :=
  let setting : REGISTER_SETTING :=
    { Register := ISL29018_REG_ADD_COMMAND1,
      Value := (ISL29018_CMD1_OPMODE_POWER_DOWN <<< ISL29018_CMD1_OPMODE_SHIFT) % 256 }
  let d := { d with m_I2CWaitLock := d.m_I2CWaitLock + 1 }
  let status := WriteStatus
  let d := { d with m_I2CWaitLock := d.m_I2CWaitLock - 1 }
  let events := [Event.WdfWaitLockAcquire,
    Event.I2CSensorWriteRegister setting.Register setting.Value 1,
    Event.WdfWaitLockRelease]
  if !NT_SUCCESS status then
    (status, d, events)
  else
    (status, { d with m_PoweredOn := false }, events)

/-! ## Routines of the sensor utility library -/

/-- The routines of the sensor utility library whose results depend on the memory
layout of the lists; the driver's code is read for every choice of them. The two copy
routines return their status and the target list after the call. -/
structure SensorsUtils where
  SENSOR_PROPERTY_LIST_SIZE : Nat → Nat
  SENSOR_COLLECTION_LIST_SIZE : Nat → Nat
  CollectionsListGetMarshalledSize : SENSOR_COLLECTION_LIST → Nat
  CollectionsListCopyAndMarshall :
    SENSOR_COLLECTION_LIST → SENSOR_COLLECTION_LIST → NTSTATUS × SENSOR_COLLECTION_LIST
  PropertiesListCopy :
    SENSOR_PROPERTY_LIST → SENSOR_PROPERTY_LIST → NTSTATUS × SENSOR_PROPERTY_LIST

/-- Modelled from the spec: the library routine `IsKeyPresentInPropertyList` is not part
of the sources; the spec describes it as `isSupported(key) -> bool`, the test whether
the key is in the supported set. -/
def IsKeyPresentInPropertyList (pList : SENSOR_PROPERTY_LIST) (pKey : PROPERTYKEY) : Bool :=
  decide (pKey ∈ pList.List)

/-- The list with the value of its first entry of key `pKey` replaced, if there is one. -/
def setFirstOfKey (pKey : PROPERTYKEY) (pValue : PROPVARIANT) :
    List SENSOR_VALUE_PAIR → Option (List SENSOR_VALUE_PAIR)
  | [] => none
  | p :: rest =>
    if p.Key = pKey then some ({ p with Value := pValue } :: rest)
    else (setFirstOfKey pKey pValue rest).map (fun l => p :: l)

/-- Modelled from the spec: the library routine `PropKeyFindKeySetPropVariant` is not
part of the sources; the spec describes it as
`findAndSet(catalogId, key, value, mustExist: bool) -> Result`, which stores the value
under the key and fails with the key-not-found error if `mustExist` and the key is
absent. The shape of the catalog never changes. -/
def PropKeyFindKeySetPropVariant (pList : SENSOR_COLLECTION_LIST) (pKey : PROPERTYKEY)
    (mustExist : Bool) (pValue : PROPVARIANT) : NTSTATUS × SENSOR_COLLECTION_LIST :=
  match setFirstOfKey pKey pValue pList.List with
  | some l => (STATUS_SUCCESS, { pList with List := l })
  | none => (if mustExist then STATUS_NOT_FOUND else STATUS_SUCCESS, pList)

/-- Modelled from the spec: the library routine `PropKeyFindKeyGetFloat` is not part of
the sources; the spec describes it as `findAndGet(catalogId, key) -> value |
KeyNotFoundError`. The result is the status and the float found; an entry whose value
is not a float gives no float and counts as not found. -/
def PropKeyFindKeyGetFloat (pList : SENSOR_COLLECTION_LIST) (pKey : PROPERTYKEY) :
    NTSTATUS × Option FLOAT :=
  match pList.List.find? (fun p => decide (p.Key = pKey)) with
  | some { Key := _, Value := PROPVARIANT.VT_R4 fltVal } => (STATUS_SUCCESS, some fltVal)
  | _ => (STATUS_NOT_FOUND, none)

/-! ## The catalog getters -/

/-- A call that does not return: it writes through a null pointer. -/
inductive Fault
  | nullPointerWrite
  deriving DecidableEq

/-- The routine `AlsDevice::OnGetSupportedDataFields`. `pFields` and `pSize` are the
contents of the two locations when the pointers are not null; the result holds the
status and their contents after the call. -/
def OnGetSupportedDataFields (U : SensorsUtils) (SensorInstance : Option AlsDevice)
    (pFields : Option SENSOR_PROPERTY_LIST) (pSize : Option Nat) :
    Except Fault (NTSTATUS × Option SENSOR_PROPERTY_LIST × Option Nat) :=
  match pSize with
  | none => Except.ok (STATUS_INVALID_PARAMETER, pFields, none)
  | some _ =>
    match SensorInstance with
    | none => Except.ok (STATUS_INVALID_PARAMETER, pFields, some 0)
    | some pDevice =>
      match pFields with
      | none =>
        -- Just return size
        Except.ok (STATUS_SUCCESS, none, some pDevice.m_pSupportedDataFields.AllocatedSizeInBytes)
      | some fields =>
        if fields.AllocatedSizeInBytes < pDevice.m_pSupportedDataFields.AllocatedSizeInBytes then
          Except.ok (STATUS_INSUFFICIENT_RESOURCES, some fields, some 0)
        else
          -- Fill out data
          let r := U.PropertiesListCopy fields pDevice.m_pSupportedDataFields
          if !NT_SUCCESS r.1 then
            Except.ok (r.1, some r.2, some 0)
          else
            Except.ok (r.1, some r.2, some pDevice.m_pSupportedDataFields.AllocatedSizeInBytes)

/-- The code after the label `Exit` of `OnGetProperties` and `OnGetDataFieldProperties`:
on a failure status `*pSize = 0` is executed, whatever `pSize` is. -/
def OnGet_Exit (Status : NTSTATUS) (pProperties : Option SENSOR_COLLECTION_LIST)
    (pSize : Option Nat) :
    Except Fault (NTSTATUS × Option SENSOR_COLLECTION_LIST × Option Nat) :=
  if !NT_SUCCESS Status then
    match pSize with
    | none => Except.error Fault.nullPointerWrite
    | some _ => Except.ok (Status, pProperties, some 0)
  else
    Except.ok (Status, pProperties, pSize)

/-- The part of `OnGetProperties` and `OnGetDataFieldProperties` that answers from the
list `pSource` once the arguments are checked. -/
def OnGet_fill (U : SensorsUtils) (pSource : SENSOR_COLLECTION_LIST)
    (pProperties : Option SENSOR_COLLECTION_LIST) (pSize : Option Nat) :
    Except Fault (NTSTATUS × Option SENSOR_COLLECTION_LIST × Option Nat) :=
  match pProperties with
  | none =>
    -- Just return size
    OnGet_Exit STATUS_SUCCESS none (pSize.map (fun _ => U.CollectionsListGetMarshalledSize pSource))
  | some properties =>
    if properties.AllocatedSizeInBytes < U.CollectionsListGetMarshalledSize pSource then
      OnGet_Exit STATUS_INSUFFICIENT_RESOURCES (some properties) pSize
    else
      -- Fill out all data
      let r := U.CollectionsListCopyAndMarshall properties pSource
      if !NT_SUCCESS r.1 then
        OnGet_Exit r.1 (some r.2) pSize
      else
        OnGet_Exit r.1 (some r.2)
          (pSize.map (fun _ => U.CollectionsListGetMarshalledSize pSource))

/-- The routine `AlsDevice::OnGetProperties`. -/
def OnGetProperties (U : SensorsUtils) (SensorInstance : Option AlsDevice)
    (pProperties : Option SENSOR_COLLECTION_LIST) (pSize : Option Nat) :
    Except Fault (NTSTATUS × Option SENSOR_COLLECTION_LIST × Option Nat) :=
  match SensorInstance, pSize with
  | some pDevice, some _ => OnGet_fill U pDevice.m_pSensorProperties pProperties pSize
  | _, _ => OnGet_Exit STATUS_INVALID_PARAMETER pProperties pSize

/-- The routine `AlsDevice::OnGetDataFieldProperties`. -/
def OnGetDataFieldProperties (U : SensorsUtils) (SensorInstance : Option AlsDevice)
    (DataField : Option PROPERTYKEY) (pProperties : Option SENSOR_COLLECTION_LIST)
    (pSize : Option Nat) :
    Except Fault (NTSTATUS × Option SENSOR_COLLECTION_LIST × Option Nat) :=
  match SensorInstance, pSize, DataField with
  | some pDevice, some _, some key =>
    if IsKeyPresentInPropertyList pDevice.m_pSupportedDataFields key then
      OnGet_fill U pDevice.m_pDataFieldProperties pProperties pSize
    else
      OnGet_Exit STATUS_NOT_SUPPORTED pProperties pSize
  | _, _, _ => OnGet_Exit STATUS_INVALID_PARAMETER pProperties pSize

/-- The routine `AlsDevice::OnGetDataThresholds`. -/
def OnGetDataThresholds (U : SensorsUtils) (SensorInstance : Option AlsDevice)
    (pThresholds : Option SENSOR_COLLECTION_LIST) (pSize : Option Nat) :
    Except Fault (NTSTATUS × Option SENSOR_COLLECTION_LIST × Option Nat) :=
  match pSize with
  | none => Except.ok (STATUS_INVALID_PARAMETER, pThresholds, none)
  | some _ =>
    match SensorInstance with
    | none => Except.ok (STATUS_INVALID_PARAMETER, pThresholds, some 0)
    | some pDevice =>
      match pThresholds with
      | none =>
        -- Just return size
        Except.ok (STATUS_SUCCESS, none,
          some (U.CollectionsListGetMarshalledSize pDevice.m_pThresholds))
      | some thresholds =>
        if thresholds.AllocatedSizeInBytes <
            U.CollectionsListGetMarshalledSize pDevice.m_pThresholds then
          Except.ok (STATUS_INSUFFICIENT_RESOURCES, some thresholds, some 0)
        else
          -- Fill out all data
          let r := U.CollectionsListCopyAndMarshall thresholds pDevice.m_pThresholds
          if !NT_SUCCESS r.1 then
            Except.ok (r.1, some r.2, some 0)
          else
            Except.ok (r.1, some r.2,
              some (U.CollectionsListGetMarshalledSize pDevice.m_pThresholds))

/-! ## `AlsDevice::OnSetDataThresholds` and `AlsDevice::UpdateCachedThreshold` -/

/-- The routine `AlsDevice::UpdateCachedThreshold`. -/
def UpdateCachedThreshold (d : AlsDevice) : NTSTATUS × AlsDevice :=
  let r := PropKeyFindKeyGetFloat d.m_pThresholds PROPERTYKEY.PKEY_SensorData_LightLevel_Lux
  let d := { d with m_CachedThresholds :=
    { d.m_CachedThresholds with LuxPct := r.2.getD d.m_CachedThresholds.LuxPct } }
  if !NT_SUCCESS r.1 then
    (r.1, d)
  else
    let r := PropKeyFindKeyGetFloat d.m_pThresholds
      PROPERTYKEY.PKEY_SensorData_LightLevel_Lux_Threshold_AbsoluteDifference
    let d := { d with m_CachedThresholds :=
      { d.m_CachedThresholds with LuxAbs := r.2.getD d.m_CachedThresholds.LuxAbs } }
    (r.1, d)

/-- The loop of `OnSetDataThresholds` over the entries of the batch: the status after
the loop and the threshold catalog after it. -/
def OnSetDataThresholds_loop :
    SENSOR_COLLECTION_LIST → List SENSOR_VALUE_PAIR → NTSTATUS → NTSTATUS × SENSOR_COLLECTION_LIST
  | m_pThresholds, [], Status => (Status, m_pThresholds)
  | m_pThresholds, p :: rest, _ =>
    let r := PropKeyFindKeySetPropVariant m_pThresholds p.Key true p.Value
    if !NT_SUCCESS r.1 then
      (STATUS_INVALID_PARAMETER, r.2)
    else
      OnSetDataThresholds_loop r.2 rest r.1

/-- The routine `AlsDevice::OnSetDataThresholds`. -/
def OnSetDataThresholds (SensorInstance : Option AlsDevice)
    (pThresholds : SENSOR_COLLECTION_LIST) : NTSTATUS × Option AlsDevice :=
  match SensorInstance with
  | none => (STATUS_INVALID_PARAMETER, none)
  | some pDevice =>
    let r := OnSetDataThresholds_loop pDevice.m_pThresholds pThresholds.List STATUS_SUCCESS
    let pDevice := { pDevice with m_pThresholds := r.2 }
    -- Update cached threshholds
    if NT_SUCCESS r.1 then
      let u := UpdateCachedThreshold pDevice
      (u.1, some u.2)
    else
      (r.1, some pDevice)

/-! ## `AlsDevice::Initialize` -/

def SENSOR_ALS_MANUFACTURER : String := "Intersil"
def SENSOR_ALS_MODEL : String := "ISL29018"

/-- The value of `SensorConnectionType::Integrated`. -/
def SensorConnectionType_Integrated : Nat := 0

/-- The device context as the framework allocates it: zero-filled, no list allocated. -/
def AlsDevice.zeroed : AlsDevice :=
  { m_I2CWaitLock := 0, m_Timer := none, m_PoweredOn := false, m_Started := false,
    m_Interval := 0, m_MinimumInterval := 0, m_FirstSample := false, m_StartTime := 0,
    m_SampleCount := 0, m_CachedThresholds := { LuxPct := 0, LuxAbs := 0 },
    m_CachedData := 0, m_LastSample := 0,
    m_pSupportedDataFields := { AllocatedSizeInBytes := 0, List := [] },
    m_pEnumerationProperties := { AllocatedSizeInBytes := 0, List := [] },
    m_pSensorProperties := { AllocatedSizeInBytes := 0, List := [] },
    m_pSensorData := { AllocatedSizeInBytes := 0, List := [] },
    m_pDataFieldProperties := { AllocatedSizeInBytes := 0, List := [] },
    m_pThresholds := { AllocatedSizeInBytes := 0, List := [] } }

/-- The routine `AlsDevice::Initialize`. `CreateStatus k` is the status of the `k`-th
object creation (the lock, the timer, then the six lists; a creation that succeeds
delivers its object) and `Time` the reading of `GetSystemTimePreciseAsFileTime`. -/
def Initialize (U : SensorsUtils) (CreateStatus : Nat → NTSTATUS) (Time : Nat) :
    NTSTATUS × AlsDevice :=
  let d := { AlsDevice.zeroed with m_Started := false }
  -- Create Lock
  let Status := CreateStatus 0
  if !NT_SUCCESS Status then (Status, d) else
  -- Create timer object for polling sensor samples
  let Status := CreateStatus 1
  if !NT_SUCCESS Status then (Status, d) else
  -- Sensor Enumeration Properties
  let Status := CreateStatus 2
  if !NT_SUCCESS Status then (Status, d) else
  let d := { d with m_pEnumerationProperties :=
    { AllocatedSizeInBytes := U.SENSOR_COLLECTION_LIST_SIZE SENSOR_ENUMERATION_PROPERTIES_COUNT,
      List :=
        [ { Key := PROPERTYKEY.DEVPKEY_Sensor_Type,
            Value := PROPVARIANT.VT_CLSID GUID.GUID_SensorType_AmbientLight },
          { Key := PROPERTYKEY.DEVPKEY_Sensor_Manufacturer,
            Value := PROPVARIANT.VT_LPWSTR SENSOR_ALS_MANUFACTURER },
          { Key := PROPERTYKEY.DEVPKEY_Sensor_Model,
            Value := PROPVARIANT.VT_LPWSTR SENSOR_ALS_MODEL },
          { Key := PROPERTYKEY.DEVPKEY_Sensor_ConnectionType,
            Value := PROPVARIANT.VT_UI4 SensorConnectionType_Integrated },
          { Key := PROPERTYKEY.DEVPKEY_Sensor_PersistentUniqueId,
            Value := PROPVARIANT.VT_CLSID GUID.GUID_AlsDevice_UniqueID },
          { Key := PROPERTYKEY.DEVPKEY_Sensor_Category,
            Value := PROPVARIANT.VT_CLSID GUID.GUID_SensorCategory_Light },
          { Key := PROPERTYKEY.DEVPKEY_Sensor_IsPrimary,
            Value := PROPVARIANT.VT_BOOL true } ] } }
  -- Supported Data-Fields
  let Status := CreateStatus 3
  if !NT_SUCCESS Status then (Status, d) else
  let d := { d with m_pSupportedDataFields :=
    { AllocatedSizeInBytes := U.SENSOR_PROPERTY_LIST_SIZE ALS_DATA_COUNT,
      List := [ PROPERTYKEY.PKEY_SensorData_Timestamp,
                PROPERTYKEY.PKEY_SensorData_LightLevel_Lux ] } }
  -- Data
  let Status := CreateStatus 4
  if !NT_SUCCESS Status then (Status, d) else
  let d := { d with m_pSensorData :=
    { AllocatedSizeInBytes := U.SENSOR_COLLECTION_LIST_SIZE ALS_DATA_COUNT,
      List :=
        [ { Key := PROPERTYKEY.PKEY_SensorData_Timestamp,
            Value := PROPVARIANT.VT_FILETIME Time },
          { Key := PROPERTYKEY.PKEY_SensorData_LightLevel_Lux,
            Value := PROPVARIANT.VT_R4 0 } ] } }
  let d := { d with m_CachedData := 1 }
  let d := { d with m_LastSample := 0 }
  -- Sensor Properties
  let Status := CreateStatus 5
  if !NT_SUCCESS Status then (Status, d) else
  let d := { d with m_Interval := Als_Initial_MinDataInterval_Ms }
  let d := { d with m_MinimumInterval := Als_Initial_MinDataInterval_Ms }
  let d := { d with m_pSensorProperties :=
    { AllocatedSizeInBytes := U.SENSOR_COLLECTION_LIST_SIZE SENSOR_PROPERTIES_COUNT,
      List :=
        [ { Key := PROPERTYKEY.PKEY_Sensor_State,
            Value := PROPVARIANT.VT_UI4 SensorState_Initializing },
          { Key := PROPERTYKEY.PKEY_Sensor_MinimumDataInterval_Ms,
            Value := PROPVARIANT.VT_UI4 Als_Initial_MinDataInterval_Ms },
          { Key := PROPERTYKEY.PKEY_Sensor_MaximumDataFieldSize_Bytes,
            Value := PROPVARIANT.VT_UI4 (U.CollectionsListGetMarshalledSize d.m_pSensorData) },
          { Key := PROPERTYKEY.PKEY_Sensor_Type,
            Value := PROPVARIANT.VT_CLSID GUID.GUID_SensorType_AmbientLight },
          { Key := PROPERTYKEY.PKEY_LightSensor_ResponseCurve,
            Value := PROPVARIANT.VT_VECTOR_UI4 [0, 10, 10, 40, 40, 100, 68, 400, 90, 1000] } ] } }
  -- Data filed properties
  let Status := CreateStatus 6
  if !NT_SUCCESS Status then (Status, d) else
  let d := { d with m_pDataFieldProperties :=
    { AllocatedSizeInBytes := U.SENSOR_COLLECTION_LIST_SIZE SENSOR_DATA_FIELD_PROPERTIES_COUNT,
      List :=
        [ { Key := PROPERTYKEY.PKEY_SensorDataField_Resolution,
            Value := PROPVARIANT.VT_R4 AlsDevice_Resolution_Lux },
          { Key := PROPERTYKEY.PKEY_SensorDataField_RangeMinimum,
            Value := PROPVARIANT.VT_R4 AlsDevice_Minimum_Lux },
          { Key := PROPERTYKEY.PKEY_SensorDataField_RangeMaximum,
            Value := PROPVARIANT.VT_R4 AlsDevice_Maximum_Lux } ] } }
  -- Set default threshold
  let Status := CreateStatus 7
  if !NT_SUCCESS Status then (Status, d) else
  let d := { d with m_pThresholds :=
    { AllocatedSizeInBytes := U.SENSOR_COLLECTION_LIST_SIZE ALS_THRESHOLD_COUNT,
      List :=
        [ { Key := PROPERTYKEY.PKEY_SensorData_LightLevel_Lux,
            Value := PROPVARIANT.VT_R4 Als_Initial_Lux_Threshold_Pct },
          { Key := PROPERTYKEY.PKEY_SensorData_LightLevel_Lux_Threshold_AbsoluteDifference,
            Value := PROPVARIANT.VT_R4 Als_Initial_Lux_Threshold_Abs } ] } }
  let d := { d with m_CachedThresholds :=
    { LuxPct := Als_Initial_Lux_Threshold_Pct, LuxAbs := Als_Initial_Lux_Threshold_Abs } }
  let d := { d with m_FirstSample := true }
  (Status, d)

/-! ## The operations on a device -/

/-- The calls that act on the device context, each with the answers of the
collaborators during the call. The catalog getters and `OnGetDataInterval` only read
the context. -/
inductive Op
  | PowerOn (WriteStatus : Nat → NTSTATUS)
  | PowerOff (WriteStatus : NTSTATUS)
  | OnStart (WriteStatus : NTSTATUS)
  | OnStop (env : StopEnv)
  | OnSetDataInterval (DataRateMs : Nat)
  | OnSetDataThresholds (pThresholds : SENSOR_COLLECTION_LIST)
  | OnTimerExpire (env : TimerEnv)
  | OnInterruptWorkItem (env : GetDataEnv)

/-- The device context after one operation on it. -/
def step (d : AlsDevice) : Op → AlsDevice
  | Op.PowerOn WriteStatus => (PowerOn d WriteStatus).2.1
  | Op.PowerOff WriteStatus => (PowerOff d WriteStatus).2.1
  | Op.OnStart WriteStatus => ((OnStart (some d) WriteStatus).2.1).getD d
  | Op.OnStop env => ((OnStop (some d) env).2.1).getD d
  | Op.OnSetDataInterval DataRateMs => ((OnSetDataInterval (some d) DataRateMs).2.1).getD d
  | Op.OnSetDataThresholds pThresholds => ((OnSetDataThresholds (some d) pThresholds).2).getD d
  | Op.OnTimerExpire env => ((OnTimerExpire (some d) env).1).getD d
  | Op.OnInterruptWorkItem env => ((OnInterruptWorkItem (some d) env).1).getD d

/-- The samples a list of calls hands to the class extension, in order. -/
def published : List Event → List SENSOR_COLLECTION_LIST
  | [] => []
  | Event.SensorsCxSensorDataReady pSensorData :: rest => pSensorData :: published rest
  | _ :: rest => published rest

/-- The register writes in a list of calls, in order: register, value, size. -/
def registerWrites : List Event → List (Nat × Nat × Nat)
  | [] => []
  | Event.I2CSensorWriteRegister Register Value Size :: rest =>
    (Register, Value, Size) :: registerWrites rest
  | _ :: rest => registerWrites rest

/-- The due times of the `WdfTimerStart` calls in a list of calls, in order. -/
def timerStarts : List Event → List Int
  | [] => []
  | Event.WdfTimerStart DueTime :: rest => DueTime :: timerStarts rest
  | _ :: rest => timerStarts rest

/-- The calls to the timer (`WdfTimerStart`, `WdfTimerStop`) in a list of calls. -/
def timerCalls : List Event → List Event
  | [] => []
  | Event.WdfTimerStart DueTime :: rest => Event.WdfTimerStart DueTime :: timerCalls rest
  | Event.WdfTimerStop Wait :: rest => Event.WdfTimerStop Wait :: timerCalls rest
  | _ :: rest => timerCalls rest

/-! ## Concrete inputs -/

/-- A choice of the layout-dependent routines on which the driver's code can be
evaluated: 16 bytes a list and 32 bytes an entry, and copies that always succeed. -/
def sampleUtils : SensorsUtils :=
  { SENSOR_PROPERTY_LIST_SIZE := fun n => 16 + 32 * n,
    SENSOR_COLLECTION_LIST_SIZE := fun n => 16 + 32 * n,
    CollectionsListGetMarshalledSize := fun l => 16 + 32 * l.List.length,
    CollectionsListCopyAndMarshall := fun Target Source =>
      (STATUS_SUCCESS, { Target with List := Source.List }),
    PropertiesListCopy := fun Target Source =>
      (STATUS_SUCCESS, { Target with List := Source.List }) }

/-- The device context after a successful `Initialize`. -/
def sampleDevice : AlsDevice := (Initialize sampleUtils (fun _ => STATUS_SUCCESS) 0).2

/-- A powered-on device in the middle of a cycle whose last published sample is 100 lux,
with thresholds 10 % and 5 lux. -/
def sampleRunning : AlsDevice :=
  { sampleDevice with
    m_PoweredOn := true, m_Started := true, m_FirstSample := false,
    m_StartTime := 1000, m_SampleCount := 2, m_Interval := 100,
    m_LastSample := 100, m_CachedData := 100,
    m_CachedThresholds := { LuxPct := 1 / 10, LuxAbs := 5 } }

/-- Answers of the collaborators with a successful bus read of the two given bytes. -/
def sampleRead (DataBuffer0 DataBuffer1 : BYTE) : GetDataEnv :=
  { ReadStatus := STATUS_SUCCESS, DataBuffer0 := DataBuffer0, DataBuffer1 := DataBuffer1,
    PerfStatus := STATUS_SUCCESS, PerfTime := 1000, TimeStamp := 7 }

/-- Answers of the collaborators during a tick whose bus read delivers the raw reading
0x072B and whose clock reads `CurrentTimeMs`. -/
def sampleTick (CurrentTimeMs : Nat) : TimerEnv :=
  { getData := sampleRead 0x2B 0x07, PerfStatus := STATUS_SUCCESS,
    CurrentTimeMs := CurrentTimeMs }

/-- Answers of the collaborators with a failed bus read (the data buffer is left as
the two given bytes) and a working clock. -/
def sampleReadFails (DataBuffer0 DataBuffer1 : BYTE) : GetDataEnv :=
  { ReadStatus := STATUS_UNSUCCESSFUL, DataBuffer0 := DataBuffer0, DataBuffer1 := DataBuffer1,
    PerfStatus := STATUS_SUCCESS, PerfTime := 1000, TimeStamp := 7 }

/-- The device after `Initialize`, a successful `PowerOn` and a successful `OnStart`:
powered on, started, its timer armed and its `SensorState` property `SensorState_Active`. -/
def sampleActive : AlsDevice :=
  ((OnStart (some (PowerOn sampleDevice (fun _ => STATUS_SUCCESS)).2.1) STATUS_SUCCESS).2.1).getD
    sampleDevice

/-- Answers of the collaborators during an `OnStop` whose register write fails. -/
def sampleStopWriteFails : StopEnv :=
  { WriteStatus := STATUS_UNSUCCESSFUL, TimeEndPeriodResult := TIMERR_NOERROR }

/-- Answers of the collaborators during an `OnStop` whose register write succeeds and
whose `timeEndPeriod` fails (with `TIMERR_NOCANDO`, 97). -/
def sampleStopRestoreFails : StopEnv :=
  { WriteStatus := STATUS_SUCCESS, TimeEndPeriodResult := 97 }

/-- A device in the middle of a cycle with both thresholds 0, last published sample
100 lux and a cached reading of 50 lux. -/
def sampleZeroThresholds : AlsDevice :=
  { sampleRunning with
    m_CachedData := 50, m_CachedThresholds := { LuxPct := 0, LuxAbs := 0 } }

/-- Statuses of the register writes of a `PowerOn` whose second write fails. -/
def sampleSecondWriteFails (k : Nat) : NTSTATUS :=
  if k = 1 then STATUS_UNSUCCESSFUL else STATUS_SUCCESS

/-! ## Quantities of the data conversion and of the threshold batches -/

/-- The raw 16-bit value assembled little-endian from the two data bytes. -/
def rawValue (DataBuffer0 DataBuffer1 : BYTE) : Nat := DataBuffer0.val + 256 * DataBuffer1.val

/-- The value a batch of (key, float) pairs gives the key `pKey`: the value of the last
entry of the batch that carries the key, and `old` when no entry carries it. -/
def lastValueOf (pKey : PROPERTYKEY) (old : FLOAT) : List (PROPERTYKEY × FLOAT) → FLOAT
  | [] => old
  | e :: rest => lastValueOf pKey (if e.1 = pKey then e.2 else old) rest

/-- A batch of (key, float) pairs as the collection list handed to `OnSetDataThresholds`. -/
def thresholdBatch (AllocatedSizeInBytes : Nat) (batch : List (PROPERTYKEY × FLOAT)) :
    SENSOR_COLLECTION_LIST :=
  { AllocatedSizeInBytes := AllocatedSizeInBytes,
    List := batch.map (fun e => { Key := e.1, Value := PROPVARIANT.VT_R4 e.2 }) }

/-- The catalog after the entries are stored into it one after the other, each under
its key. -/
def applyEntries (pList : SENSOR_COLLECTION_LIST) : List SENSOR_VALUE_PAIR → SENSOR_COLLECTION_LIST
  | [] => pList
  | p :: rest => applyEntries (PropKeyFindKeySetPropVariant pList p.Key true p.Value).2 rest

/-- The keys of a catalog, in order. -/
def keysOf (pList : SENSOR_COLLECTION_LIST) : List PROPERTYKEY :=
  pList.List.map (fun p => p.Key)

/-! ## Quantities of `GetData` the statements speak about -/

/-- The candidate of a call of `GetData`: the value of `m_CachedData` after the read
block, the converted reading when the bus read succeeded and the value cached before
the call when it failed. -/
def candidate (d : AlsDevice) (env : GetDataEnv) : FLOAT :=
  if NT_SUCCESS env.ReadStatus then luxOfDataBuffer env.DataBuffer0 env.DataBuffer1
  else d.m_CachedData

/-- The value of the local variable `DataReady` of `GetData` when the routine tests it:
the verdict of the threshold gate. -/
def DataReady (d : AlsDevice) (env : GetDataEnv) : Bool :=
  if d.m_FirstSample then true
  else thresholdsExceeded { d with m_CachedData := candidate d env }

/-- The data record `GetData` publishes for the lux value `lux`: the record of the
device with the lux and the time stamp written into it. -/
def sampleRecord (d : AlsDevice) (env : GetDataEnv) (lux : FLOAT) : SENSOR_COLLECTION_LIST :=
  SetValueAt (SetValueAt d.m_pSensorData ALS_DATA_LUX (PROPVARIANT.VT_R4 lux))
    ALS_DATA_TIMESTAMP (PROPVARIANT.VT_FILETIME env.TimeStamp)

/-! ## Sequences of operations -/

/-- The device context after a list of operations, one after the other. -/
def run (d : AlsDevice) : List Op → AlsDevice
  | [] => d
  | op :: rest => run (step d op) rest

/-- Answers of the collaborators during a tick whose bus read delivers the raw reading
0x072B and on which both clock reads fail. -/
def sampleTickClockFails : TimerEnv :=
  { getData := { sampleRead 0x2B 0x07 with PerfStatus := STATUS_UNSUCCESSFUL },
    PerfStatus := STATUS_UNSUCCESSFUL, CurrentTimeMs := 0 }

/-- The condition of `OnTimerExpire` under which it schedules the next wake up. -/
abbrev OnTimerExpire_engaged (pDevice : AlsDevice) : Prop :=
  pDevice.m_MinimumInterval ≤ pDevice.m_Interval ∧ pDevice.m_PoweredOn = true ∧
    pDevice.m_Started = true

/-! ## The bus lock along a list of calls -/

/-- The hold count of the bus lock after a list of calls entered with the hold count
`held`: an acquire counts one up, a release one down. -/
def holdCountAfter : Int → List Event → Int
  | held, [] => held
  | held, Event.WdfWaitLockAcquire :: rest => holdCountAfter (held + 1) rest
  | held, Event.WdfWaitLockRelease :: rest => holdCountAfter (held - 1) rest
  | held, _ :: rest => holdCountAfter held rest

/-- Whether every register read and write of a list of calls entered with the hold
count `held` is made while the lock is held. -/
def accessesWhileHeld : Int → List Event → Bool
  | _, [] => true
  | held, Event.WdfWaitLockAcquire :: rest => accessesWhileHeld (held + 1) rest
  | held, Event.WdfWaitLockRelease :: rest => accessesWhileHeld (held - 1) rest
  | held, Event.I2CSensorReadRegister _ _ :: rest =>
    decide (0 < held) && accessesWhileHeld held rest
  | held, Event.I2CSensorWriteRegister _ _ _ :: rest =>
    decide (0 < held) && accessesWhileHeld held rest
  | held, _ :: rest => accessesWhileHeld held rest

/-- Whether no acquire of a list of calls entered with the hold count `held` is made
while the lock is held. -/
def noNestedAcquire : Int → List Event → Bool
  | _, [] => true
  | held, Event.WdfWaitLockAcquire :: rest =>
    decide (held ≤ 0) && noNestedAcquire (held + 1) rest
  | held, Event.WdfWaitLockRelease :: rest => noNestedAcquire (held - 1) rest
  | held, _ :: rest => noNestedAcquire held rest

/-! ## The shape of the catalogs -/

/-- The keys of the six lists of a device, in the order: supported data fields,
enumeration properties, sensor properties, data record, data-field properties,
thresholds. -/
def catalogKeys (d : AlsDevice) : List (List PROPERTYKEY) :=
  [ d.m_pSupportedDataFields.List, keysOf d.m_pEnumerationProperties,
    keysOf d.m_pSensorProperties, keysOf d.m_pSensorData, keysOf d.m_pDataFieldProperties,
    keysOf d.m_pThresholds ]

/-! ## Thresholds that are not negative -/

/-- Whether a value is a float that is not negative. -/
def floatNonneg : PROPVARIANT → Prop
  | PROPVARIANT.VT_R4 fltVal => 0 ≤ fltVal
  | _ => False

/-- Whether the operation, if it is an `OnSetDataThresholds`, carries a batch of floats
none of which is negative. -/
def nonnegBatch : Op → Prop
  | Op.OnSetDataThresholds pThresholds => ∀ p ∈ pThresholds.List, floatNonneg p.Value
  | _ => True

/-- Whether the cached thresholds and the values of the threshold catalog are floats
that are not negative. -/
def thresholdsNonneg (d : AlsDevice) : Prop :=
  0 ≤ d.m_CachedThresholds.LuxPct ∧ 0 ≤ d.m_CachedThresholds.LuxAbs ∧
    ∀ p ∈ d.m_pThresholds.List, floatNonneg p.Value

/-! ## Lemmas on the helpers -/

theorem published_readEvents : published GetData_readEvents = [] := rfl

theorem published_readEvents_append (l : List Event) :
    published (GetData_readEvents ++ l) = published l := rfl

theorem ValueAt_SetValueAt_same (pList : SENSOR_COLLECTION_LIST) (Index : Nat)
    (Value : PROPVARIANT) (h : Index < pList.List.length) :
    ValueAt (SetValueAt pList Index Value) Index = some Value := by
  simp [ValueAt, SetValueAt, List.getElem?_modify, h]

theorem ValueAt_SetValueAt_other (pList : SENSOR_COLLECTION_LIST) (Index Index2 : Nat)
    (Value : PROPVARIANT) (h : Index ≠ Index2) :
    ValueAt (SetValueAt pList Index Value) Index2 = ValueAt pList Index2 := by
  simp [ValueAt, SetValueAt, List.getElem?_modify, h]

theorem SetValueAt_length (pList : SENSOR_COLLECTION_LIST) (Index : Nat) (Value : PROPVARIANT) :
    (SetValueAt pList Index Value).List.length = pList.List.length := by
  simp [SetValueAt]

/-- The three possible courses of `GetData`, by the verdict of the gate. -/
theorem GetData_eq (d : AlsDevice) (env : GetDataEnv) :
    GetData d env =
      if DataReady d env then
        ((if d.m_FirstSample then env.PerfStatus else env.ReadStatus),
         { d with
           m_CachedData := candidate d env,
           m_LastSample := candidate d env,
           m_pSensorData := sampleRecord d env (candidate d env),
           m_FirstSample := false,
           m_StartTime := if d.m_FirstSample then
             (if NT_SUCCESS env.PerfStatus then env.PerfTime else 0) else d.m_StartTime,
           m_SampleCount := if d.m_FirstSample then 0 else d.m_SampleCount },
         GetData_readEvents ++
           [Event.SensorsCxSensorDataReady (sampleRecord d env (candidate d env))])
      else
        (STATUS_DATA_NOT_ACCEPTED, { d with m_CachedData := candidate d env },
         GetData_readEvents) := by
  cases hF : d.m_FirstSample <;> cases hR : NT_SUCCESS env.ReadStatus <;>
    simp [GetData, GetData_push, DataReady, candidate, sampleRecord, hF, hR]

theorem published_GetData (d : AlsDevice) (env : GetDataEnv) :
    published (GetData d env).2.2 =
      if DataReady d env then [sampleRecord d env (candidate d env)] else [] := by
  rw [GetData_eq]
  split <;> simp [published_readEvents_append, published_readEvents, published]

/-! ## The threshold gate -/

/-- C1: on a tick that is not the first of its cycle and whose bus read succeeds, with
`p` the last published lux, `c` the candidate converted from the two data bytes, and
`pct`, `a` the cached thresholds (all exact rationals), `GetData` publishes the
candidate, as the one sample of the call, if and only if `|c - p| >= p * pct` and
`|c - p| >= a`; otherwise it publishes nothing. -/
theorem GetData_publishes_iff_thresholds (d : AlsDevice) (env : GetDataEnv)
    (p c pct a : FLOAT)
    (hFirst : d.m_FirstSample = false) (hRead : NT_SUCCESS env.ReadStatus = true)
    (hp : d.m_LastSample = p) (hc : luxOfDataBuffer env.DataBuffer0 env.DataBuffer1 = c)
    (hpct : d.m_CachedThresholds.LuxPct = pct) (ha : d.m_CachedThresholds.LuxAbs = a) :
    (published (GetData d env).2.2 = [sampleRecord d env c] ↔
      (|c - p| ≥ p * pct ∧ |c - p| ≥ a)) ∧
    (published (GetData d env).2.2 = [] ↔ ¬ (|c - p| ≥ p * pct ∧ |c - p| ≥ a)) := by
  subst hp hc hpct ha
  rw [published_GetData]
  have hD : DataReady d env = true ↔
      (|luxOfDataBuffer env.DataBuffer0 env.DataBuffer1 - d.m_LastSample| ≥
          d.m_LastSample * d.m_CachedThresholds.LuxPct ∧
        |luxOfDataBuffer env.DataBuffer0 env.DataBuffer1 - d.m_LastSample| ≥
          d.m_CachedThresholds.LuxAbs) := by
    simp [DataReady, hFirst, thresholdsExceeded, candidate, hRead]
  have hcand : candidate d env = luxOfDataBuffer env.DataBuffer0 env.DataBuffer1 := by
    simp [candidate, hRead]
  rw [hcand]
  constructor
  · rw [← hD]
    cases DataReady d env <;> simp
  · rw [← hD]
    cases DataReady d env <;> simp

theorem luxOfDataBuffer_E9_06 : luxOfDataBuffer 0xE9 0x06 = 221125 / 2048 := by
  have h : toSHORT (((0x06 : BYTE).val <<< 8) ||| (0xE9 : BYTE).val) = 1769 := by decide
  simp only [luxOfDataBuffer, h]
  norm_num [AlsDevice_Resolution_Lux, AlsDevice_Range_Lux, AlsDevice_Maximum_Lux,
    AlsDevice_Minimum_Lux, AlsDevice_Precision]

theorem luxOfDataBuffer_2B_07 : luxOfDataBuffer 0x2B 0x07 = 229375 / 2048 := by
  have h : toSHORT (((0x07 : BYTE).val <<< 8) ||| (0x2B : BYTE).val) = 1835 := by decide
  simp only [luxOfDataBuffer, h]
  norm_num [AlsDevice_Resolution_Lux, AlsDevice_Range_Lux, AlsDevice_Maximum_Lux,
    AlsDevice_Minimum_Lux, AlsDevice_Precision]

/-- C1 at a concrete input: last published lux 100, thresholds 10 % and 5 lux. The raw
reading 0x06E9 (107.97 lux, a change of 7.97 < 10) is suppressed, the raw reading 0x072B
(111.9995 lux, a change of 11.9995) is published. -/
theorem GetData_publishes_iff_thresholds_witness :
    published (GetData sampleRunning (sampleRead 0xE9 0x06)).2.2 = [] ∧
    published (GetData sampleRunning (sampleRead 0x2B 0x07)).2.2 =
      [sampleRecord sampleRunning (sampleRead 0x2B 0x07) (229375 / 2048)] :=
  ⟨(GetData_publishes_iff_thresholds sampleRunning (sampleRead 0xE9 0x06)
      100 (221125 / 2048) (1 / 10) 5 rfl (by decide) rfl luxOfDataBuffer_E9_06 rfl rfl).2.mpr
      (by norm_num [abs_lt]),
   (GetData_publishes_iff_thresholds sampleRunning (sampleRead 0x2B 0x07)
      100 (229375 / 2048) (1 / 10) 5 rfl (by decide) rfl luxOfDataBuffer_2B_07 rfl rfl).1.mpr
      (by norm_num [le_abs])⟩

theorem published_append (l₁ l₂ : List Event) :
    published (l₁ ++ l₂) = published l₁ ++ published l₂ := by
  induction l₁ with
  | nil => rfl
  | cons e l ih => cases e <;> simp [published, ih]

theorem DataReady_of_first (d : AlsDevice) (env : GetDataEnv) (h : d.m_FirstSample = true) :
    DataReady d env = true := by
  simp [DataReady, h]

/-- The hold count of the lock and the state of the timer do not influence `GetData`,
which leaves both as they are. -/
theorem GetData_lock_timer (d : AlsDevice) (env : GetDataEnv) (k : Int) (t : Option Int) :
    GetData { d with m_I2CWaitLock := k, m_Timer := t } env =
      ((GetData d env).1,
       { (GetData d env).2.1 with m_I2CWaitLock := k, m_Timer := t },
       (GetData d env).2.2) := by
  have h1 : DataReady { d with m_I2CWaitLock := k, m_Timer := t } env = DataReady d env := rfl
  have h2 : candidate { d with m_I2CWaitLock := k, m_Timer := t } env = candidate d env := rfl
  have h3 : ∀ lux, sampleRecord { d with m_I2CWaitLock := k, m_Timer := t } env lux =
      sampleRecord d env lux := fun _ => rfl
  rw [GetData_eq, GetData_eq, h1, h2, h3]
  cases DataReady d env <;> simp

/-- The course of the timer callback: it stops in its own `WdfWaitLockAcquire` when the
lock is held, and in the `WdfWaitLockAcquire` of `GetData` when it is free. -/
theorem OnTimerExpire_course (d : AlsDevice) (env : TimerEnv) :
    OnTimerExpire (some d) env =
      if 0 < d.m_I2CWaitLock then
        { device := some { d with m_Timer := none },
          events := [Event.WdfWaitLockAcquire], returned := false }
      else
        { device := some { d with m_Timer := none, m_I2CWaitLock := d.m_I2CWaitLock + 1 },
          events := [Event.WdfWaitLockAcquire, Event.WdfWaitLockAcquire],
          returned := false } := by
  by_cases h : 0 < d.m_I2CWaitLock <;> simp [OnTimerExpire, WdfWaitLockAcquire, h]

/-- The device context a timer callback leaves differs from the one it found at most in
the timer and in the hold count of the lock. -/
theorem step_OnTimerExpire (d : AlsDevice) (env : TimerEnv) :
    ∃ k, step d (Op.OnTimerExpire env) = { d with m_Timer := none, m_I2CWaitLock := k } := by
  have h : step d (Op.OnTimerExpire env) = ((OnTimerExpire (some d) env).1).getD d := rfl
  rw [h, OnTimerExpire_course]
  split
  · exact ⟨d.m_I2CWaitLock, rfl⟩
  · exact ⟨d.m_I2CWaitLock + 1, rfl⟩

theorem OnSetDataThresholds_m_LastSample (d : AlsDevice) (pThresholds : SENSOR_COLLECTION_LIST) :
    (step d (Op.OnSetDataThresholds pThresholds)).m_LastSample = d.m_LastSample := by
  simp only [step, OnSetDataThresholds, UpdateCachedThreshold]
  split <;> (try split) <;> simp

/-- C3: with the candidate the value of `m_CachedData` after the read block and the
gate's verdict the value of `DataReady`: if the gate accepts, `GetData` sets
`m_LastSample` to the candidate, publishes exactly one sample, the data record of the
device, which carries that lux (when the record has its `ALS_DATA_COUNT` entries), and
clears `m_FirstSample`; if the gate suppresses, `m_LastSample`, the data record and
`m_FirstSample` are unchanged, nothing is published and the result is
`STATUS_DATA_NOT_ACCEPTED`. No operation changes `m_LastSample` except a timer tick or
an interrupt work item whose call of `GetData` accepts. -/
theorem GetData_accept_suppress (d : AlsDevice) (env : GetDataEnv) :
    (DataReady d env = true →
      (GetData d env).2.1.m_LastSample = candidate d env ∧
      published (GetData d env).2.2 = [(GetData d env).2.1.m_pSensorData] ∧
      (ALS_DATA_COUNT ≤ d.m_pSensorData.List.length →
        ValueAt (GetData d env).2.1.m_pSensorData ALS_DATA_LUX =
          some (PROPVARIANT.VT_R4 (candidate d env))) ∧
      (GetData d env).2.1.m_FirstSample = false) ∧
    (DataReady d env = false →
      (GetData d env).2.1.m_LastSample = d.m_LastSample ∧
      (GetData d env).2.1.m_pSensorData = d.m_pSensorData ∧
      (GetData d env).2.1.m_FirstSample = d.m_FirstSample ∧
      published (GetData d env).2.2 = [] ∧
      (GetData d env).1 = STATUS_DATA_NOT_ACCEPTED) ∧
    (∀ op : Op,
      (match op with
        | Op.OnTimerExpire tick => DataReady d tick.getData = false
        | Op.OnInterruptWorkItem work => DataReady d work = false
        | _ => True) →
      (step d op).m_LastSample = d.m_LastSample) := by
  refine ⟨?_, ?_, ?_⟩
  · intro h
    rw [published_GetData, GetData_eq, h]
    refine ⟨by simp, by simp, ?_, by simp⟩
    intro hlen
    simp only [if_true, sampleRecord]
    rw [ValueAt_SetValueAt_other _ _ _ _ (by decide)]
    apply ValueAt_SetValueAt_same
    simp only [ALS_DATA_COUNT, ALS_DATA_LUX] at *
    omega
  · intro h
    rw [published_GetData, GetData_eq, h]
    simp
  · intro op hop
    cases op with
    | PowerOn WriteStatus =>
      simp only [step, PowerOn]
      split <;> simp
    | PowerOff WriteStatus =>
      simp only [step, PowerOff]
      split <;> simp
    | OnStart WriteStatus =>
      simp only [step, OnStart]
      split <;> (try split) <;> simp
    | OnStop stop =>
      simp only [step, OnStop]
      split <;> (try split) <;> simp
    | OnSetDataInterval DataRateMs =>
      simp only [step, OnSetDataInterval]
      split <;> (try split) <;> simp
    | OnSetDataThresholds pThresholds => exact OnSetDataThresholds_m_LastSample d pThresholds
    | OnTimerExpire tick =>
      obtain ⟨k, hk⟩ := step_OnTimerExpire d tick
      rw [hk]
    | OnInterruptWorkItem work =>
      simp only [step, OnInterruptWorkItem, Option.getD_some]
      rw [GetData_eq, hop]
      simp

/-! ## Drift-compensated scheduling -/

theorem WDF_REL_TIMEOUT_IN_MS_eq (Time : Nat) (h : Time * 10000 < 2 ^ 63) :
    WDF_REL_TIMEOUT_IN_MS Time = -((Time : Int) * 10000) := by
  rcases Nat.eq_zero_or_pos Time with h0 | hpos
  · subst h0
    simp [WDF_REL_TIMEOUT_IN_MS, toLONGLONG, toULONGLONG]
  · have h1 : Time * (2 ^ 64 - 1) % 2 ^ 64 = 2 ^ 64 - Time := by
      have e : Time * (2 ^ 64 - 1) = (2 ^ 64 - Time) + 2 ^ 64 * (Time - 1) := by omega
      rw [e, Nat.add_mul_mod_self_left]
      apply Nat.mod_eq_of_lt
      omega
    have h2 : (2 ^ 64 - Time) * 10000 % 2 ^ 64 = 2 ^ 64 - Time * 10000 := by
      have e : (2 ^ 64 - Time) * 10000 = (2 ^ 64 - Time * 10000) + 2 ^ 64 * 9999 := by omega
      rw [e, Nat.add_mul_mod_self_left]
      apply Nat.mod_eq_of_lt
      omega
    have h3 : (2 ^ 64 - Time * 10000) % 2 ^ 64 = 2 ^ 64 - Time * 10000 :=
      Nat.mod_eq_of_lt (by omega)
    have h4 : WDF_REL_TIMEOUT_IN_MS Time = toLONGLONG (2 ^ 64 - Time * 10000) := by
      simp only [WDF_REL_TIMEOUT_IN_MS, toULONGLONG]
      rw [h1, h2]
    rw [h4]
    unfold toLONGLONG
    rw [h3]
    clear h1 h2 h3 h4
    split
    · omega
    · show ((2 ^ 64 - Time * 10000 : Nat) : Int) - 2 ^ 64 = -((Time : Int) * 10000)
      omega

/-- The fields `GetData` never writes. -/
theorem GetData_frame (d : AlsDevice) (env : GetDataEnv) :
    (GetData d env).2.1.m_Interval = d.m_Interval ∧
    (GetData d env).2.1.m_MinimumInterval = d.m_MinimumInterval ∧
    (GetData d env).2.1.m_PoweredOn = d.m_PoweredOn ∧
    (GetData d env).2.1.m_Started = d.m_Started ∧
    (GetData d env).2.1.m_Timer = d.m_Timer ∧
    (GetData d env).2.1.m_I2CWaitLock = d.m_I2CWaitLock ∧
    (GetData d env).2.1.m_CachedThresholds = d.m_CachedThresholds := by
  rw [GetData_eq]
  cases DataReady d env <;> simp

theorem GetData_m_StartTime (d : AlsDevice) (env : GetDataEnv) :
    (GetData d env).2.1.m_StartTime =
      if d.m_FirstSample then (if NT_SUCCESS env.PerfStatus then env.PerfTime else 0)
      else d.m_StartTime := by
  rw [GetData_eq]
  cases h : d.m_FirstSample <;> cases hD : DataReady d env <;> simp_all [DataReady]

theorem GetData_m_SampleCount (d : AlsDevice) (env : GetDataEnv) :
    (GetData d env).2.1.m_SampleCount = if d.m_FirstSample then 0 else d.m_SampleCount := by
  rw [GetData_eq]
  cases h : d.m_FirstSample <;> cases hD : DataReady d env <;> simp_all [DataReady]

theorem timerStarts_append (l₁ l₂ : List Event) :
    timerStarts (l₁ ++ l₂) = timerStarts l₁ ++ timerStarts l₂ := by
  induction l₁ with
  | nil => rfl
  | cons e l ih => cases e <;> simp [timerStarts, ih]

theorem timerStarts_GetData (d : AlsDevice) (env : GetDataEnv) :
    timerStarts (GetData d env).2.2 = [] := by
  rw [GetData_eq]
  cases DataReady d env <;> simp [timerStarts_append, timerStarts, GetData_readEvents]

theorem GetData_m_FirstSample (d : AlsDevice) (env : GetDataEnv) :
    (GetData d env).2.1.m_FirstSample = false := by
  rw [GetData_eq]
  cases h : d.m_FirstSample <;> cases hD : DataReady d env <;> simp_all [DataReady]

/-! ## `OnSetDataInterval` and `OnStart` -/

/-- C6: in every device state `OnSetDataInterval` with a data rate of 0 fails with
`STATUS_INVALID_PARAMETER`, makes no call to the timer (nor any other call) and leaves
the whole device context unchanged, in particular `m_Interval`, `m_Started`,
`m_FirstSample` and `m_Timer`. -/
theorem OnSetDataInterval_zero (d : AlsDevice) :
    OnSetDataInterval (some d) 0 = (STATUS_INVALID_PARAMETER, some d, []) ∧
    NT_SUCCESS STATUS_INVALID_PARAMETER = false := by
  constructor
  · simp [OnSetDataInterval]
  · decide

/-- C7: on a device with `m_PoweredOn = false`, `OnStart` fails with
`STATUS_INVALID_PARAMETER`, an error status, makes no call at all (no register write,
no timer call) and leaves the whole device context unchanged, in particular `m_Started`
(false before and after when it was false), `m_FirstSample`, `m_Timer` and the
`SensorState` property. -/
theorem OnStart_not_powered (d : AlsDevice) (WriteStatus : NTSTATUS)
    (hOff : d.m_PoweredOn = false) :
    OnStart (some d) WriteStatus = (STATUS_INVALID_PARAMETER, some d, []) ∧
    NT_SUCCESS STATUS_INVALID_PARAMETER = false ∧
    (d.m_Started = false →
      ∀ after, (OnStart (some d) WriteStatus).2.1 = some after → after.m_Started = false) := by
  have h : OnStart (some d) WriteStatus = (STATUS_INVALID_PARAMETER, some d, []) := by
    simp [OnStart, hOff]
  refine ⟨h, by decide, ?_⟩
  intro hs after ha
  rw [h] at ha
  simp only [Option.some.injEq] at ha
  rw [← ha]; exact hs

/-- C7 at a concrete input: the device after `Initialize`, not yet powered on. -/
theorem OnStart_not_powered_witness :
    OnStart (some sampleDevice) STATUS_SUCCESS =
      (STATUS_INVALID_PARAMETER, some sampleDevice, []) :=
  (OnStart_not_powered sampleDevice STATUS_SUCCESS (by decide)).1

theorem registerWrites_append (l₁ l₂ : List Event) :
    registerWrites (l₁ ++ l₂) = registerWrites l₁ ++ registerWrites l₂ := by
  induction l₁ with
  | nil => rfl
  | cons e l ih => cases e <;> simp [registerWrites, ih]

theorem timerCalls_append (l₁ l₂ : List Event) :
    timerCalls (l₁ ++ l₂) = timerCalls l₁ ++ timerCalls l₂ := by
  induction l₁ with
  | nil => rfl
  | cons e l ih => cases e <;> simp [timerCalls, ih]

/-- C8: on a powered-on device whose mode-register write succeeds, `OnStart` returns
the status of the write and issues exactly one register write: the single byte 0xA0 to
register 0, which has operating mode 5 (ALS continuous) in bits 5-7 and every other bit
0. It sets `m_FirstSample` and `m_Started`, sets the `SensorState` property to
`SensorState_Active` (on a device whose property list is allocated), and makes exactly
one call to the timer, arming it with the relative due time of `m_MinimumInterval`
milliseconds. -/
theorem OnStart_powered (d : AlsDevice) (WriteStatus : NTSTATUS)
    (hOn : d.m_PoweredOn = true) (hWrite : NT_SUCCESS WriteStatus = true)
    (hProps : d.m_pSensorProperties.List.length = SENSOR_PROPERTIES_COUNT)
    (hMin : d.m_MinimumInterval < 2 ^ 32) :
    ∃ after events, OnStart (some d) WriteStatus = (WriteStatus, some after, events) ∧
      registerWrites events = [(ISL29018_REG_ADD_COMMAND1, 0xA0, 1)] ∧
      ISL29018_REG_ADD_COMMAND1 = 0 ∧
      (0xA0 &&& ISL29018_CMD1_OPMODE_MASK) >>> ISL29018_CMD1_OPMODE_SHIFT =
        ISL29018_CMD1_OPMODE_ALS_CONT ∧
      ISL29018_CMD1_OPMODE_ALS_CONT = 5 ∧
      0xA0 &&& (0xFF ^^^ ISL29018_CMD1_OPMODE_MASK) = 0 ∧
      after.m_FirstSample = true ∧
      after.m_Started = true ∧
      ValueAt after.m_pSensorProperties SENSOR_PROPERTY_STATE =
        some (PROPVARIANT.VT_UI4 SensorState_Active) ∧
      after.m_Timer = some (WDF_REL_TIMEOUT_IN_MS d.m_MinimumInterval) ∧
      timerCalls events = [Event.WdfTimerStart (WDF_REL_TIMEOUT_IN_MS d.m_MinimumInterval)] ∧
      WDF_REL_TIMEOUT_IN_MS d.m_MinimumInterval = -((d.m_MinimumInterval : Int) * 10000) := by
  have hv : ValueAt (SetValueAt d.m_pSensorProperties SENSOR_PROPERTY_STATE
      (PROPVARIANT.VT_UI4 SensorState_Active)) SENSOR_PROPERTY_STATE =
      some (PROPVARIANT.VT_UI4 SensorState_Active) :=
    ValueAt_SetValueAt_same _ _ _ (by rw [hProps]; decide)
  refine ⟨_, _, by simp only [OnStart, hOn, hWrite]; rfl, ?_⟩
  exact ⟨rfl, rfl, by decide, rfl, by decide, rfl, rfl, hv, rfl, rfl,
    WDF_REL_TIMEOUT_IN_MS_eq _ (by omega)⟩

/-- C8 at a concrete input: the device after `Initialize` and a successful `PowerOn`. -/
theorem OnStart_powered_witness :
    ∃ after events,
      OnStart (some (PowerOn sampleDevice (fun _ => STATUS_SUCCESS)).2.1) STATUS_SUCCESS =
        (STATUS_SUCCESS, some after, events) ∧
      registerWrites events = [(0, 0xA0, 1)] ∧
      after.m_FirstSample = true ∧ after.m_Started = true ∧
      after.m_Timer = some (-900000) :=
  have h := OnStart_powered (PowerOn sampleDevice (fun _ => STATUS_SUCCESS)).2.1 STATUS_SUCCESS
    (by decide) (by decide) (by decide) (by decide)
  match h with
  | ⟨after, events, h1, h2, _, _, _, _, h3, h4, _, h5, _, h6⟩ =>
    ⟨after, events, h1, h2, h3, h4, by rw [h5, h6]; rfl⟩

/-! ## The catalog getters -/

theorem OnGetSupportedDataFields_contract (U : SensorsUtils) (d : AlsDevice)
    (dst : SENSOR_PROPERTY_LIST) (s0 s1 : Nat) :
    (∀ st0 x size,
      OnGetSupportedDataFields U (some d) none (some s0) = Except.ok (st0, x, some size) →
      dst.AllocatedSizeInBytes < size →
      OnGetSupportedDataFields U (some d) (some dst) (some s1) =
        Except.ok (STATUS_INSUFFICIENT_RESOURCES, some dst, some 0)) ∧
    (∀ st out sz,
      OnGetSupportedDataFields U (some d) (some dst) (some s1) = Except.ok (st, out, sz) →
      NT_SUCCESS st = true →
      OnGetSupportedDataFields U (some d) none (some s0) =
        Except.ok (STATUS_SUCCESS, none, sz)) := by
  constructor
  · intro st0 x size h hlt
    simp only [OnGetSupportedDataFields, Except.ok.injEq, Prod.mk.injEq, Option.some.injEq] at h
    obtain ⟨-, -, rfl⟩ := h
    simp [OnGetSupportedDataFields, hlt]
  · intro st out sz h hs
    simp only [OnGetSupportedDataFields] at h ⊢
    split at h
    · simp only [Except.ok.injEq, Prod.mk.injEq] at h
      obtain ⟨rfl, -, -⟩ := h
      exact absurd hs (by decide)
    · split at h
      · simp only [Except.ok.injEq, Prod.mk.injEq] at h
        obtain ⟨h1, -, -⟩ := h
        subst h1
        simp_all
      · simp only [Except.ok.injEq, Prod.mk.injEq] at h
        obtain ⟨-, -, rfl⟩ := h
        rfl

theorem OnGetDataThresholds_contract (U : SensorsUtils) (d : AlsDevice)
    (dst : SENSOR_COLLECTION_LIST) (s0 s1 : Nat) :
    (∀ st0 x size,
      OnGetDataThresholds U (some d) none (some s0) = Except.ok (st0, x, some size) →
      dst.AllocatedSizeInBytes < size →
      OnGetDataThresholds U (some d) (some dst) (some s1) =
        Except.ok (STATUS_INSUFFICIENT_RESOURCES, some dst, some 0)) ∧
    (∀ st out sz,
      OnGetDataThresholds U (some d) (some dst) (some s1) = Except.ok (st, out, sz) →
      NT_SUCCESS st = true →
      OnGetDataThresholds U (some d) none (some s0) = Except.ok (STATUS_SUCCESS, none, sz)) := by
  constructor
  · intro st0 x size h hlt
    simp only [OnGetDataThresholds, Except.ok.injEq, Prod.mk.injEq, Option.some.injEq] at h
    obtain ⟨-, -, rfl⟩ := h
    simp [OnGetDataThresholds, hlt]
  · intro st out sz h hs
    simp only [OnGetDataThresholds] at h ⊢
    split at h
    · simp only [Except.ok.injEq, Prod.mk.injEq] at h
      obtain ⟨rfl, -, -⟩ := h
      exact absurd hs (by decide)
    · split at h
      · simp only [Except.ok.injEq, Prod.mk.injEq] at h
        obtain ⟨h1, -, -⟩ := h
        subst h1
        simp_all
      · simp only [Except.ok.injEq, Prod.mk.injEq] at h
        obtain ⟨-, -, rfl⟩ := h
        rfl

theorem OnGet_Exit_some (Status : NTSTATUS) (pProperties : Option SENSOR_COLLECTION_LIST)
    (s : Nat) :
    OnGet_Exit Status pProperties (some s) =
      Except.ok (Status, pProperties, some (if NT_SUCCESS Status then s else 0)) := by
  cases h : NT_SUCCESS Status <;> simp [OnGet_Exit, h]

theorem OnGet_fill_contract (U : SensorsUtils) (pSource dst : SENSOR_COLLECTION_LIST)
    (s0 s1 : Nat) :
    (∀ st0 x size,
      OnGet_fill U pSource none (some s0) = Except.ok (st0, x, some size) →
      dst.AllocatedSizeInBytes < size →
      OnGet_fill U pSource (some dst) (some s1) =
        Except.ok (STATUS_INSUFFICIENT_RESOURCES, some dst, some 0)) ∧
    (∀ st out sz,
      OnGet_fill U pSource (some dst) (some s1) = Except.ok (st, out, sz) →
      NT_SUCCESS st = true →
      OnGet_fill U pSource none (some s0) = Except.ok (STATUS_SUCCESS, none, sz)) := by
  have hS : NT_SUCCESS STATUS_SUCCESS = true := by decide
  have hI : NT_SUCCESS STATUS_INSUFFICIENT_RESOURCES = false := by decide
  constructor
  · intro st0 x size h hlt
    simp only [OnGet_fill, OnGet_Exit_some, Option.map_some', hS, if_true, Except.ok.injEq,
      Prod.mk.injEq, Option.some.injEq] at h
    obtain ⟨-, -, rfl⟩ := h
    simp [OnGet_fill, OnGet_Exit_some, hlt, hI]
  · intro st out sz h hs
    simp only [OnGet_fill, OnGet_Exit_some, Option.map_some', hS, if_true] at h ⊢
    split at h
    · simp only [hI, Except.ok.injEq, Prod.mk.injEq] at h
      obtain ⟨rfl, -, -⟩ := h
      exact absurd hs (by decide)
    · split at h
      · simp only [Except.ok.injEq, Prod.mk.injEq] at h
        obtain ⟨h1, -, -⟩ := h
        subst h1
        simp_all
      · simp only [Except.ok.injEq, Prod.mk.injEq] at h
        obtain ⟨h1, -, rfl⟩ := h
        subst h1
        simp [hs]

/-- C9: for each of the four catalog getters, with valid pointers: a copy-out into a
destination whose `AllocatedSizeInBytes` is smaller than the size the size-only query
reports returns `STATUS_INSUFFICIENT_RESOURCES` (a failure: the buffer is too small),
leaves the destination as it was and the output size at 0; and a copy-out that
succeeds reports the size the size-only query reports. The routines of the utility
library (`U`), the device, the key, the destination and the previous contents of the
size output are arbitrary. -/
theorem getters_buffer_size_contract (U : SensorsUtils) (d : AlsDevice) (key : PROPERTYKEY)
    (fields : SENSOR_PROPERTY_LIST) (dst : SENSOR_COLLECTION_LIST) (s0 s1 : Nat) :
    NT_SUCCESS STATUS_INSUFFICIENT_RESOURCES = false ∧
    ((∀ st0 x size,
        OnGetSupportedDataFields U (some d) none (some s0) = Except.ok (st0, x, some size) →
        fields.AllocatedSizeInBytes < size →
        OnGetSupportedDataFields U (some d) (some fields) (some s1) =
          Except.ok (STATUS_INSUFFICIENT_RESOURCES, some fields, some 0)) ∧
      (∀ st out sz,
        OnGetSupportedDataFields U (some d) (some fields) (some s1) = Except.ok (st, out, sz) →
        NT_SUCCESS st = true →
        OnGetSupportedDataFields U (some d) none (some s0) =
          Except.ok (STATUS_SUCCESS, none, sz))) ∧
    ((∀ st0 x size,
        OnGetProperties U (some d) none (some s0) = Except.ok (st0, x, some size) →
        dst.AllocatedSizeInBytes < size →
        OnGetProperties U (some d) (some dst) (some s1) =
          Except.ok (STATUS_INSUFFICIENT_RESOURCES, some dst, some 0)) ∧
      (∀ st out sz,
        OnGetProperties U (some d) (some dst) (some s1) = Except.ok (st, out, sz) →
        NT_SUCCESS st = true →
        OnGetProperties U (some d) none (some s0) = Except.ok (STATUS_SUCCESS, none, sz))) ∧
    ((∀ st0 x size,
        OnGetDataFieldProperties U (some d) (some key) none (some s0) =
          Except.ok (st0, x, some size) →
        dst.AllocatedSizeInBytes < size →
        OnGetDataFieldProperties U (some d) (some key) (some dst) (some s1) =
          Except.ok (STATUS_INSUFFICIENT_RESOURCES, some dst, some 0)) ∧
      (∀ st out sz,
        OnGetDataFieldProperties U (some d) (some key) (some dst) (some s1) =
          Except.ok (st, out, sz) →
        NT_SUCCESS st = true →
        OnGetDataFieldProperties U (some d) (some key) none (some s0) =
          Except.ok (STATUS_SUCCESS, none, sz))) ∧
    ((∀ st0 x size,
        OnGetDataThresholds U (some d) none (some s0) = Except.ok (st0, x, some size) →
        dst.AllocatedSizeInBytes < size →
        OnGetDataThresholds U (some d) (some dst) (some s1) =
          Except.ok (STATUS_INSUFFICIENT_RESOURCES, some dst, some 0)) ∧
      (∀ st out sz,
        OnGetDataThresholds U (some d) (some dst) (some s1) = Except.ok (st, out, sz) →
        NT_SUCCESS st = true →
        OnGetDataThresholds U (some d) none (some s0) =
          Except.ok (STATUS_SUCCESS, none, sz))) := by
  refine ⟨by decide, OnGetSupportedDataFields_contract U d fields s0 s1, ?_, ?_,
    OnGetDataThresholds_contract U d dst s0 s1⟩
  · simp only [OnGetProperties]
    exact OnGet_fill_contract U d.m_pSensorProperties dst s0 s1
  · simp only [OnGetDataFieldProperties]
    cases hk : IsKeyPresentInPropertyList d.m_pSupportedDataFields key
    · have hN : NT_SUCCESS STATUS_NOT_SUPPORTED = false := by decide
      simp only [Bool.false_eq_true, if_false, OnGet_Exit_some, hN]
      constructor
      · intro st0 x size h hlt
        simp only [Except.ok.injEq, Prod.mk.injEq, Option.some.injEq] at h
        omega
      · intro st out sz h hs
        simp only [Except.ok.injEq, Prod.mk.injEq] at h
        obtain ⟨rfl, -, -⟩ := h
        exact absurd hs (by decide)
    · simp only [if_true]
      exact OnGet_fill_contract U d.m_pDataFieldProperties dst s0 s1

/-- C9 at a concrete input: the device after `Initialize`, whose sensor properties have
a marshalled size of 176 bytes under `sampleUtils`, and a destination of 10 bytes. -/
theorem getters_buffer_size_contract_witness :
    OnGetProperties sampleUtils (some sampleDevice) none (some 7) =
      Except.ok (STATUS_SUCCESS, none, some 176) ∧
    OnGetProperties sampleUtils (some sampleDevice)
        (some { AllocatedSizeInBytes := 10, List := [] }) (some 7) =
      Except.ok (STATUS_INSUFFICIENT_RESOURCES,
        some { AllocatedSizeInBytes := 10, List := [] }, some 0) :=
  ⟨rfl,
   (getters_buffer_size_contract sampleUtils sampleDevice PROPERTYKEY.PKEY_Sensor_State
      { AllocatedSizeInBytes := 10, List := [] } { AllocatedSizeInBytes := 10, List := [] }
      7 7).2.2.1.1 STATUS_SUCCESS none 176 rfl (by decide)⟩

/-- A call of `Initialize` that succeeds has passed all eight creations: the device it
leaves is the one of the call in which every creation returns `STATUS_SUCCESS`. -/
theorem Initialize_success (U : SensorsUtils) (CreateStatus : Nat → NTSTATUS) (Time : Nat)
    (h : NT_SUCCESS (Initialize U CreateStatus Time).1 = true) :
    (Initialize U CreateStatus Time).2 = (Initialize U (fun _ => STATUS_SUCCESS) Time).2 := by
  have hS : NT_SUCCESS STATUS_SUCCESS = true := by decide
  cases h0 : NT_SUCCESS (CreateStatus 0)
  · simp [Initialize, h0] at h
  cases h1 : NT_SUCCESS (CreateStatus 1)
  · simp [Initialize, h0, h1] at h
  cases h2 : NT_SUCCESS (CreateStatus 2)
  · simp [Initialize, h0, h1, h2] at h
  cases h3 : NT_SUCCESS (CreateStatus 3)
  · simp [Initialize, h0, h1, h2, h3] at h
  cases h4 : NT_SUCCESS (CreateStatus 4)
  · simp [Initialize, h0, h1, h2, h3, h4] at h
  cases h5 : NT_SUCCESS (CreateStatus 5)
  · simp [Initialize, h0, h1, h2, h3, h4, h5] at h
  cases h6 : NT_SUCCESS (CreateStatus 6)
  · simp [Initialize, h0, h1, h2, h3, h4, h5, h6] at h
  cases h7 : NT_SUCCESS (CreateStatus 7)
  · simp [Initialize, h0, h1, h2, h3, h4, h5, h6, h7] at h
  simp [Initialize, h0, h1, h2, h3, h4, h5, h6, h7, hS]

/-! ## The data conversion -/

theorem AlsDevice_Resolution_Lux_eq : AlsDevice_Resolution_Lux = 4000 / 65536 := by
  norm_num [AlsDevice_Resolution_Lux, AlsDevice_Range_Lux, AlsDevice_Maximum_Lux,
    AlsDevice_Minimum_Lux, AlsDevice_Precision]

/-- The two data bytes put together by shift and or are the little-endian raw value. -/
theorem shift_or_eq_rawValue (DataBuffer0 DataBuffer1 : BYTE) :
    (DataBuffer1.val <<< 8) ||| DataBuffer0.val = rawValue DataBuffer0 DataBuffer1 := by
  have h := Nat.mul_add_lt_is_or (i := 8) (b := DataBuffer0.val) DataBuffer0.isLt DataBuffer1.val
  rw [Nat.shiftLeft_eq, Nat.mul_comm, ← h, rawValue]
  omega

/-- The conversion of `GetData` in terms of the raw value `v`: `v * 4000/65536` for
`v < 32768` and `(v - 65536) * 4000/65536` from 32768 on, where the cast to `SHORT`
makes the raw value negative. -/
theorem luxOfDataBuffer_eq (DataBuffer0 DataBuffer1 : BYTE) :
    luxOfDataBuffer DataBuffer0 DataBuffer1 =
      if rawValue DataBuffer0 DataBuffer1 < 32768 then
        (rawValue DataBuffer0 DataBuffer1 : FLOAT) * 4000 / 65536
      else ((rawValue DataBuffer0 DataBuffer1 : FLOAT) - 65536) * 4000 / 65536 := by
  have hlt : rawValue DataBuffer0 DataBuffer1 < 65536 := by
    have h0 := DataBuffer0.isLt
    have h1 := DataBuffer1.isLt
    simp only [rawValue]
    omega
  simp only [luxOfDataBuffer, shift_or_eq_rawValue, toSHORT, AlsDevice_Resolution_Lux_eq]
  rw [Nat.mod_eq_of_lt (by simpa using hlt)]
  split
  · rename_i h
    rw [if_pos (by simpa using h)]
    push_cast
    ring
  · rename_i h
    rw [if_neg (by simpa using h)]
    push_cast
    ring

theorem rawValue_FF_FF : rawValue 0xFF 0xFF = 65535 := by decide

theorem rawValue_FF_7F : rawValue 0xFF 0x7F = 32767 := by decide

theorem rawValue_00_80 : rawValue 0x00 0x80 = 32768 := by decide

theorem luxOfDataBuffer_FF_FF : luxOfDataBuffer 0xFF 0xFF = -(4000 / 65536) := by
  rw [luxOfDataBuffer_eq, rawValue_FF_FF]
  norm_num

theorem luxOfDataBuffer_FF_7F : luxOfDataBuffer 0xFF 0x7F = 32767 * 4000 / 65536 := by
  rw [luxOfDataBuffer_eq, rawValue_FF_7F]
  norm_num

theorem luxOfDataBuffer_00_80 : luxOfDataBuffer 0x00 0x80 = -2000 := by
  rw [luxOfDataBuffer_eq, rawValue_00_80]
  norm_num

/-- The value `GetData` caches after a successful read is the converted reading. -/
theorem GetData_m_CachedData (d : AlsDevice) (env : GetDataEnv) :
    (GetData d env).2.1.m_CachedData = candidate d env := by
  rw [GetData_eq]
  cases DataReady d env <;> simp

/-- C11: the conversion of `GetData` at the raw values where it leaves `v * 4000/65536`.
For raw values below 32768 the lux is `v * 4000/65536`, and raw value 0 gives 0 lux. The
raw value 65535 (bytes 0xFF, 0xFF) gives `-4000/65536` lux, not `65535 * 4000/65536`,
and the conversion is not monotonic: raw value 32768 gives -2000 lux, less than the lux
of raw value 32767. `GetData` caches that negative lux. -/
theorem luxOfDataBuffer_signed_raw :
    (∀ DataBuffer0 DataBuffer1 : BYTE, rawValue DataBuffer0 DataBuffer1 < 32768 →
      luxOfDataBuffer DataBuffer0 DataBuffer1 =
        (rawValue DataBuffer0 DataBuffer1 : FLOAT) * 4000 / 65536) ∧
    rawValue 0x00 0x00 = 0 ∧ luxOfDataBuffer 0x00 0x00 = 0 ∧
    rawValue 0xFF 0xFF = 65535 ∧
    luxOfDataBuffer 0xFF 0xFF = -(4000 / 65536) ∧
    luxOfDataBuffer 0xFF 0xFF ≠ 65535 * 4000 / 65536 ∧
    rawValue 0xFF 0x7F < rawValue 0x00 0x80 ∧
    luxOfDataBuffer 0x00 0x80 < luxOfDataBuffer 0xFF 0x7F ∧
    (GetData sampleRunning (sampleRead 0xFF 0xFF)).2.1.m_CachedData = -(4000 / 65536) := by
  refine ⟨?_, by decide, ?_, rawValue_FF_FF, luxOfDataBuffer_FF_FF, ?_, by decide, ?_, ?_⟩
  · intro DataBuffer0 DataBuffer1 h
    rw [luxOfDataBuffer_eq, if_pos h]
  · rw [luxOfDataBuffer_eq, if_pos (by decide)]
    have h : rawValue 0x00 0x00 = 0 := by decide
    rw [h]
    norm_num
  · rw [luxOfDataBuffer_FF_FF]
    norm_num
  · rw [luxOfDataBuffer_00_80, luxOfDataBuffer_FF_7F]
    norm_num
  · rw [GetData_m_CachedData]
    have h : candidate sampleRunning (sampleRead 0xFF 0xFF) = luxOfDataBuffer 0xFF 0xFF := by
      simp [candidate, sampleRead, NT_SUCCESS, STATUS_SUCCESS]
    rw [h, luxOfDataBuffer_FF_FF]

/-- C12: the lux data field is advertised with `RangeMinimum = 0` and
`RangeMaximum = 4000`, and the successful bus read of the bytes 0x00, 0x80 (raw value
32768) makes `GetData` compute -2000 lux, below the advertised minimum; on the first
tick of a cycle that value is published and becomes the last published lux. -/
theorem lux_outside_advertised_range :
    ValueAt sampleActive.m_pDataFieldProperties SENSOR_DATA_FIELD_PROPERTY_RANGE_MIN =
      some (PROPVARIANT.VT_R4 0) ∧
    ValueAt sampleActive.m_pDataFieldProperties SENSOR_DATA_FIELD_PROPERTY_RANGE_MAX =
      some (PROPVARIANT.VT_R4 4000) ∧
    NT_SUCCESS (sampleRead 0x00 0x80).ReadStatus = true ∧
    candidate sampleActive (sampleRead 0x00 0x80) = -2000 ∧
    (-2000 : FLOAT) < 0 ∧
    (GetData sampleActive (sampleRead 0x00 0x80)).2.1.m_CachedData = -2000 ∧
    (GetData sampleActive (sampleRead 0x00 0x80)).2.1.m_LastSample = -2000 ∧
    published (GetData sampleActive (sampleRead 0x00 0x80)).2.2 =
      [sampleRecord sampleActive (sampleRead 0x00 0x80) (-2000)] := by
  have hc : candidate sampleActive (sampleRead 0x00 0x80) = -2000 := by
    have h : candidate sampleActive (sampleRead 0x00 0x80) = luxOfDataBuffer 0x00 0x80 := by
      simp [candidate, sampleRead, NT_SUCCESS, STATUS_SUCCESS]
    rw [h, luxOfDataBuffer_00_80]
  have hD : DataReady sampleActive (sampleRead 0x00 0x80) = true :=
    DataReady_of_first _ _ (by decide)
  refine ⟨rfl, rfl, by decide, hc, by norm_num, ?_, ?_, ?_⟩
  · rw [GetData_m_CachedData, hc]
  · rw [GetData_eq, hD]
    simp [hc]
  · rw [published_GetData, hD, hc]
    simp

/-! ## Threshold batches -/

theorem NT_SUCCESS_STATUS_SUCCESS : NT_SUCCESS STATUS_SUCCESS = true := by decide

theorem NT_SUCCESS_STATUS_NOT_FOUND : NT_SUCCESS STATUS_NOT_FOUND = false := by decide

/-- The loop of `OnSetDataThresholds` on a catalog of the two threshold keys with float
values, for a batch of (key, float) pairs with keys among the two. -/
theorem OnSetDataThresholds_loop_two_keys (alloc : Nat) (batch : List (PROPERTYKEY × FLOAT))
    (hKeys : ∀ e ∈ batch, e.1 = PROPERTYKEY.PKEY_SensorData_LightLevel_Lux ∨
      e.1 = PROPERTYKEY.PKEY_SensorData_LightLevel_Lux_Threshold_AbsoluteDifference)
    (pct0 abs0 : FLOAT) :
    OnSetDataThresholds_loop
        { AllocatedSizeInBytes := alloc,
          List := [ { Key := PROPERTYKEY.PKEY_SensorData_LightLevel_Lux,
                      Value := PROPVARIANT.VT_R4 pct0 },
                    { Key := PROPERTYKEY.PKEY_SensorData_LightLevel_Lux_Threshold_AbsoluteDifference,
                      Value := PROPVARIANT.VT_R4 abs0 } ] }
        (batch.map (fun e => { Key := e.1, Value := PROPVARIANT.VT_R4 e.2 })) STATUS_SUCCESS =
      (STATUS_SUCCESS,
        { AllocatedSizeInBytes := alloc,
          List := [ { Key := PROPERTYKEY.PKEY_SensorData_LightLevel_Lux,
                      Value := PROPVARIANT.VT_R4
                        (lastValueOf PROPERTYKEY.PKEY_SensorData_LightLevel_Lux pct0 batch) },
                    { Key := PROPERTYKEY.PKEY_SensorData_LightLevel_Lux_Threshold_AbsoluteDifference,
                      Value := PROPVARIANT.VT_R4
                        (lastValueOf
                          PROPERTYKEY.PKEY_SensorData_LightLevel_Lux_Threshold_AbsoluteDifference
                          abs0 batch) } ] }) := by
  induction batch generalizing pct0 abs0 with
  | nil => rfl
  | cons e rest ih =>
    have hrest : ∀ e' ∈ rest, e'.1 = PROPERTYKEY.PKEY_SensorData_LightLevel_Lux ∨
        e'.1 = PROPERTYKEY.PKEY_SensorData_LightLevel_Lux_Threshold_AbsoluteDifference :=
      fun e' he' => hKeys e' (List.mem_cons_of_mem _ he')
    rcases hKeys e (List.mem_cons_self _ _) with h | h
    · simp only [List.map_cons, OnSetDataThresholds_loop, PropKeyFindKeySetPropVariant,
        setFirstOfKey, h, if_true, NT_SUCCESS_STATUS_SUCCESS, Bool.not_true,
        Bool.false_eq_true, if_false, lastValueOf]
      rw [ih hrest]
      simp
    · simp only [List.map_cons, OnSetDataThresholds_loop, PropKeyFindKeySetPropVariant,
        setFirstOfKey, h, if_true, NT_SUCCESS_STATUS_SUCCESS, Bool.not_true,
        Bool.false_eq_true, if_false, lastValueOf, Option.map_some', reduceCtorEq]
      rw [ih hrest]

theorem lastValueOf_absent (pKey : PROPERTYKEY) (old : FLOAT)
    (batch : List (PROPERTYKEY × FLOAT)) (h : ∀ e ∈ batch, e.1 ≠ pKey) :
    lastValueOf pKey old batch = old := by
  induction batch generalizing old with
  | nil => rfl
  | cons e rest ih =>
    simp only [lastValueOf, if_neg (h e (List.mem_cons_self _ _))]
    exact ih old (fun e' he' => h e' (List.mem_cons_of_mem _ he'))

theorem lastValueOf_last (pKey : PROPERTYKEY) (old v : FLOAT)
    (front back : List (PROPERTYKEY × FLOAT)) (h : ∀ e ∈ back, e.1 ≠ pKey) :
    lastValueOf pKey old (front ++ (pKey, v) :: back) = v := by
  induction front generalizing old with
  | nil =>
    simp only [List.nil_append, lastValueOf, if_true]
    exact lastValueOf_absent pKey v back h
  | cons e rest ih =>
    simp only [List.cons_append, lastValueOf]
    exact ih _

/-- C13: on a device whose threshold catalog holds the two threshold keys with float
values `pct0` and `abs0`, for every batch of (key, float) pairs whose keys are all among
the two threshold keys: `OnSetDataThresholds` returns `STATUS_SUCCESS`; afterwards the
catalog holds, under each key, the value of the last batch entry carrying the key, or
its old value when the batch has no entry for the key; the catalog keeps its two keys;
and the cached thresholds are the two values the catalog holds. -/
theorem OnSetDataThresholds_known_keys (d : AlsDevice) (pct0 abs0 : FLOAT) (size : Nat)
    (batch : List (PROPERTYKEY × FLOAT))
    (hCat : d.m_pThresholds.List =
      [ { Key := PROPERTYKEY.PKEY_SensorData_LightLevel_Lux, Value := PROPVARIANT.VT_R4 pct0 },
        { Key := PROPERTYKEY.PKEY_SensorData_LightLevel_Lux_Threshold_AbsoluteDifference,
          Value := PROPVARIANT.VT_R4 abs0 } ])
    (hKeys : ∀ e ∈ batch, e.1 = PROPERTYKEY.PKEY_SensorData_LightLevel_Lux ∨
      e.1 = PROPERTYKEY.PKEY_SensorData_LightLevel_Lux_Threshold_AbsoluteDifference) :
    ∃ after, OnSetDataThresholds (some d) (thresholdBatch size batch) =
        (STATUS_SUCCESS, some after) ∧
      after.m_pThresholds.List =
        [ { Key := PROPERTYKEY.PKEY_SensorData_LightLevel_Lux,
            Value := PROPVARIANT.VT_R4
              (lastValueOf PROPERTYKEY.PKEY_SensorData_LightLevel_Lux pct0 batch) },
          { Key := PROPERTYKEY.PKEY_SensorData_LightLevel_Lux_Threshold_AbsoluteDifference,
            Value := PROPVARIANT.VT_R4
              (lastValueOf PROPERTYKEY.PKEY_SensorData_LightLevel_Lux_Threshold_AbsoluteDifference
                abs0 batch) } ] ∧
      keysOf after.m_pThresholds = keysOf d.m_pThresholds ∧
      after.m_CachedThresholds =
        { LuxPct := lastValueOf PROPERTYKEY.PKEY_SensorData_LightLevel_Lux pct0 batch,
          LuxAbs := lastValueOf
            PROPERTYKEY.PKEY_SensorData_LightLevel_Lux_Threshold_AbsoluteDifference abs0 batch } ∧
      PropKeyFindKeyGetFloat after.m_pThresholds PROPERTYKEY.PKEY_SensorData_LightLevel_Lux =
        (STATUS_SUCCESS, some after.m_CachedThresholds.LuxPct) ∧
      PropKeyFindKeyGetFloat after.m_pThresholds
          PROPERTYKEY.PKEY_SensorData_LightLevel_Lux_Threshold_AbsoluteDifference =
        (STATUS_SUCCESS, some after.m_CachedThresholds.LuxAbs) ∧
      (∀ pKey old, (∀ e ∈ batch, e.1 ≠ pKey) → lastValueOf pKey old batch = old) ∧
      (∀ pKey old v front back, batch = front ++ (pKey, v) :: back →
        (∀ e ∈ back, e.1 ≠ pKey) → lastValueOf pKey old batch = v) := by
  have hT : d.m_pThresholds =
      { AllocatedSizeInBytes := d.m_pThresholds.AllocatedSizeInBytes,
        List := [ { Key := PROPERTYKEY.PKEY_SensorData_LightLevel_Lux,
                    Value := PROPVARIANT.VT_R4 pct0 },
                  { Key := PROPERTYKEY.PKEY_SensorData_LightLevel_Lux_Threshold_AbsoluteDifference,
                    Value := PROPVARIANT.VT_R4 abs0 } ] } := by
    rw [← hCat]
  have hL := OnSetDataThresholds_loop_two_keys d.m_pThresholds.AllocatedSizeInBytes batch hKeys
    pct0 abs0
  rw [← hT] at hL
  refine ⟨{ d with
      m_pThresholds :=
        { AllocatedSizeInBytes := d.m_pThresholds.AllocatedSizeInBytes,
          List := [ { Key := PROPERTYKEY.PKEY_SensorData_LightLevel_Lux,
                      Value := PROPVARIANT.VT_R4
                        (lastValueOf PROPERTYKEY.PKEY_SensorData_LightLevel_Lux pct0 batch) },
                    { Key := PROPERTYKEY.PKEY_SensorData_LightLevel_Lux_Threshold_AbsoluteDifference,
                      Value := PROPVARIANT.VT_R4
                        (lastValueOf
                          PROPERTYKEY.PKEY_SensorData_LightLevel_Lux_Threshold_AbsoluteDifference
                          abs0 batch) } ] },
      m_CachedThresholds :=
        { LuxPct := lastValueOf PROPERTYKEY.PKEY_SensorData_LightLevel_Lux pct0 batch,
          LuxAbs := lastValueOf
            PROPERTYKEY.PKEY_SensorData_LightLevel_Lux_Threshold_AbsoluteDifference
            abs0 batch } }, ?_, ?_⟩
  · simp only [OnSetDataThresholds, thresholdBatch]
    rw [hL]
    simp only [NT_SUCCESS_STATUS_SUCCESS, if_true, UpdateCachedThreshold, PropKeyFindKeyGetFloat,
      List.find?, decide_True, Bool.not_true, Bool.false_eq_true, if_false, reduceCtorEq,
      decide_False, Option.getD_some]
  · refine ⟨rfl, ?_, rfl, rfl, rfl, ?_, ?_⟩
    · simp [keysOf, hCat]
    · exact fun pKey old h => lastValueOf_absent pKey old batch h
    · intro pKey old v front back hb h
      rw [hb]
      exact lastValueOf_last pKey old v front back h

/-- C13 at a concrete input: the device after `Initialize` (thresholds 1 and 0) and the
batch lux := 1/2, absolute := 3, lux := 1/4, which leaves the thresholds 1/4 and 3. -/
theorem OnSetDataThresholds_known_keys_witness :
    ∃ after, OnSetDataThresholds (some sampleDevice)
        (thresholdBatch 0
          [ (PROPERTYKEY.PKEY_SensorData_LightLevel_Lux, 1 / 2),
            (PROPERTYKEY.PKEY_SensorData_LightLevel_Lux_Threshold_AbsoluteDifference, 3),
            (PROPERTYKEY.PKEY_SensorData_LightLevel_Lux, 1 / 4) ]) =
        (STATUS_SUCCESS, some after) ∧
      after.m_CachedThresholds = { LuxPct := 1 / 4, LuxAbs := 3 } :=
  have h := OnSetDataThresholds_known_keys sampleDevice 1 0 0
    [ (PROPERTYKEY.PKEY_SensorData_LightLevel_Lux, 1 / 2),
      (PROPERTYKEY.PKEY_SensorData_LightLevel_Lux_Threshold_AbsoluteDifference, 3),
      (PROPERTYKEY.PKEY_SensorData_LightLevel_Lux, 1 / 4) ] rfl (by simp)
  match h with
  | ⟨after, h1, _, _, h2, _⟩ => ⟨after, h1, by rw [h2]; simp [lastValueOf]⟩

theorem setFirstOfKey_of_mem (pKey : PROPERTYKEY) (pValue : PROPVARIANT)
    (l : List SENSOR_VALUE_PAIR) (h : pKey ∈ l.map (fun p => p.Key)) :
    ∃ l', setFirstOfKey pKey pValue l = some l' ∧
      l'.map (fun p => p.Key) = l.map (fun p => p.Key) := by
  induction l with
  | nil => simp at h
  | cons p rest ih =>
    by_cases hp : p.Key = pKey
    · exact ⟨{ p with Value := pValue } :: rest, by simp [setFirstOfKey, hp], by simp⟩
    · have hr : pKey ∈ rest.map (fun p => p.Key) := by
        simp only [List.map_cons, List.mem_cons] at h
        rcases h with h | h
        · exact absurd h.symm hp
        · exact h
      obtain ⟨l', h1, h2⟩ := ih hr
      exact ⟨p :: l', by simp [setFirstOfKey, hp, h1], by simp [h2]⟩

theorem setFirstOfKey_of_not_mem (pKey : PROPERTYKEY) (pValue : PROPVARIANT)
    (l : List SENSOR_VALUE_PAIR) (h : pKey ∉ l.map (fun p => p.Key)) :
    setFirstOfKey pKey pValue l = none := by
  induction l with
  | nil => rfl
  | cons p rest ih =>
    simp only [List.map_cons, List.mem_cons, not_or] at h
    have hp : ¬ p.Key = pKey := fun e => h.1 e.symm
    simp [setFirstOfKey, hp, ih h.2]

/-- Storing a value under a key of the catalog succeeds and keeps the keys. -/
theorem PropKeyFindKeySetPropVariant_of_mem (pList : SENSOR_COLLECTION_LIST)
    (pKey : PROPERTYKEY) (pValue : PROPVARIANT) (h : pKey ∈ keysOf pList) :
    (PropKeyFindKeySetPropVariant pList pKey true pValue).1 = STATUS_SUCCESS ∧
    keysOf (PropKeyFindKeySetPropVariant pList pKey true pValue).2 = keysOf pList := by
  obtain ⟨l', h1, h2⟩ := setFirstOfKey_of_mem pKey pValue pList.List h
  simp [PropKeyFindKeySetPropVariant, h1, keysOf, h2]

/-- Storing a value under a key that is not in the catalog fails and changes nothing. -/
theorem PropKeyFindKeySetPropVariant_of_not_mem (pList : SENSOR_COLLECTION_LIST)
    (pKey : PROPERTYKEY) (pValue : PROPVARIANT) (h : pKey ∉ keysOf pList) :
    PropKeyFindKeySetPropVariant pList pKey true pValue = (STATUS_NOT_FOUND, pList) := by
  simp [PropKeyFindKeySetPropVariant, setFirstOfKey_of_not_mem pKey pValue pList.List h]

/-- The loop of `OnSetDataThresholds` over entries whose keys are all in the catalog. -/
theorem OnSetDataThresholds_loop_known (pList : SENSOR_COLLECTION_LIST)
    (entries : List SENSOR_VALUE_PAIR) (h : ∀ p ∈ entries, p.Key ∈ keysOf pList) :
    OnSetDataThresholds_loop pList entries STATUS_SUCCESS =
      (STATUS_SUCCESS, applyEntries pList entries) ∧
    keysOf (applyEntries pList entries) = keysOf pList := by
  induction entries generalizing pList with
  | nil => exact ⟨rfl, rfl⟩
  | cons p rest ih =>
    obtain ⟨h1, h2⟩ := PropKeyFindKeySetPropVariant_of_mem pList p.Key p.Value
      (h p (List.mem_cons_self _ _))
    have hr : ∀ q ∈ rest, q.Key ∈
        keysOf (PropKeyFindKeySetPropVariant pList p.Key true p.Value).2 := by
      intro q hq
      rw [h2]
      exact h q (List.mem_cons_of_mem _ hq)
    obtain ⟨h3, h4⟩ := ih _ hr
    simp only [OnSetDataThresholds_loop, h1, NT_SUCCESS_STATUS_SUCCESS, Bool.not_true,
      Bool.false_eq_true, if_false, applyEntries]
    exact ⟨h3, h4.trans h2⟩

/-- The loop of `OnSetDataThresholds` over a batch whose first key that is not in the
catalog belongs to the entry `bad`. -/
theorem OnSetDataThresholds_loop_unknown (pList : SENSOR_COLLECTION_LIST)
    (front back : List SENSOR_VALUE_PAIR) (bad : SENSOR_VALUE_PAIR) (Status : NTSTATUS)
    (h : ∀ p ∈ front, p.Key ∈ keysOf pList) (hBad : bad.Key ∉ keysOf pList) :
    OnSetDataThresholds_loop pList (front ++ bad :: back) Status =
      (STATUS_INVALID_PARAMETER, applyEntries pList front) := by
  induction front generalizing pList Status with
  | nil =>
    simp [OnSetDataThresholds_loop, PropKeyFindKeySetPropVariant_of_not_mem pList bad.Key
      bad.Value hBad, NT_SUCCESS_STATUS_NOT_FOUND, applyEntries]
  | cons p rest ih =>
    obtain ⟨h1, h2⟩ := PropKeyFindKeySetPropVariant_of_mem pList p.Key p.Value
      (h p (List.mem_cons_self _ _))
    have hr : ∀ q ∈ rest, q.Key ∈
        keysOf (PropKeyFindKeySetPropVariant pList p.Key true p.Value).2 := by
      intro q hq
      rw [h2]
      exact h q (List.mem_cons_of_mem _ hq)
    have hb : bad.Key ∉ keysOf (PropKeyFindKeySetPropVariant pList p.Key true p.Value).2 := by
      rw [h2]; exact hBad
    simp only [List.cons_append, OnSetDataThresholds_loop, h1, NT_SUCCESS_STATUS_SUCCESS,
      Bool.not_true, Bool.false_eq_true, if_false, applyEntries]
    exact ih _ _ hr hb

/-- C14: for every batch whose first key that is not in the threshold catalog is at
position `i`, `OnSetDataThresholds` returns `STATUS_INVALID_PARAMETER`, a failure; the
catalog is the one obtained by storing the entries at positions `0..i-1`, in order (the
catalog a call with these entries alone leaves), whatever the entries after position
`i` are, with its keys unchanged; and the rest of the device context, in particular the
cached thresholds, is what it was before the call. -/
theorem OnSetDataThresholds_unknown_key (d : AlsDevice) (pThresholds : SENSOR_COLLECTION_LIST)
    (i : Nat) (hi : i < pThresholds.List.length)
    (hFront : ∀ p ∈ pThresholds.List.take i, p.Key ∈ keysOf d.m_pThresholds)
    (hBad : pThresholds.List[i].Key ∉ keysOf d.m_pThresholds) :
    OnSetDataThresholds (some d) pThresholds =
      (STATUS_INVALID_PARAMETER,
        some { d with m_pThresholds := applyEntries d.m_pThresholds (pThresholds.List.take i) }) ∧
    NT_SUCCESS STATUS_INVALID_PARAMETER = false ∧
    OnSetDataThresholds_loop d.m_pThresholds (pThresholds.List.take i) STATUS_SUCCESS =
      (STATUS_SUCCESS, applyEntries d.m_pThresholds (pThresholds.List.take i)) ∧
    keysOf (applyEntries d.m_pThresholds (pThresholds.List.take i)) = keysOf d.m_pThresholds ∧
    (∀ after, (OnSetDataThresholds (some d) pThresholds).2 = some after →
      after.m_CachedThresholds = d.m_CachedThresholds) := by
  have hsplit : pThresholds.List =
      pThresholds.List.take i ++ pThresholds.List[i] :: pThresholds.List.drop (i + 1) := by
    rw [← List.drop_eq_getElem_cons hi, List.take_append_drop]
  have hL := OnSetDataThresholds_loop_unknown d.m_pThresholds (pThresholds.List.take i)
    (pThresholds.List.drop (i + 1)) pThresholds.List[i] STATUS_SUCCESS hFront hBad
  rw [← hsplit] at hL
  have hI : NT_SUCCESS STATUS_INVALID_PARAMETER = false := by decide
  have hE : OnSetDataThresholds (some d) pThresholds =
      (STATUS_INVALID_PARAMETER,
        some { d with
          m_pThresholds := applyEntries d.m_pThresholds (pThresholds.List.take i) }) := by
    simp only [OnSetDataThresholds, hL, hI, Bool.false_eq_true, if_false]
  obtain ⟨h1, h2⟩ := OnSetDataThresholds_loop_known d.m_pThresholds (pThresholds.List.take i)
    hFront
  refine ⟨hE, hI, h1, h2, ?_⟩
  intro after ha
  rw [hE] at ha
  simp only [Option.some.injEq] at ha
  rw [← ha]

/-- C14 at a concrete input: the device after `Initialize` (cached thresholds 1 and 0)
and the batch lux := 1/2, `PKEY_Sensor_State` := 3, absolute := 7: the call fails, the
catalog holds 1/2 and 0, and the cached thresholds are still 1 and 0. -/
theorem OnSetDataThresholds_unknown_key_witness :
    OnSetDataThresholds (some sampleDevice)
        { AllocatedSizeInBytes := 0,
          List := [ { Key := PROPERTYKEY.PKEY_SensorData_LightLevel_Lux,
                      Value := PROPVARIANT.VT_R4 (1 / 2) },
                    { Key := PROPERTYKEY.PKEY_Sensor_State, Value := PROPVARIANT.VT_UI4 3 },
                    { Key := PROPERTYKEY.PKEY_SensorData_LightLevel_Lux_Threshold_AbsoluteDifference,
                      Value := PROPVARIANT.VT_R4 7 } ] } =
      (STATUS_INVALID_PARAMETER,
        some { sampleDevice with
          m_pThresholds :=
            { AllocatedSizeInBytes := sampleDevice.m_pThresholds.AllocatedSizeInBytes,
              List := [ { Key := PROPERTYKEY.PKEY_SensorData_LightLevel_Lux,
                          Value := PROPVARIANT.VT_R4 (1 / 2) },
                        { Key := PROPERTYKEY.PKEY_SensorData_LightLevel_Lux_Threshold_AbsoluteDifference,
                          Value := PROPVARIANT.VT_R4 0 } ] } }) ∧
    sampleDevice.m_CachedThresholds = { LuxPct := 1, LuxAbs := 0 } :=
  ⟨(OnSetDataThresholds_unknown_key sampleDevice
      { AllocatedSizeInBytes := 0,
        List := [ { Key := PROPERTYKEY.PKEY_SensorData_LightLevel_Lux,
                    Value := PROPVARIANT.VT_R4 (1 / 2) },
                  { Key := PROPERTYKEY.PKEY_Sensor_State, Value := PROPVARIANT.VT_UI4 3 },
                  { Key := PROPERTYKEY.PKEY_SensorData_LightLevel_Lux_Threshold_AbsoluteDifference,
                    Value := PROPVARIANT.VT_R4 7 } ] }
      1 (by decide) (by simp [keysOf, sampleDevice, Initialize, NT_SUCCESS_STATUS_SUCCESS])
      (by simp [keysOf, sampleDevice, Initialize, NT_SUCCESS_STATUS_SUCCESS])).1,
   rfl⟩

/-! ## `PowerOn` and `PowerOff` -/

theorem lock_acquire_release (d : AlsDevice) :
    { d with m_I2CWaitLock := d.m_I2CWaitLock + 1 - 1 } = d := by
  cases d
  simp

/-- C15: when every bus write succeeds, `PowerOn` issues exactly three single-byte
register writes, in this order: 0x00 to the test register (offset 8), 0x00 to the mode
register (offset 0), 0x01 to the config register (offset 1); it returns the status of
the last write and leaves `m_PoweredOn` set and the `SensorState` property
`SensorState_Idle` (on a device whose property list is allocated). The config byte 0x01
has range-select bits 0-1 equal to 1 and resolution bits 2-3 and scheme bit 7 equal
to 0. -/
theorem PowerOn_writes (d : AlsDevice) (WriteStatus : Nat → NTSTATUS)
    (hWrites : ∀ k, k < 3 → NT_SUCCESS (WriteStatus k) = true)
    (hProps : d.m_pSensorProperties.List.length = SENSOR_PROPERTIES_COUNT) :
    ∃ after events, PowerOn d WriteStatus = (WriteStatus 2, after, events) ∧
      registerWrites events =
        [ (ISL29018_REG_ADDR_TEST, 0x00, 1), (ISL29018_REG_ADD_COMMAND1, 0x00, 1),
          (ISL29018_REG_ADD_COMMAND2, 0x01, 1) ] ∧
      ISL29018_REG_ADDR_TEST = 8 ∧ ISL29018_REG_ADD_COMMAND1 = 0 ∧
      ISL29018_REG_ADD_COMMAND2 = 1 ∧
      after.m_PoweredOn = true ∧
      ValueAt after.m_pSensorProperties SENSOR_PROPERTY_STATE =
        some (PROPVARIANT.VT_UI4 SensorState_Idle) ∧
      (0x01 &&& ISL29018_CMD2_RANGE_MASK) >>> ISL29018_CMD2_RANGE_SHIFT = 1 ∧
      (0x01 &&& ISL29018_CMD2_RESOLUTION_MASK) >>> ISL29018_CMD2_RESOLUTION_SHIFT = 0 ∧
      (0x01 &&& ISL29018_CMD2_SCHEME_MASK) >>> ISL29018_CMD2_SCHEME_SHIFT = 0 := by
  have h0 := hWrites 0 (by omega)
  have h1 := hWrites 1 (by omega)
  have h2 := hWrites 2 (by omega)
  have hv : ValueAt (SetValueAt d.m_pSensorProperties SENSOR_PROPERTY_STATE
      (PROPVARIANT.VT_UI4 SensorState_Idle)) SENSOR_PROPERTY_STATE =
      some (PROPVARIANT.VT_UI4 SensorState_Idle) :=
    ValueAt_SetValueAt_same _ _ _ (by rw [hProps]; decide)
  have hE : PowerOn d WriteStatus =
      (WriteStatus 2,
       { d with
         m_I2CWaitLock := d.m_I2CWaitLock + 1 - 1,
         m_pSensorProperties :=
           SetValueAt d.m_pSensorProperties SENSOR_PROPERTY_STATE
             (PROPVARIANT.VT_UI4 SensorState_Idle),
         m_PoweredOn := true },
       [ Event.WdfWaitLockAcquire,
         Event.I2CSensorWriteRegister ISL29018_REG_ADDR_TEST 0x00 1,
         Event.I2CSensorWriteRegister ISL29018_REG_ADD_COMMAND1 0x00 1,
         Event.I2CSensorWriteRegister ISL29018_REG_ADD_COMMAND2 0x01 1,
         Event.WdfWaitLockRelease ]) := by
    simp [PowerOn, PowerOn_loop, g_ConfigurationSettings, h0, h1, h2]
  exact ⟨_, _, hE, rfl, rfl, rfl, rfl, rfl, hv, by decide, by decide, by decide⟩

/-- C15 at a concrete input: the device after `Initialize`, all writes successful. -/
theorem PowerOn_writes_witness :
    ∃ after events, PowerOn sampleDevice (fun _ => STATUS_SUCCESS) =
        (STATUS_SUCCESS, after, events) ∧
      registerWrites events = [(8, 0x00, 1), (0, 0x00, 1), (1, 0x01, 1)] ∧
      after.m_PoweredOn = true ∧
      ValueAt after.m_pSensorProperties SENSOR_PROPERTY_STATE =
        some (PROPVARIANT.VT_UI4 SensorState_Idle) :=
  have h := PowerOn_writes sampleDevice (fun _ => STATUS_SUCCESS) (fun _ _ => NT_SUCCESS_STATUS_SUCCESS)
    (by decide)
  match h with
  | ⟨after, events, h1, h2, _, _, _, h3, h4, _⟩ => ⟨after, events, h1, h2, h3, h4⟩

/-- C16: if the `k`-th configuration write of `PowerOn` is the first that fails,
`PowerOn` returns its status, has issued the writes up to the `k`-th and no later one,
and leaves the device context, in particular `m_PoweredOn` and the `SensorState`
property, unchanged. `PowerOff` issues one write, 0x00 (power-down) to the mode
register; if it succeeds `m_PoweredOn` is cleared and nothing else changes, if it fails
`PowerOff` returns its status and the device context is unchanged; so on a powered-on
device `m_PoweredOn` becomes false if and only if the write succeeds. -/
theorem PowerOn_PowerOff_write_failure (d : AlsDevice) (WriteStatus : Nat → NTSTATUS) (k : Nat)
    (hk : k < g_ConfigurationSettings.length)
    (hBefore : ∀ j, j < k → NT_SUCCESS (WriteStatus j) = true)
    (hFail : NT_SUCCESS (WriteStatus k) = false) :
    (∃ events, PowerOn d WriteStatus = (WriteStatus k, d, events) ∧
      registerWrites events =
        (g_ConfigurationSettings.take (k + 1)).map (fun s => (s.Register, s.Value, 1))) ∧
    (∀ status : NTSTATUS, NT_SUCCESS status = true →
      ∃ events, PowerOff d status = (status, { d with m_PoweredOn := false }, events) ∧
        registerWrites events = [(ISL29018_REG_ADD_COMMAND1, 0x00, 1)]) ∧
    (∀ status : NTSTATUS, NT_SUCCESS status = false →
      ∃ events, PowerOff d status = (status, d, events) ∧
        registerWrites events = [(ISL29018_REG_ADD_COMMAND1, 0x00, 1)]) ∧
    (∀ status : NTSTATUS, d.m_PoweredOn = true →
      ((PowerOff d status).2.1.m_PoweredOn = false ↔ NT_SUCCESS status = true)) := by
  have hd := lock_acquire_release d
  have hOff1 : ∀ status : NTSTATUS, NT_SUCCESS status = true →
      PowerOff d status = (status, { d with m_PoweredOn := false },
        [Event.WdfWaitLockAcquire, Event.I2CSensorWriteRegister ISL29018_REG_ADD_COMMAND1 0 1,
          Event.WdfWaitLockRelease]) := by
    intro status hs
    simp only [PowerOff, hs, Bool.not_true, Bool.false_eq_true, if_false]
    rw [show ({ d with m_I2CWaitLock := d.m_I2CWaitLock + 1 - 1, m_PoweredOn := false } :
      AlsDevice) = { ({ d with m_I2CWaitLock := d.m_I2CWaitLock + 1 - 1 } : AlsDevice) with
        m_PoweredOn := false } from rfl, hd]
    rfl
  have hOff2 : ∀ status : NTSTATUS, NT_SUCCESS status = false →
      PowerOff d status = (status, d,
        [Event.WdfWaitLockAcquire, Event.I2CSensorWriteRegister ISL29018_REG_ADD_COMMAND1 0 1,
          Event.WdfWaitLockRelease]) := by
    intro status hs
    simp only [PowerOff, hs, Bool.not_false, if_true]
    rw [hd]
    rfl
  refine ⟨?_, fun status hs => ⟨_, hOff1 status hs, rfl⟩,
    fun status hs => ⟨_, hOff2 status hs, rfl⟩, ?_⟩
  · have hk3 : k < 3 := hk
    interval_cases k
    · refine ⟨[ Event.WdfWaitLockAcquire,
          Event.I2CSensorWriteRegister ISL29018_REG_ADDR_TEST 0x00 1,
          Event.WdfWaitLockRelease ], ?_, rfl⟩
      simp [PowerOn, PowerOn_loop, g_ConfigurationSettings, hFail, hd]
    · have h0 := hBefore 0 (by omega)
      refine ⟨[ Event.WdfWaitLockAcquire,
          Event.I2CSensorWriteRegister ISL29018_REG_ADDR_TEST 0x00 1,
          Event.I2CSensorWriteRegister ISL29018_REG_ADD_COMMAND1 0x00 1,
          Event.WdfWaitLockRelease ], ?_, rfl⟩
      simp [PowerOn, PowerOn_loop, g_ConfigurationSettings, hFail, h0, hd]
    · have h0 := hBefore 0 (by omega)
      have h1 := hBefore 1 (by omega)
      refine ⟨[ Event.WdfWaitLockAcquire,
          Event.I2CSensorWriteRegister ISL29018_REG_ADDR_TEST 0x00 1,
          Event.I2CSensorWriteRegister ISL29018_REG_ADD_COMMAND1 0x00 1,
          Event.I2CSensorWriteRegister ISL29018_REG_ADD_COMMAND2 0x01 1,
          Event.WdfWaitLockRelease ], ?_, rfl⟩
      simp [PowerOn, PowerOn_loop, g_ConfigurationSettings, hFail, h0, h1, hd]
  · intro status hOn
    cases hs : NT_SUCCESS status
    · rw [hOff2 status hs]
      simp [hOn]
    · rw [hOff1 status hs]
      simp

/-- C16 at a concrete input: the device after `Initialize` and a `PowerOn` whose second
write fails: two writes are issued and the device is unchanged. -/
theorem PowerOn_PowerOff_write_failure_witness :
    ∃ events, PowerOn sampleDevice sampleSecondWriteFails =
        (STATUS_UNSUCCESSFUL, sampleDevice, events) ∧
      registerWrites events = [(8, 0x00, 1), (0, 0x00, 1)] :=
  (PowerOn_PowerOff_write_failure sampleDevice sampleSecondWriteFails 1 (by decide)
    (fun j hj => by
      have h : j = 0 := by omega
      rw [h]; decide)
    (by decide)).1

/-! ## `OnStop` and failed calls -/

/-- The routine `OnStop` when its register write fails. -/
theorem OnStop_write_fails (d : AlsDevice) (env : StopEnv)
    (h : NT_SUCCESS env.WriteStatus = false) :
    OnStop (some d) env =
      (env.WriteStatus,
       some { d with m_Started := false, m_Timer := none,
                     m_I2CWaitLock := d.m_I2CWaitLock - 1 },
       [ Event.WdfTimerStop true,
         Event.I2CSensorWriteRegister ISL29018_REG_ADD_COMMAND1 0x00 1,
         Event.WdfWaitLockRelease ]) := by
  simp only [OnStop, h, Bool.not_false, if_true]
  rfl

/-- The routine `OnStop` when its register write succeeds. -/
theorem OnStop_write_succeeds (d : AlsDevice) (env : StopEnv)
    (h : NT_SUCCESS env.WriteStatus = true) :
    OnStop (some d) env =
      ((if TIMERR_NOERROR ≠ env.TimeEndPeriodResult then STATUS_UNSUCCESSFUL
        else env.WriteStatus),
       some { d with m_Started := false, m_Timer := none,
                     m_I2CWaitLock := d.m_I2CWaitLock - 1,
                     m_pSensorProperties :=
                       SetValueAt d.m_pSensorProperties SENSOR_PROPERTY_STATE
                         (PROPVARIANT.VT_UI4 SensorState_Idle) },
       [ Event.WdfTimerStop true,
         Event.I2CSensorWriteRegister ISL29018_REG_ADD_COMMAND1 0x00 1,
         Event.WdfWaitLockRelease,
         Event.timeEndPeriod SYSTEM_TICK_COUNT_1MS ]) := by
  simp only [OnStop, h, Bool.not_true, Bool.false_eq_true, if_false]
  split <;> rfl

theorem sampleActive_state :
    ValueAt sampleActive.m_pSensorProperties SENSOR_PROPERTY_STATE =
      some (PROPVARIANT.VT_UI4 SensorState_Active) := by
  decide

/-- C17, as stated, fails: on the started device after `Initialize`, `PowerOn` and
`OnStart`, whose `SensorState` property is `SensorState_Active`, an `OnStop` whose
register write fails clears `m_Started` and disarms the timer but leaves the property
`SensorState_Active`, not `SensorState_Idle`. -/
theorem OnStop_write_fails_state_not_idle :
    NT_SUCCESS sampleStopWriteFails.WriteStatus = false ∧
    ∃ after, (OnStop (some sampleActive) sampleStopWriteFails).2.1 = some after ∧
      after.m_Started = false ∧ after.m_Timer = none ∧
      ValueAt after.m_pSensorProperties SENSOR_PROPERTY_STATE =
        some (PROPVARIANT.VT_UI4 SensorState_Active) ∧
      ValueAt after.m_pSensorProperties SENSOR_PROPERTY_STATE ≠
        some (PROPVARIANT.VT_UI4 SensorState_Idle) := by
  have h : NT_SUCCESS sampleStopWriteFails.WriteStatus = false := by decide
  refine ⟨h, ?_⟩
  rw [OnStop_write_fails sampleActive sampleStopWriteFails h]
  refine ⟨_, rfl, rfl, rfl, ?_, ?_⟩
  · exact sampleActive_state
  · show ValueAt sampleActive.m_pSensorProperties SENSOR_PROPERTY_STATE ≠ _
    rw [sampleActive_state]
    decide

/-- C17, amended: after `OnStop` returns on a device whose property list is allocated,
`m_Started` is false and the timer is disarmed, whether or not the register write
succeeded; the `SensorState` property is `SensorState_Idle` if the register write
succeeded, and is what it was before the call if the write failed. -/
theorem OnStop_effects (d : AlsDevice) (env : StopEnv)
    (hProps : d.m_pSensorProperties.List.length = SENSOR_PROPERTIES_COUNT) :
    ∃ after, (OnStop (some d) env).2.1 = some after ∧
      after.m_Started = false ∧ after.m_Timer = none ∧
      (NT_SUCCESS env.WriteStatus = true →
        ValueAt after.m_pSensorProperties SENSOR_PROPERTY_STATE =
          some (PROPVARIANT.VT_UI4 SensorState_Idle)) ∧
      (NT_SUCCESS env.WriteStatus = false →
        after.m_pSensorProperties = d.m_pSensorProperties) := by
  cases h : NT_SUCCESS env.WriteStatus
  · rw [OnStop_write_fails d env h]
    refine ⟨_, rfl, rfl, rfl, ?_, fun _ => rfl⟩
    intro hc
    exact absurd hc (by simp)
  · rw [OnStop_write_succeeds d env h]
    refine ⟨_, rfl, rfl, rfl, fun _ => ?_, ?_⟩
    · exact ValueAt_SetValueAt_same _ _ _ (by rw [hProps]; decide)
    · intro hc
      exact absurd hc (by simp)

/-- C17, amended, at a concrete input: the started device, once with a successful and
once with a failing register write. -/
theorem OnStop_effects_witness :
    (∃ after, (OnStop (some sampleActive) sampleStopRestoreFails).2.1 = some after ∧
      after.m_Started = false ∧ after.m_Timer = none ∧
      ValueAt after.m_pSensorProperties SENSOR_PROPERTY_STATE =
        some (PROPVARIANT.VT_UI4 SensorState_Idle)) ∧
    (∃ after, (OnStop (some sampleActive) sampleStopWriteFails).2.1 = some after ∧
      after.m_Started = false ∧ after.m_Timer = none ∧
      after.m_pSensorProperties = sampleActive.m_pSensorProperties) :=
  ⟨match OnStop_effects sampleActive sampleStopRestoreFails (by decide) with
    | ⟨after, h1, h2, h3, h4, _⟩ => ⟨after, h1, h2, h3, h4 (by decide)⟩,
   match OnStop_effects sampleActive sampleStopWriteFails (by decide) with
    | ⟨after, h1, h2, h3, _, h5⟩ => ⟨after, h1, h2, h3, h5 (by decide)⟩⟩

/-- C18: an `OnStop` whose register write succeeds and whose `timeEndPeriod` fails
returns `STATUS_UNSUCCESSFUL`, a failure status, not the success status of the write;
so it does on the started device with `timeEndPeriod` answering `TIMERR_NOCANDO`. -/
theorem OnStop_restore_failure_status :
    (∀ (d : AlsDevice) (env : StopEnv), NT_SUCCESS env.WriteStatus = true →
      env.TimeEndPeriodResult ≠ TIMERR_NOERROR →
      (OnStop (some d) env).1 = STATUS_UNSUCCESSFUL) ∧
    NT_SUCCESS STATUS_UNSUCCESSFUL = false ∧
    NT_SUCCESS sampleStopRestoreFails.WriteStatus = true ∧
    sampleStopRestoreFails.TimeEndPeriodResult ≠ TIMERR_NOERROR ∧
    (OnStop (some sampleActive) sampleStopRestoreFails).1 = STATUS_UNSUCCESSFUL ∧
    NT_SUCCESS (OnStop (some sampleActive) sampleStopRestoreFails).1 = false := by
  have hG : ∀ (d : AlsDevice) (env : StopEnv), NT_SUCCESS env.WriteStatus = true →
      env.TimeEndPeriodResult ≠ TIMERR_NOERROR →
      (OnStop (some d) env).1 = STATUS_UNSUCCESSFUL := by
    intro d env h1 h2
    rw [OnStop_write_succeeds d env h1, if_pos (fun e => h2 e.symm)]
  have h := hG sampleActive sampleStopRestoreFails (by decide) (by decide)
  exact ⟨hG, by decide, by decide, by decide, h, by rw [h]; decide⟩

/-- C19, as stated, fails: on the started device, whose timer is armed, an `OnStop`
whose register write fails returns the failure and leaves `m_Started` false and the
timer disarmed. -/
theorem OnStop_write_fails_changes_state :
    sampleActive.m_Started = true ∧ sampleActive.m_Timer = some (-900000) ∧
    NT_SUCCESS sampleStopWriteFails.WriteStatus = false ∧
    NT_SUCCESS (OnStop (some sampleActive) sampleStopWriteFails).1 = false ∧
    ∃ after, (OnStop (some sampleActive) sampleStopWriteFails).2.1 = some after ∧
      after.m_Started ≠ sampleActive.m_Started ∧ after.m_Timer ≠ sampleActive.m_Timer := by
  have h : NT_SUCCESS sampleStopWriteFails.WriteStatus = false := by decide
  have hS : sampleActive.m_Started = true := by decide
  have hT : sampleActive.m_Timer = some (-900000) := by decide
  refine ⟨hS, hT, h, ?_⟩
  rw [OnStop_write_fails sampleActive sampleStopWriteFails h]
  refine ⟨h, _, rfl, ?_, ?_⟩
  · rw [hS]; decide
  · rw [hT]; decide

/-- C19, amended: a failed `OnStart` (device not powered, or the register write fails)
leaves `m_Started`, `m_FirstSample`, the sensor properties with the `SensorState`
property, and the timer exactly as before the call. An `OnStop` whose register write
fails returns that failure and leaves `m_FirstSample` and the sensor properties as
before the call, while `m_Started` is false and the timer disarmed after it. -/
theorem failed_OnStart_OnStop_state (d : AlsDevice) :
    (∀ WriteStatus : NTSTATUS, d.m_PoweredOn = false ∨ NT_SUCCESS WriteStatus = false →
      NT_SUCCESS (OnStart (some d) WriteStatus).1 = false ∧
      ∃ after, (OnStart (some d) WriteStatus).2.1 = some after ∧
        after.m_Started = d.m_Started ∧ after.m_FirstSample = d.m_FirstSample ∧
        after.m_pSensorProperties = d.m_pSensorProperties ∧ after.m_Timer = d.m_Timer) ∧
    (∀ env : StopEnv, NT_SUCCESS env.WriteStatus = false →
      (OnStop (some d) env).1 = env.WriteStatus ∧
      ∃ after, (OnStop (some d) env).2.1 = some after ∧
        after.m_FirstSample = d.m_FirstSample ∧
        after.m_pSensorProperties = d.m_pSensorProperties ∧
        after.m_Started = false ∧ after.m_Timer = none) := by
  constructor
  · intro WriteStatus h
    cases hOn : d.m_PoweredOn
    · have hI : NT_SUCCESS STATUS_INVALID_PARAMETER = false := by decide
      simp [OnStart, hOn, hI]
    · have hW : NT_SUCCESS WriteStatus = false := by
        rcases h with h | h
        · rw [hOn] at h; exact absurd h (by simp)
        · exact h
      simp [OnStart, hOn, hW]
  · intro env h
    rw [OnStop_write_fails d env h]
    exact ⟨rfl, _, rfl, rfl, rfl, rfl, rfl⟩

/-- C19, amended, at concrete inputs: `OnStart` on the device after `Initialize`, which
is not powered, and `OnStop` with a failing register write on the started device. -/
theorem failed_OnStart_OnStop_state_witness :
    (NT_SUCCESS (OnStart (some sampleDevice) STATUS_SUCCESS).1 = false ∧
      ∃ after, (OnStart (some sampleDevice) STATUS_SUCCESS).2.1 = some after ∧
        after.m_Started = sampleDevice.m_Started ∧
        after.m_FirstSample = sampleDevice.m_FirstSample ∧
        after.m_pSensorProperties = sampleDevice.m_pSensorProperties ∧
        after.m_Timer = sampleDevice.m_Timer) ∧
    ((OnStop (some sampleActive) sampleStopWriteFails).1 = sampleStopWriteFails.WriteStatus ∧
      ∃ after, (OnStop (some sampleActive) sampleStopWriteFails).2.1 = some after ∧
        after.m_FirstSample = sampleActive.m_FirstSample ∧
        after.m_pSensorProperties = sampleActive.m_pSensorProperties ∧
        after.m_Started = false ∧ after.m_Timer = none) :=
  ⟨(failed_OnStart_OnStop_state sampleDevice).1 STATUS_SUCCESS (Or.inl (by decide)),
   (failed_OnStart_OnStop_state sampleActive).2 sampleStopWriteFails (by decide)⟩

/-! ## Ticks whose bus read fails -/

theorem candidate_of_failed_read (d : AlsDevice) (env : GetDataEnv)
    (h : NT_SUCCESS env.ReadStatus = false) : candidate d env = d.m_CachedData := by
  simp [candidate, h]

/-- C20: ticks whose bus read fails and which publish all the same. On the first tick of
a cycle (the started device, last published lux 0, cached reading 1) `GetData`
publishes the cached 1 lux as a sample, makes it the last published lux, writes it into
the data record and returns the status of the clock read, a success. On a later tick
with both thresholds 0 (last published lux 100, cached reading 50) it publishes the
cached 50 lux and makes it the last published lux. -/
theorem GetData_failed_read_publishes :
    NT_SUCCESS (sampleReadFails 0 0).ReadStatus = false ∧
    sampleActive.m_FirstSample = true ∧ sampleActive.m_LastSample = 0 ∧
    ValueAt sampleActive.m_pSensorData ALS_DATA_LUX = some (PROPVARIANT.VT_R4 0) ∧
    published (GetData sampleActive (sampleReadFails 0 0)).2.2 =
      [sampleRecord sampleActive (sampleReadFails 0 0) 1] ∧
    (GetData sampleActive (sampleReadFails 0 0)).2.1.m_LastSample = 1 ∧
    ValueAt (GetData sampleActive (sampleReadFails 0 0)).2.1.m_pSensorData ALS_DATA_LUX =
      some (PROPVARIANT.VT_R4 1) ∧
    (GetData sampleActive (sampleReadFails 0 0)).1 = STATUS_SUCCESS ∧
    sampleZeroThresholds.m_FirstSample = false ∧ sampleZeroThresholds.m_LastSample = 100 ∧
    published (GetData sampleZeroThresholds (sampleReadFails 0 0)).2.2 =
      [sampleRecord sampleZeroThresholds (sampleReadFails 0 0) 50] ∧
    (GetData sampleZeroThresholds (sampleReadFails 0 0)).2.1.m_LastSample = 50 := by
  have hR : NT_SUCCESS (sampleReadFails 0 0).ReadStatus = false := by decide
  have hF : sampleActive.m_FirstSample = true := by decide
  have hc1 : candidate sampleActive (sampleReadFails 0 0) = 1 := by
    rw [candidate_of_failed_read _ _ hR]; rfl
  have hD1 : DataReady sampleActive (sampleReadFails 0 0) = true := DataReady_of_first _ _ hF
  have hc2 : candidate sampleZeroThresholds (sampleReadFails 0 0) = 50 := by
    rw [candidate_of_failed_read _ _ hR]; rfl
  have hD2 : DataReady sampleZeroThresholds (sampleReadFails 0 0) = true := by
    have h1 : sampleZeroThresholds.m_FirstSample = false := rfl
    have h2 : sampleZeroThresholds.m_LastSample = 100 := rfl
    have h3 : sampleZeroThresholds.m_CachedThresholds = { LuxPct := 0, LuxAbs := 0 } := rfl
    simp only [DataReady, h1, hc2, thresholdsExceeded, h2, h3, Bool.false_eq_true, if_false]
    norm_num
  refine ⟨hR, hF, rfl, rfl, ?_, ?_, ?_, ?_, rfl, rfl, ?_, ?_⟩
  · rw [published_GetData, hD1, hc1]; rfl
  · rw [GetData_eq, hD1]; simp only [if_true, hc1]
  · rw [GetData_eq, hD1]
    simp only [if_true, hc1, sampleRecord]
    rw [ValueAt_SetValueAt_other _ _ _ _ (by decide)]
    exact ValueAt_SetValueAt_same _ _ _ (by decide)
  · rw [GetData_eq, hD1]
    simp only [if_true, hF]
    rfl
  · rw [published_GetData, hD2, hc2]; rfl
  · rw [GetData_eq, hD2]; simp only [if_true, hc2]

/-! ## The status of `GetData` -/

/-- The status `GetData` returns, by its course. -/
theorem GetData_status (d : AlsDevice) (env : GetDataEnv) :
    (GetData d env).1 =
      if d.m_FirstSample then env.PerfStatus
      else if DataReady d env then env.ReadStatus else STATUS_DATA_NOT_ACCEPTED := by
  rw [GetData_eq]
  cases hF : d.m_FirstSample <;> cases hD : DataReady d env <;> simp_all [DataReady]

theorem DataReady_sampleRunning_stale :
    DataReady sampleRunning (sampleReadFails 0 0) = false := by
  have hR : NT_SUCCESS (sampleReadFails 0 0).ReadStatus = false := by decide
  have h1 : sampleRunning.m_FirstSample = false := rfl
  have h2 : sampleRunning.m_LastSample = 100 := rfl
  have h3 : sampleRunning.m_CachedThresholds = { LuxPct := 1 / 10, LuxAbs := 5 } := rfl
  have hc : candidate sampleRunning (sampleReadFails 0 0) = 100 := by
    rw [candidate_of_failed_read _ _ hR]; rfl
  simp only [DataReady, h1, hc, thresholdsExceeded, h2, h3, Bool.false_eq_true, if_false]
  norm_num

/-- C21: calls of `GetData` whose bus read fails with `STATUS_UNSUCCESSFUL` and whose
result is not that error. On the first tick of a cycle (the started device) the result
is the status of the clock read, `STATUS_SUCCESS`; on a later tick on which the stale
cached reading does not pass the gate (last published lux 100, cached reading 100,
thresholds 10 % and 5 lux) the result is `STATUS_DATA_NOT_ACCEPTED`. Only on a tick
whose stale reading passes the gate (both thresholds 0) is the result the bus error. -/
theorem GetData_failed_read_status :
    (sampleReadFails 0 0).ReadStatus = STATUS_UNSUCCESSFUL ∧
    NT_SUCCESS (sampleReadFails 0 0).ReadStatus = false ∧
    sampleActive.m_FirstSample = true ∧
    (GetData sampleActive (sampleReadFails 0 0)).1 = STATUS_SUCCESS ∧
    NT_SUCCESS (GetData sampleActive (sampleReadFails 0 0)).1 = true ∧
    sampleRunning.m_FirstSample = false ∧
    (GetData sampleRunning (sampleReadFails 0 0)).1 = STATUS_DATA_NOT_ACCEPTED ∧
    published (GetData sampleRunning (sampleReadFails 0 0)).2.2 = [] ∧
    sampleZeroThresholds.m_FirstSample = false ∧
    (GetData sampleZeroThresholds (sampleReadFails 0 0)).1 = STATUS_UNSUCCESSFUL := by
  have hD2 : DataReady sampleZeroThresholds (sampleReadFails 0 0) = true := by
    have hR : NT_SUCCESS (sampleReadFails 0 0).ReadStatus = false := by decide
    have h1 : sampleZeroThresholds.m_FirstSample = false := rfl
    have h2 : sampleZeroThresholds.m_LastSample = 100 := rfl
    have h3 : sampleZeroThresholds.m_CachedThresholds = { LuxPct := 0, LuxAbs := 0 } := rfl
    have hc : candidate sampleZeroThresholds (sampleReadFails 0 0) = 50 := by
      rw [candidate_of_failed_read _ _ hR]; rfl
    simp only [DataReady, h1, hc, thresholdsExceeded, h2, h3, Bool.false_eq_true, if_false]
    norm_num
  have hF : sampleActive.m_FirstSample = true := by decide
  have hS : (GetData sampleActive (sampleReadFails 0 0)).1 = STATUS_SUCCESS := by
    rw [GetData_status, hF]; rfl
  refine ⟨rfl, by decide, hF, hS, ?_, rfl, ?_, ?_, rfl, ?_⟩
  · rw [hS]; decide
  · rw [GetData_status, DataReady_sampleRunning_stale]; rfl
  · rw [published_GetData, DataReady_sampleRunning_stale]; rfl
  · rw [GetData_status, hD2]; rfl

/-! ## `OnSetDataInterval` with a data rate that is not zero -/

/-- C29: the catalog getters called with a null `pSize`. `OnGetSupportedDataFields` and
`OnGetDataThresholds` test `pSize` first and return `STATUS_INVALID_PARAMETER` without
writing through it. `OnGetProperties` and `OnGetDataFieldProperties` set the same status
and jump to the label `Exit`, where `*pSize = 0` is executed on every failure status:
with a null `pSize` they write through the null pointer, whatever the other arguments
are, for instance on the device after `Initialize`. -/
theorem getters_null_size :
    (∀ (U : SensorsUtils) (SensorInstance : Option AlsDevice)
        (pFields : Option SENSOR_PROPERTY_LIST),
      OnGetSupportedDataFields U SensorInstance pFields none =
        Except.ok (STATUS_INVALID_PARAMETER, pFields, none)) ∧
    (∀ (U : SensorsUtils) (SensorInstance : Option AlsDevice)
        (pThresholds : Option SENSOR_COLLECTION_LIST),
      OnGetDataThresholds U SensorInstance pThresholds none =
        Except.ok (STATUS_INVALID_PARAMETER, pThresholds, none)) ∧
    (∀ (U : SensorsUtils) (SensorInstance : Option AlsDevice)
        (pProperties : Option SENSOR_COLLECTION_LIST),
      OnGetProperties U SensorInstance pProperties none =
        Except.error Fault.nullPointerWrite) ∧
    (∀ (U : SensorsUtils) (SensorInstance : Option AlsDevice) (DataField : Option PROPERTYKEY)
        (pProperties : Option SENSOR_COLLECTION_LIST),
      OnGetDataFieldProperties U SensorInstance DataField pProperties none =
        Except.error Fault.nullPointerWrite) ∧
    OnGetProperties sampleUtils (some sampleDevice) none none =
      Except.error Fault.nullPointerWrite ∧
    OnGetDataFieldProperties sampleUtils (some sampleDevice)
      (some PROPERTYKEY.PKEY_SensorData_LightLevel_Lux) none none =
      Except.error Fault.nullPointerWrite := by
  have hExit : ∀ (pProperties : Option SENSOR_COLLECTION_LIST),
      OnGet_Exit STATUS_INVALID_PARAMETER pProperties none =
        Except.error Fault.nullPointerWrite := by
    intro pProperties
    have h : NT_SUCCESS STATUS_INVALID_PARAMETER = false := by decide
    simp [OnGet_Exit, h]
  have h3 : ∀ (U : SensorsUtils) (SensorInstance : Option AlsDevice)
      (pProperties : Option SENSOR_COLLECTION_LIST),
      OnGetProperties U SensorInstance pProperties none =
        Except.error Fault.nullPointerWrite := by
    intro U SensorInstance pProperties
    cases SensorInstance <;> simp [OnGetProperties, hExit]
  have h4 : ∀ (U : SensorsUtils) (SensorInstance : Option AlsDevice)
      (DataField : Option PROPERTYKEY) (pProperties : Option SENSOR_COLLECTION_LIST),
      OnGetDataFieldProperties U SensorInstance DataField pProperties none =
        Except.error Fault.nullPointerWrite := by
    intro U SensorInstance DataField pProperties
    cases SensorInstance <;> cases DataField <;> simp [OnGetDataFieldProperties, hExit]
  exact ⟨fun _ _ _ => rfl, fun _ _ _ => rfl, h3, h4, h3 _ _ _, h4 _ _ _ _⟩

/-! ## The discipline of the bus lock -/

theorem GetData_events (d : AlsDevice) (env : GetDataEnv) :
    (GetData d env).2.2 = GetData_readEvents ∨
    ∃ pSensorData, (GetData d env).2.2 =
      GetData_readEvents ++ [Event.SensorsCxSensorDataReady pSensorData] := by
  rw [GetData_eq]
  cases DataReady d env
  · exact Or.inl rfl
  · exact Or.inr ⟨_, rfl⟩

/-- The routines that keep the discipline of the lock: `GetData`, `PowerOff` and
`PowerOn` return with the hold count they were entered with, make their bus accesses
while they hold the lock and acquire it once. -/
theorem lock_kept_GetData_PowerOff_PowerOn :
    (∀ (d : AlsDevice) (env : GetDataEnv),
      (GetData d env).2.1.m_I2CWaitLock = d.m_I2CWaitLock ∧
      holdCountAfter 0 (GetData d env).2.2 = 0 ∧
      accessesWhileHeld 0 (GetData d env).2.2 = true ∧
      noNestedAcquire 0 (GetData d env).2.2 = true) ∧
    (∀ (d : AlsDevice) (WriteStatus : NTSTATUS),
      (PowerOff d WriteStatus).2.1.m_I2CWaitLock = d.m_I2CWaitLock ∧
      holdCountAfter 0 (PowerOff d WriteStatus).2.2 = 0 ∧
      accessesWhileHeld 0 (PowerOff d WriteStatus).2.2 = true ∧
      noNestedAcquire 0 (PowerOff d WriteStatus).2.2 = true) ∧
    (∀ (d : AlsDevice) (WriteStatus : Nat → NTSTATUS),
      (PowerOn d WriteStatus).2.1.m_I2CWaitLock = d.m_I2CWaitLock ∧
      holdCountAfter 0 (PowerOn d WriteStatus).2.2 = 0 ∧
      accessesWhileHeld 0 (PowerOn d WriteStatus).2.2 = true ∧
      noNestedAcquire 0 (PowerOn d WriteStatus).2.2 = true) := by
  refine ⟨?_, ?_, ?_⟩
  · intro d env
    refine ⟨(GetData_frame d env).2.2.2.2.2.1, ?_⟩
    rcases GetData_events d env with h | ⟨p, h⟩ <;> rw [h] <;>
      simp [GetData_readEvents, holdCountAfter, accessesWhileHeld, noNestedAcquire]
  · intro d WriteStatus
    cases h : NT_SUCCESS WriteStatus <;>
      simp [PowerOff, h, holdCountAfter, accessesWhileHeld, noNestedAcquire]
  · intro d WriteStatus
    cases h0 : NT_SUCCESS (WriteStatus 0) <;> cases h1 : NT_SUCCESS (WriteStatus 1) <;>
      cases h2 : NT_SUCCESS (WriteStatus 2) <;>
      simp [PowerOn, PowerOn_loop, g_ConfigurationSettings, h0, h1, h2, holdCountAfter,
        accessesWhileHeld, noNestedAcquire, NT_SUCCESS_STATUS_SUCCESS]

/-- C28: the routines that break the discipline of the lock. A successful `OnStart`
acquires the lock and returns without releasing it: the hold count is one higher than
at entry (its failing write path releases it). `OnStop` releases the lock without
acquiring it: the hold count is one lower than at entry, and entered with hold count 0
its register write is made while the lock is not held. `OnTimerExpire`, entered with
the lock free, acquires the lock and calls `GetData`, which acquires it again while it
is held; entered with the lock held, its own acquire is one of a held lock; either way
the callback does not return. On the device after `Initialize` and `PowerOn` the hold
count is 0; after `OnStart` it is 1, and after an `OnStop` in the state after
`Initialize` it is -1. -/
theorem lock_discipline_broken :
    (∀ (d : AlsDevice) (WriteStatus : NTSTATUS),
      d.m_PoweredOn = true → NT_SUCCESS WriteStatus = true →
      ∃ after, (OnStart (some d) WriteStatus).2.1 = some after ∧
        after.m_I2CWaitLock = d.m_I2CWaitLock + 1 ∧
        holdCountAfter 0 (OnStart (some d) WriteStatus).2.2 = 1) ∧
    (∀ (d : AlsDevice) (WriteStatus : NTSTATUS),
      d.m_PoweredOn = true → NT_SUCCESS WriteStatus = false →
      ∃ after, (OnStart (some d) WriteStatus).2.1 = some after ∧
        after.m_I2CWaitLock = d.m_I2CWaitLock ∧
        holdCountAfter 0 (OnStart (some d) WriteStatus).2.2 = 0) ∧
    (∀ (d : AlsDevice) (env : StopEnv),
      ∃ after, (OnStop (some d) env).2.1 = some after ∧
        after.m_I2CWaitLock = d.m_I2CWaitLock - 1 ∧
        holdCountAfter 0 (OnStop (some d) env).2.2 = -1 ∧
        accessesWhileHeld 0 (OnStop (some d) env).2.2 = false) ∧
    (∀ (d : AlsDevice) (env : TimerEnv), d.m_I2CWaitLock ≤ 0 →
      noNestedAcquire 0 (OnTimerExpire (some d) env).2 = false) ∧
    (∀ (d : AlsDevice) (env : TimerEnv), 0 ≤ d.m_I2CWaitLock →
      noNestedAcquire d.m_I2CWaitLock (OnTimerExpire (some d) env).2 = false) ∧
    (∀ (d : AlsDevice) (env : TimerEnv), (OnTimerExpire (some d) env).3 = false) ∧
    (PowerOn sampleDevice (fun _ => STATUS_SUCCESS)).2.1.m_I2CWaitLock = 0 ∧
    sampleActive.m_I2CWaitLock = 1 ∧
    (step sampleDevice (Op.OnStop sampleStopRestoreFails)).m_I2CWaitLock = -1 ∧
    noNestedAcquire 0 (OnTimerExpire (some sampleDevice) (sampleTick 1000)).2 = false := by
  have hTick : ∀ (d : AlsDevice) (env : TimerEnv), d.m_I2CWaitLock ≤ 0 →
      noNestedAcquire 0 (OnTimerExpire (some d) env).2 = false := by
    intro d env h
    rw [OnTimerExpire_course, if_neg (not_lt.mpr h)]
    simp [noNestedAcquire]
  have hHeld : ∀ (d : AlsDevice) (env : TimerEnv), 0 ≤ d.m_I2CWaitLock →
      noNestedAcquire d.m_I2CWaitLock (OnTimerExpire (some d) env).2 = false := by
    intro d env h
    rw [OnTimerExpire_course]
    split
    · simp only [noNestedAcquire, Bool.and_eq_false_imp, decide_eq_true_eq]
      intro h2
      omega
    · simp only [noNestedAcquire, Bool.and_true, Bool.and_eq_false_imp, decide_eq_true_eq,
        decide_eq_false_iff_not]
      intro h2
      omega
  have hRet : ∀ (d : AlsDevice) (env : TimerEnv), (OnTimerExpire (some d) env).3 = false := by
    intro d env
    rw [OnTimerExpire_course]
    split <;> rfl
  refine ⟨?_, ?_, ?_, hTick, hHeld, hRet, by decide, by decide, by decide,
    hTick _ _ (by decide)⟩
  · intro d WriteStatus hOn hW
    simp [OnStart, hOn, hW, holdCountAfter]
  · intro d WriteStatus hOn hW
    simp [OnStart, hOn, hW, holdCountAfter]
  · intro d env
    cases hW : NT_SUCCESS env.WriteStatus
    · simp [OnStop, hW, holdCountAfter, accessesWhileHeld]
    · by_cases hT : TIMERR_NOERROR = env.TimeEndPeriodResult <;>
        simp [OnStop, hW, hT, holdCountAfter, accessesWhileHeld]

/-! ## The shape of the catalogs -/

theorem keysOf_SetValueAt (pList : SENSOR_COLLECTION_LIST) (Index : Nat) (Value : PROPVARIANT) :
    keysOf (SetValueAt pList Index Value) = keysOf pList := by
  have h : ∀ (l : List SENSOR_VALUE_PAIR) (i : Nat),
      (l.modify (fun p => { p with Value := Value }) i).map (fun p => p.Key) =
        l.map (fun p => p.Key) := by
    intro l
    induction l with
    | nil => intro i; cases i <;> rfl
    | cons p rest ih =>
      intro i
      cases i with
      | zero => rfl
      | succ i => simp only [List.modify_succ_cons, List.map_cons, ih]
  exact h pList.List Index

theorem setFirstOfKey_keys (pKey : PROPERTYKEY) (pValue : PROPVARIANT)
    (l l2 : List SENSOR_VALUE_PAIR) (h : setFirstOfKey pKey pValue l = some l2) :
    l2.map (fun p => p.Key) = l.map (fun p => p.Key) := by
  induction l generalizing l2 with
  | nil => simp [setFirstOfKey] at h
  | cons p rest ih =>
    by_cases hk : p.Key = pKey
    · simp [setFirstOfKey, hk] at h
      subst h
      simp [hk]
    · simp only [setFirstOfKey, hk, if_false] at h
      cases hr : setFirstOfKey pKey pValue rest with
      | none => simp [hr] at h
      | some l3 =>
        simp [hr] at h
        subst h
        simp [ih l3 hr]

theorem keysOf_PropKeyFindKeySetPropVariant (pList : SENSOR_COLLECTION_LIST)
    (pKey : PROPERTYKEY) (mustExist : Bool) (pValue : PROPVARIANT) :
    keysOf (PropKeyFindKeySetPropVariant pList pKey mustExist pValue).2 = keysOf pList := by
  unfold PropKeyFindKeySetPropVariant
  cases h : setFirstOfKey pKey pValue pList.List with
  | none => rfl
  | some l => exact setFirstOfKey_keys pKey pValue pList.List l h

theorem keysOf_OnSetDataThresholds_loop (entries : List SENSOR_VALUE_PAIR)
    (pList : SENSOR_COLLECTION_LIST) (Status : NTSTATUS) :
    keysOf (OnSetDataThresholds_loop pList entries Status).2 = keysOf pList := by
  induction entries generalizing pList Status with
  | nil => rfl
  | cons p rest ih =>
    simp only [OnSetDataThresholds_loop]
    split
    · exact keysOf_PropKeyFindKeySetPropVariant _ _ _ _
    · rw [ih]; exact keysOf_PropKeyFindKeySetPropVariant _ _ _ _

theorem catalogKeys_GetData (d : AlsDevice) (env : GetDataEnv) :
    catalogKeys (GetData d env).2.1 = catalogKeys d := by
  rw [GetData_eq]
  cases DataReady d env
  · rfl
  · simp [catalogKeys, sampleRecord, keysOf_SetValueAt]

/-- No operation changes the keys of a catalog. -/
theorem catalogKeys_step (d : AlsDevice) (op : Op) : catalogKeys (step d op) = catalogKeys d := by
  cases op with
  | PowerOn WriteStatus =>
    simp only [step, PowerOn]
    split
    · rfl
    · simp [catalogKeys, keysOf_SetValueAt]
  | PowerOff WriteStatus =>
    simp only [step, PowerOff]
    split <;> rfl
  | OnStart WriteStatus =>
    simp only [step, OnStart]
    split
    · rfl
    · split
      · rfl
      · simp [catalogKeys, keysOf_SetValueAt]
  | OnStop env =>
    simp only [step, OnStop]
    split
    · rfl
    · split <;> simp [catalogKeys, keysOf_SetValueAt]
  | OnSetDataInterval DataRateMs =>
    simp only [step, OnSetDataInterval]
    split
    · rfl
    · split <;> rfl
  | OnSetDataThresholds pThresholds =>
    simp only [step, OnSetDataThresholds]
    split
    · simp only [UpdateCachedThreshold]
      split <;> simp [catalogKeys, keysOf_OnSetDataThresholds_loop]
    · simp [catalogKeys, keysOf_OnSetDataThresholds_loop]
  | OnTimerExpire env =>
    obtain ⟨k, hk⟩ := step_OnTimerExpire d env
    rw [hk]
    rfl
  | OnInterruptWorkItem env =>
    exact catalogKeys_GetData d env

theorem catalogKeys_run (ops : List Op) (d : AlsDevice) : catalogKeys (run d ops) = catalogKeys d := by
  induction ops generalizing d with
  | nil => rfl
  | cons op rest ih => simp only [run]; rw [ih, catalogKeys_step]

theorem catalogKeys_Initialize (U : SensorsUtils) (Time : Nat) :
    catalogKeys (Initialize U (fun _ => STATUS_SUCCESS) Time).2 =
      [ [ PROPERTYKEY.PKEY_SensorData_Timestamp, PROPERTYKEY.PKEY_SensorData_LightLevel_Lux ],
        [ PROPERTYKEY.DEVPKEY_Sensor_Type, PROPERTYKEY.DEVPKEY_Sensor_Manufacturer,
          PROPERTYKEY.DEVPKEY_Sensor_Model, PROPERTYKEY.DEVPKEY_Sensor_ConnectionType,
          PROPERTYKEY.DEVPKEY_Sensor_PersistentUniqueId, PROPERTYKEY.DEVPKEY_Sensor_Category,
          PROPERTYKEY.DEVPKEY_Sensor_IsPrimary ],
        [ PROPERTYKEY.PKEY_Sensor_State, PROPERTYKEY.PKEY_Sensor_MinimumDataInterval_Ms,
          PROPERTYKEY.PKEY_Sensor_MaximumDataFieldSize_Bytes, PROPERTYKEY.PKEY_Sensor_Type,
          PROPERTYKEY.PKEY_LightSensor_ResponseCurve ],
        [ PROPERTYKEY.PKEY_SensorData_Timestamp, PROPERTYKEY.PKEY_SensorData_LightLevel_Lux ],
        [ PROPERTYKEY.PKEY_SensorDataField_Resolution,
          PROPERTYKEY.PKEY_SensorDataField_RangeMinimum,
          PROPERTYKEY.PKEY_SensorDataField_RangeMaximum ],
        [ PROPERTYKEY.PKEY_SensorData_LightLevel_Lux,
          PROPERTYKEY.PKEY_SensorData_LightLevel_Lux_Threshold_AbsoluteDifference ] ] := by
  simp [Initialize, catalogKeys, keysOf, NT_SUCCESS_STATUS_SUCCESS]

theorem Count_eq_length_keysOf (pList : SENSOR_COLLECTION_LIST) :
    pList.Count = (keysOf pList).length := by
  simp [SENSOR_COLLECTION_LIST.Count, keysOf]

/-- C25, the behaviour of the code at a concrete input: after a successful `Initialize`
the enumeration-property catalog has seven entries, not five, and the
data-field-property catalog three, not two. -/
theorem catalog_counts_seven_and_three :
    NT_SUCCESS (Initialize sampleUtils (fun _ => STATUS_SUCCESS) 0).1 = true ∧
    (Initialize sampleUtils (fun _ => STATUS_SUCCESS) 0).2.m_pEnumerationProperties.Count = 7 ∧
    (Initialize sampleUtils (fun _ => STATUS_SUCCESS) 0).2.m_pEnumerationProperties.Count ≠ 5 ∧
    (Initialize sampleUtils (fun _ => STATUS_SUCCESS) 0).2.m_pDataFieldProperties.Count = 3 ∧
    (Initialize sampleUtils (fun _ => STATUS_SUCCESS) 0).2.m_pDataFieldProperties.Count ≠ 2 ∧
    SENSOR_ENUMERATION_PROPERTIES_COUNT = 7 ∧ SENSOR_DATA_FIELD_PROPERTIES_COUNT = 3 := by
  refine ⟨by decide, by decide, by decide, by decide, by decide, rfl, rfl⟩

/-- C25: after a successful `Initialize` the sensor-property catalog has exactly five
entries, the enumeration-property catalog exactly seven, the data-field-property
catalog exactly three, the list of supported data fields holds exactly the time stamp
and the lux, and the threshold catalog has exactly two entries; within each catalog the
keys are pairwise distinct; and after every sequence of operations every catalog has the
keys, in the order, and so the entry count, it had after `Initialize`. -/
theorem catalog_shape (U : SensorsUtils) (CreateStatus : Nat → NTSTATUS) (Time : Nat)
    (ops : List Op) (h : NT_SUCCESS (Initialize U CreateStatus Time).1 = true) :
    (Initialize U CreateStatus Time).2.m_pSensorProperties.Count = 5 ∧
    (Initialize U CreateStatus Time).2.m_pEnumerationProperties.Count = 7 ∧
    (Initialize U CreateStatus Time).2.m_pDataFieldProperties.Count = 3 ∧
    (Initialize U CreateStatus Time).2.m_pSupportedDataFields.List =
      [ PROPERTYKEY.PKEY_SensorData_Timestamp, PROPERTYKEY.PKEY_SensorData_LightLevel_Lux ] ∧
    (Initialize U CreateStatus Time).2.m_pThresholds.Count = 2 ∧
    (∀ keys ∈ catalogKeys (Initialize U CreateStatus Time).2, keys.Nodup) ∧
    catalogKeys (run (Initialize U CreateStatus Time).2 ops) =
      catalogKeys (Initialize U CreateStatus Time).2 ∧
    (run (Initialize U CreateStatus Time).2 ops).m_pSensorProperties.Count = 5 ∧
    (run (Initialize U CreateStatus Time).2 ops).m_pEnumerationProperties.Count = 7 ∧
    (run (Initialize U CreateStatus Time).2 ops).m_pDataFieldProperties.Count = 3 ∧
    (run (Initialize U CreateStatus Time).2 ops).m_pSupportedDataFields.List =
      [ PROPERTYKEY.PKEY_SensorData_Timestamp, PROPERTYKEY.PKEY_SensorData_LightLevel_Lux ] ∧
    (run (Initialize U CreateStatus Time).2 ops).m_pThresholds.Count = 2 := by
  rw [Initialize_success U CreateStatus Time h]
  have h0 := catalogKeys_Initialize U Time
  have h1 := catalogKeys_run ops (Initialize U (fun _ => STATUS_SUCCESS) Time).2
  have counts : ∀ x : AlsDevice,
      catalogKeys x = catalogKeys (Initialize U (fun _ => STATUS_SUCCESS) Time).2 →
      x.m_pSensorProperties.Count = 5 ∧ x.m_pEnumerationProperties.Count = 7 ∧
      x.m_pDataFieldProperties.Count = 3 ∧
      x.m_pSupportedDataFields.List =
        [ PROPERTYKEY.PKEY_SensorData_Timestamp, PROPERTYKEY.PKEY_SensorData_LightLevel_Lux ] ∧
      x.m_pThresholds.Count = 2 := by
    intro x hx
    rw [h0] at hx
    simp only [catalogKeys, List.cons.injEq, and_true] at hx
    obtain ⟨e1, e2, e3, -, e5, e6⟩ := hx
    refine ⟨?_, ?_, ?_, e1, ?_⟩
    · rw [Count_eq_length_keysOf, e3]; rfl
    · rw [Count_eq_length_keysOf, e2]; rfl
    · rw [Count_eq_length_keysOf, e5]; rfl
    · rw [Count_eq_length_keysOf, e6]; rfl
  obtain ⟨c1, c2, c3, c4, c5⟩ := counts _ rfl
  obtain ⟨r1, r2, r3, r4, r5⟩ := counts _ h1
  refine ⟨c1, c2, c3, c4, c5, ?_, catalogKeys_run _ _, r1, r2, r3, r4, r5⟩
  rw [h0]
  decide

/-- C25 at a concrete input: the device after `Initialize`, then powered on, started,
given a threshold batch and ticked once. -/
theorem catalog_shape_witness :
    (run sampleDevice
      [ Op.PowerOn (fun _ => STATUS_SUCCESS), Op.OnStart STATUS_SUCCESS,
        Op.OnSetDataThresholds
          (thresholdBatch 0 [(PROPERTYKEY.PKEY_SensorData_LightLevel_Lux, 1 / 2)]),
        Op.OnTimerExpire (sampleTick 1000) ]).m_pEnumerationProperties.Count = 7 ∧
    (run sampleDevice
      [ Op.PowerOn (fun _ => STATUS_SUCCESS), Op.OnStart STATUS_SUCCESS,
        Op.OnSetDataThresholds
          (thresholdBatch 0 [(PROPERTYKEY.PKEY_SensorData_LightLevel_Lux, 1 / 2)]),
        Op.OnTimerExpire (sampleTick 1000) ]).m_pDataFieldProperties.Count = 3 :=
  ⟨(catalog_shape sampleUtils (fun _ => STATUS_SUCCESS) 0 _ (by decide)).2.2.2.2.2.2.2.2.1,
   (catalog_shape sampleUtils (fun _ => STATUS_SUCCESS) 0 _ (by decide)).2.2.2.2.2.2.2.2.2.1⟩

/-! ## Thresholds that are not negative -/

theorem setFirstOfKey_floatNonneg (pKey : PROPERTYKEY) (pValue : PROPVARIANT)
    (l l2 : List SENSOR_VALUE_PAIR) (hl : ∀ p ∈ l, floatNonneg p.Value)
    (hv : floatNonneg pValue) (h : setFirstOfKey pKey pValue l = some l2) :
    ∀ p ∈ l2, floatNonneg p.Value := by
  induction l generalizing l2 with
  | nil => simp [setFirstOfKey] at h
  | cons q rest ih =>
    have hq := hl q (List.mem_cons_self _ _)
    have hrest : ∀ p ∈ rest, floatNonneg p.Value :=
      fun p hp => hl p (List.mem_cons_of_mem _ hp)
    by_cases hk : q.Key = pKey
    · simp [setFirstOfKey, hk] at h
      subst h
      intro p hp
      rcases List.mem_cons.mp hp with e | e
      · rw [e]; exact hv
      · exact hrest p e
    · simp only [setFirstOfKey, hk, if_false] at h
      cases hr : setFirstOfKey pKey pValue rest with
      | none => simp [hr] at h
      | some l3 =>
        simp [hr] at h
        subst h
        intro p hp
        rcases List.mem_cons.mp hp with e | e
        · rw [e]; exact hq
        · exact ih l3 hrest hr p e

theorem PropKeyFindKeySetPropVariant_floatNonneg (pList : SENSOR_COLLECTION_LIST)
    (pKey : PROPERTYKEY) (mustExist : Bool) (pValue : PROPVARIANT)
    (hl : ∀ p ∈ pList.List, floatNonneg p.Value) (hv : floatNonneg pValue) :
    ∀ p ∈ (PropKeyFindKeySetPropVariant pList pKey mustExist pValue).2.List,
      floatNonneg p.Value := by
  unfold PropKeyFindKeySetPropVariant
  cases h : setFirstOfKey pKey pValue pList.List with
  | none => exact hl
  | some l => exact setFirstOfKey_floatNonneg pKey pValue pList.List l hl hv h

theorem OnSetDataThresholds_loop_floatNonneg (entries : List SENSOR_VALUE_PAIR)
    (pList : SENSOR_COLLECTION_LIST) (Status : NTSTATUS)
    (hl : ∀ p ∈ pList.List, floatNonneg p.Value)
    (he : ∀ p ∈ entries, floatNonneg p.Value) :
    ∀ p ∈ (OnSetDataThresholds_loop pList entries Status).2.List, floatNonneg p.Value := by
  induction entries generalizing pList Status with
  | nil => exact hl
  | cons q rest ih =>
    have h1 := PropKeyFindKeySetPropVariant_floatNonneg pList q.Key true q.Value hl
      (he q (List.mem_cons_self _ _))
    simp only [OnSetDataThresholds_loop]
    split
    · exact h1
    · exact ih _ _ h1 (fun p hp => he p (List.mem_cons_of_mem _ hp))

theorem PropKeyFindKeyGetFloat_floatNonneg (pList : SENSOR_COLLECTION_LIST)
    (pKey : PROPERTYKEY) (old : FLOAT) (hl : ∀ p ∈ pList.List, floatNonneg p.Value)
    (hold : 0 ≤ old) : 0 ≤ (PropKeyFindKeyGetFloat pList pKey).2.getD old := by
  unfold PropKeyFindKeyGetFloat
  cases h : pList.List.find? (fun p => decide (p.Key = pKey)) with
  | none => exact hold
  | some p =>
    have hp := hl p (List.mem_of_find?_eq_some h)
    obtain ⟨k, v⟩ := p
    cases v <;> first | exact hold | exact hp

theorem UpdateCachedThreshold_thresholdsNonneg (d : AlsDevice) (h : thresholdsNonneg d) :
    thresholdsNonneg (UpdateCachedThreshold d).2 := by
  obtain ⟨h1, h2, h3⟩ := h
  have e1 := PropKeyFindKeyGetFloat_floatNonneg d.m_pThresholds
    PROPERTYKEY.PKEY_SensorData_LightLevel_Lux d.m_CachedThresholds.LuxPct h3 h1
  have e2 := PropKeyFindKeyGetFloat_floatNonneg d.m_pThresholds
    PROPERTYKEY.PKEY_SensorData_LightLevel_Lux_Threshold_AbsoluteDifference
    d.m_CachedThresholds.LuxAbs h3 h2
  simp only [UpdateCachedThreshold]
  split
  · exact ⟨e1, h2, h3⟩
  · exact ⟨e1, e2, h3⟩

theorem thresholdsNonneg_GetData (d : AlsDevice) (env : GetDataEnv) (h : thresholdsNonneg d) :
    thresholdsNonneg (GetData d env).2.1 := by
  rw [GetData_eq]
  cases DataReady d env <;> exact h

/-- An operation whose batch, if it has one, carries no negative float keeps the cached
thresholds and the values of the threshold catalog from being negative. -/
theorem thresholdsNonneg_step (d : AlsDevice) (op : Op) (h : thresholdsNonneg d)
    (hop : nonnegBatch op) : thresholdsNonneg (step d op) := by
  cases op with
  | PowerOn WriteStatus =>
    simp only [step, PowerOn]
    split <;> exact h
  | PowerOff WriteStatus =>
    simp only [step, PowerOff]
    split <;> exact h
  | OnStart WriteStatus =>
    simp only [step, OnStart]
    split
    · exact h
    · split <;> exact h
  | OnStop env =>
    simp only [step, OnStop]
    split
    · exact h
    · split <;> exact h
  | OnSetDataInterval DataRateMs =>
    simp only [step, OnSetDataInterval]
    split
    · exact h
    · split <;> exact h
  | OnSetDataThresholds pThresholds =>
    have hl := OnSetDataThresholds_loop_floatNonneg pThresholds.List d.m_pThresholds
      STATUS_SUCCESS h.2.2 hop
    have h2 : thresholdsNonneg { d with m_pThresholds :=
        (OnSetDataThresholds_loop d.m_pThresholds pThresholds.List STATUS_SUCCESS).2 } :=
      ⟨h.1, h.2.1, hl⟩
    simp only [step, OnSetDataThresholds]
    split
    · exact UpdateCachedThreshold_thresholdsNonneg _ h2
    · exact h2
  | OnTimerExpire env =>
    obtain ⟨k, hk⟩ := step_OnTimerExpire d env
    rw [hk]
    exact h
  | OnInterruptWorkItem env =>
    exact thresholdsNonneg_GetData d env h

theorem thresholdsNonneg_run (ops : List Op) (d : AlsDevice) (h : thresholdsNonneg d)
    (hops : ∀ op ∈ ops, nonnegBatch op) : thresholdsNonneg (run d ops) := by
  induction ops generalizing d with
  | nil => exact h
  | cons op rest ih =>
    simp only [run]
    exact ih _ (thresholdsNonneg_step d op h (hops op (List.mem_cons_self _ _)))
      (fun op2 h2 => hops op2 (List.mem_cons_of_mem _ h2))

theorem thresholdsNonneg_Initialize (U : SensorsUtils) (Time : Nat) :
    (Initialize U (fun _ => STATUS_SUCCESS) Time).2.m_CachedThresholds =
      { LuxPct := 1, LuxAbs := 0 } ∧
    thresholdsNonneg (Initialize U (fun _ => STATUS_SUCCESS) Time).2 := by
  simp [Initialize, thresholdsNonneg, floatNonneg, NT_SUCCESS_STATUS_SUCCESS,
    Als_Initial_Lux_Threshold_Pct, Als_Initial_Lux_Threshold_Abs]

/-- C24, the behaviour of the code at a concrete input: on the device after
`Initialize`, `OnSetDataThresholds` with the batch that gives the percent threshold the
value -1 and the absolute threshold the value -5 succeeds, and the cached thresholds are
-1 and -5 after it. -/
theorem negative_thresholds_cached :
    NT_SUCCESS (OnSetDataThresholds (some sampleDevice)
      (thresholdBatch 0
        [ (PROPERTYKEY.PKEY_SensorData_LightLevel_Lux, -1),
          (PROPERTYKEY.PKEY_SensorData_LightLevel_Lux_Threshold_AbsoluteDifference, -5) ])).1
      = true ∧
    (run sampleDevice
      [ Op.OnSetDataThresholds (thresholdBatch 0
        [ (PROPERTYKEY.PKEY_SensorData_LightLevel_Lux, -1),
          (PROPERTYKEY.PKEY_SensorData_LightLevel_Lux_Threshold_AbsoluteDifference, -5) ]) ]
      ).m_CachedThresholds = { LuxPct := -1, LuxAbs := -5 } ∧
    ¬ (0 : FLOAT) ≤ -1 ∧ ¬ (0 : FLOAT) ≤ -5 := by
  refine ⟨by decide, rfl, by norm_num, by norm_num⟩

/-- C24: after a successful `Initialize` the cached thresholds are 1 and 0. In every
state reached from there by a sequence of operations whose `OnSetDataThresholds`
batches carry floats none of which is negative, both cached thresholds, percent and
absolute, are not negative. -/
theorem cached_thresholds_nonneg (U : SensorsUtils) (CreateStatus : Nat → NTSTATUS)
    (Time : Nat) (ops : List Op)
    (h : NT_SUCCESS (Initialize U CreateStatus Time).1 = true)
    (hops : ∀ op ∈ ops, nonnegBatch op) :
    (Initialize U CreateStatus Time).2.m_CachedThresholds = { LuxPct := 1, LuxAbs := 0 } ∧
    0 ≤ (run (Initialize U CreateStatus Time).2 ops).m_CachedThresholds.LuxPct ∧
    0 ≤ (run (Initialize U CreateStatus Time).2 ops).m_CachedThresholds.LuxAbs := by
  rw [Initialize_success U CreateStatus Time h]
  obtain ⟨h1, h2⟩ := thresholdsNonneg_Initialize U Time
  obtain ⟨r1, r2, -⟩ := thresholdsNonneg_run ops _ h2 hops
  exact ⟨h1, r1, r2⟩

/-- C24 at a concrete input: the device after `Initialize`, then powered on, started,
given the thresholds 1/2 and 3 and ticked once. -/
theorem cached_thresholds_nonneg_witness :
    0 ≤ (run sampleDevice
      [ Op.PowerOn (fun _ => STATUS_SUCCESS), Op.OnStart STATUS_SUCCESS,
        Op.OnSetDataThresholds (thresholdBatch 0
          [ (PROPERTYKEY.PKEY_SensorData_LightLevel_Lux, 1 / 2),
            (PROPERTYKEY.PKEY_SensorData_LightLevel_Lux_Threshold_AbsoluteDifference, 3) ]),
        Op.OnTimerExpire (sampleTick 1000) ]).m_CachedThresholds.LuxPct ∧
    0 ≤ (run sampleDevice
      [ Op.PowerOn (fun _ => STATUS_SUCCESS), Op.OnStart STATUS_SUCCESS,
        Op.OnSetDataThresholds (thresholdBatch 0
          [ (PROPERTYKEY.PKEY_SensorData_LightLevel_Lux, 1 / 2),
            (PROPERTYKEY.PKEY_SensorData_LightLevel_Lux_Threshold_AbsoluteDifference, 3) ]),
        Op.OnTimerExpire (sampleTick 1000) ]).m_CachedThresholds.LuxAbs :=
  (cached_thresholds_nonneg sampleUtils (fun _ => STATUS_SUCCESS) 0 _ (by decide)
    (by
      intro op hop
      simp only [List.mem_cons, List.mem_singleton, List.not_mem_nil, or_false] at hop
      rcases hop with e | e | e | e <;> subst e <;>
        simp [nonnegBatch, thresholdBatch, floatNonneg])).2

/-! ## The timer callback and the bus lock -/

/-- The timer callback does not return, whatever the device context and the answers of
the collaborators are, and before it stops it calls nothing but `WdfWaitLockAcquire`:
it publishes nothing, writes no register and makes no call to the timer, and it leaves
the device context as it found it but for the timer, which has fired, and the hold
count of the lock. -/
theorem OnTimerExpire_stops (d : AlsDevice) (env : TimerEnv) :
    (OnTimerExpire (some d) env).3 = false ∧
    published (OnTimerExpire (some d) env).2 = [] ∧
    timerStarts (OnTimerExpire (some d) env).2 = [] ∧
    timerCalls (OnTimerExpire (some d) env).2 = [] ∧
    registerWrites (OnTimerExpire (some d) env).2 = [] ∧
    ∃ k, (OnTimerExpire (some d) env).1 = some { d with m_Timer := none, m_I2CWaitLock := k } := by
  rw [OnTimerExpire_course]
  split
  · exact ⟨rfl, rfl, rfl, rfl, rfl, d.m_I2CWaitLock, rfl⟩
  · exact ⟨rfl, rfl, rfl, rfl, rfl, d.m_I2CWaitLock + 1, rfl⟩

/-- A timer callback that finds the lock held stops in its first call. -/
theorem OnTimerExpire_lock_held (d : AlsDevice) (env : TimerEnv) (h : 0 < d.m_I2CWaitLock) :
    (OnTimerExpire (some d) env).2 = [Event.WdfWaitLockAcquire] := by
  rw [OnTimerExpire_course, if_pos h]

/-- The scheduling step of `OnTimerExpire` on a device whose cycle start time `T0` is
not zero, with a working clock: it increments `m_SampleCount` to `n`, aims at
`ideal = T0 + m_Interval * (n + 1)` and asks for the due time of `0` ms when
`now > ideal` and of `ideal - now` ms otherwise. -/
theorem OnTimerExpire_schedule_delay (x : AlsDevice) (env : TimerEnv) (T0 n ideal delay : Nat)
    (hStart : x.m_StartTime = T0) (hT0 : T0 ≠ 0)
    (hClock : NT_SUCCESS env.PerfStatus = true)
    (hn : x.m_SampleCount + 1 = n) (hn64 : n < 2 ^ 64)
    (hideal : ideal = T0 + x.m_Interval * (n + 1))
    (hRange : ideal * 10000 < 2 ^ 63)
    (hdelay : delay = if env.CurrentTimeMs > ideal then 0 else ideal - env.CurrentTimeMs) :
    (OnTimerExpire_schedule x env).1 = { x with m_SampleCount := n } ∧
    idealNextTime (OnTimerExpire_schedule x env).1 = ideal ∧
    OnTimerExpire_WaitTime (OnTimerExpire_schedule x env).1 env.CurrentTimeMs = (delay : Int) ∧
    (OnTimerExpire_schedule x env).2 = WDF_REL_TIMEOUT_IN_MS delay ∧
    WDF_REL_TIMEOUT_IN_MS delay = -((delay : Int) * 10000) := by
  have hn' : toULONGLONG (x.m_SampleCount + 1) = n := by
    rw [hn]; exact Nat.mod_eq_of_lt hn64
  have hP : x.m_Interval * (n + 1) ≤ ideal := by
    rw [hideal]; exact Nat.le_add_left _ _
  have key : x.m_Interval * toULONGLONG (n + 1) = x.m_Interval * (n + 1) := by
    rcases Nat.eq_zero_or_pos x.m_Interval with h0 | hpos
    · simp [h0]
    · have h1 : 1 * (n + 1) ≤ x.m_Interval * (n + 1) := Nat.mul_le_mul_right _ hpos
      have h2 : n + 1 < 2 ^ 64 := by
        have h3 := Nat.le_trans h1 hP
        omega
      rw [toULONGLONG, Nat.mod_eq_of_lt h2]
  have hid : toULONGLONG (T0 + toULONGLONG (x.m_Interval * toULONGLONG (n + 1))) = ideal := by
    rw [key]
    have h1 : x.m_Interval * (n + 1) < 2 ^ 64 := Nat.lt_of_le_of_lt hP (by omega)
    rw [toULONGLONG, toULONGLONG, Nat.mod_eq_of_lt h1, ← hideal, Nat.mod_eq_of_lt (by omega)]
  have hdlt : delay * 10000 < 2 ^ 63 := by
    rw [hdelay]; split <;> omega
  have hW : (if env.CurrentTimeMs > ideal then (0 : Int)
      else toLONGLONG (ideal - env.CurrentTimeMs)) = (delay : Int) := by
    rw [hdelay]
    split
    · rfl
    · simp only [toLONGLONG]
      rw [Nat.mod_eq_of_lt (by omega), if_pos (by omega)]
  have hnat : ((delay : Int) % 2 ^ 64).toNat = delay := by
    have h1 : (delay : Int) % 2 ^ 64 = (delay : Int) := Int.emod_eq_of_lt (by omega) (by omega)
    rw [h1]; exact Int.toNat_natCast delay
  simp only [OnTimerExpire_schedule, hStart, hT0, hClock, if_false, Bool.not_true, hn',
    Bool.false_eq_true, OnTimerExpire_WaitTime, idealNextTime, hid, hW, hnat]
  exact ⟨trivial, trivial, trivial, trivial, WDF_REL_TIMEOUT_IN_MS_eq delay hdlt⟩

/-- C2: whenever `m_FirstSample` is set, a call of `GetData` publishes the candidate as
its one sample, whatever the thresholds, the last published lux and the candidate are,
and clears `m_FirstSample`. But a successful `OnStart` returns with the lock held, so
the first timer callback after it stops in `WdfWaitLockAcquire`: `GetData` is not
reached, nothing is published and `m_FirstSample` stays set. So it is on the device
after `Initialize`, `PowerOn` and `OnStart`. -/
theorem first_tick_after_OnStart_stops :
    (∀ (d1 : AlsDevice) (env : GetDataEnv), d1.m_FirstSample = true →
      published (GetData d1 env).2.2 = [sampleRecord d1 env (candidate d1 env)] ∧
      (GetData d1 env).2.1.m_FirstSample = false) ∧
    (∀ (d : AlsDevice) (WriteStatus : NTSTATUS) (env : TimerEnv),
      d.m_PoweredOn = true → NT_SUCCESS WriteStatus = true → 0 ≤ d.m_I2CWaitLock →
      ∃ started, (OnStart (some d) WriteStatus).2.1 = some started ∧
        started.m_FirstSample = true ∧ 0 < started.m_I2CWaitLock ∧
        (OnTimerExpire (some started) env).3 = false ∧
        (OnTimerExpire (some started) env).2 = [Event.WdfWaitLockAcquire] ∧
        published (OnTimerExpire (some started) env).2 = [] ∧
        ∃ after, (OnTimerExpire (some started) env).1 = some after ∧
          after.m_FirstSample = true) ∧
    (OnStart (some (PowerOn sampleDevice (fun _ => STATUS_SUCCESS)).2.1) STATUS_SUCCESS).2.1 =
      some sampleActive ∧
    sampleActive.m_FirstSample = true ∧ sampleActive.m_I2CWaitLock = 1 ∧
    (OnTimerExpire (some sampleActive) (sampleTick 1000)).3 = false ∧
    (OnTimerExpire (some sampleActive) (sampleTick 1000)).2 = [Event.WdfWaitLockAcquire] ∧
    published (OnTimerExpire (some sampleActive) (sampleTick 1000)).2 = [] ∧
    (step sampleActive (Op.OnTimerExpire (sampleTick 1000))).m_FirstSample = true := by
  refine ⟨?_, ?_, rfl, by decide, by decide, ?_, ?_, ?_, ?_⟩
  · intro d1 env h1
    rw [published_GetData, GetData_eq, DataReady_of_first d1 env h1]
    simp
  · intro d WriteStatus env hOn hW hL
    have hS : ∃ started, (OnStart (some d) WriteStatus).2.1 = some started ∧
        started.m_FirstSample = true ∧ started.m_I2CWaitLock = d.m_I2CWaitLock + 1 := by
      simp [OnStart, hOn, hW]
    obtain ⟨started, hs, hf, hl⟩ := hS
    have hheld : 0 < started.m_I2CWaitLock := by rw [hl]; omega
    obtain ⟨h1, h2, -, -, -, k, h6⟩ := OnTimerExpire_stops started env
    exact ⟨started, hs, hf, hheld, h1, OnTimerExpire_lock_held started env hheld, h2, _, h6, hf⟩
  · exact (OnTimerExpire_stops _ _).1
  · exact OnTimerExpire_lock_held _ _ (by decide)
  · exact (OnTimerExpire_stops _ _).2.1
  · obtain ⟨k, hk⟩ := step_OnTimerExpire sampleActive (sampleTick 1000)
    rw [hk]
    show sampleActive.m_FirstSample = true
    decide

/-- C4: the timer callback never rearms the timer. On every device and for every
answer of the clock the callback stops in `WdfWaitLockAcquire` before it reaches the
scheduling step: it makes no call to the timer, the timer, which has fired, is not
armed when it stops, and `m_SampleCount` is not incremented; so it is on the started
device, on which scheduling is engaged, with a working clock. The scheduling step
itself, were it reached with a cycle start time `T0` that is not zero and a working
clock, would ask for the delay `0` when `now > ideal` and `ideal - now` otherwise, with
`ideal = T0 + m_Interval * (n + 1)` and `n` the incremented count, a delay that is never
negative; with `m_Interval = 100`, `T0 = 1000`, `n = 3` and `now = T0 + 550` it would
ask for the delay 0. -/
theorem engaged_tick_never_rearms :
    (∀ (d : AlsDevice) (env : TimerEnv),
      (OnTimerExpire (some d) env).3 = false ∧
      timerCalls (OnTimerExpire (some d) env).2 = [] ∧
      timerStarts (OnTimerExpire (some d) env).2 = [] ∧
      (step d (Op.OnTimerExpire env)).m_Timer = none ∧
      (step d (Op.OnTimerExpire env)).m_SampleCount = d.m_SampleCount) ∧
    (sampleActive.m_MinimumInterval ≤ sampleActive.m_Interval ∧
      sampleActive.m_PoweredOn = true ∧ sampleActive.m_Started = true) ∧
    NT_SUCCESS (sampleTick 1000).PerfStatus = true ∧
    sampleActive.m_Timer = some (-900000) ∧
    (OnTimerExpire (some sampleActive) (sampleTick 1000)).3 = false ∧
    timerStarts (OnTimerExpire (some sampleActive) (sampleTick 1000)).2 = [] ∧
    (step sampleActive (Op.OnTimerExpire (sampleTick 1000))).m_Timer = none ∧
    (∀ (x : AlsDevice) (env : TimerEnv) (T0 n ideal delay : Nat),
      x.m_StartTime = T0 → T0 ≠ 0 → NT_SUCCESS env.PerfStatus = true →
      x.m_SampleCount + 1 = n → n < 2 ^ 64 → ideal = T0 + x.m_Interval * (n + 1) →
      ideal * 10000 < 2 ^ 63 →
      delay = (if env.CurrentTimeMs > ideal then 0 else ideal - env.CurrentTimeMs) →
      (OnTimerExpire_schedule x env).1.m_SampleCount = n ∧
      OnTimerExpire_WaitTime (OnTimerExpire_schedule x env).1 env.CurrentTimeMs = (delay : Int) ∧
      (0 : Int) ≤ OnTimerExpire_WaitTime (OnTimerExpire_schedule x env).1 env.CurrentTimeMs ∧
      (OnTimerExpire_schedule x env).2 = WDF_REL_TIMEOUT_IN_MS delay ∧
      WDF_REL_TIMEOUT_IN_MS delay = -((delay : Int) * 10000)) ∧
    (OnTimerExpire_schedule sampleRunning (sampleTick 1550)).1.m_SampleCount = 3 ∧
    idealNextTime (OnTimerExpire_schedule sampleRunning (sampleTick 1550)).1 = 1400 ∧
    (OnTimerExpire_schedule sampleRunning (sampleTick 1550)).2 = WDF_REL_TIMEOUT_IN_MS 0 := by
  have hAll : ∀ (d : AlsDevice) (env : TimerEnv),
      (OnTimerExpire (some d) env).3 = false ∧
      timerCalls (OnTimerExpire (some d) env).2 = [] ∧
      timerStarts (OnTimerExpire (some d) env).2 = [] ∧
      (step d (Op.OnTimerExpire env)).m_Timer = none ∧
      (step d (Op.OnTimerExpire env)).m_SampleCount = d.m_SampleCount := by
    intro d env
    obtain ⟨h1, -, h3, h4, -, -⟩ := OnTimerExpire_stops d env
    obtain ⟨k, hk⟩ := step_OnTimerExpire d env
    refine ⟨h1, h4, h3, ?_, ?_⟩ <;> rw [hk]
  obtain ⟨s1, s2, -, s4, -⟩ := OnTimerExpire_schedule_delay sampleRunning (sampleTick 1550)
    1000 3 1400 0 rfl (by decide) (by decide) rfl (by decide) (by decide) (by decide)
    (by decide)
  refine ⟨hAll, by decide, by decide, by decide, (hAll _ _).1, (hAll _ _).2.2.1,
    (hAll _ _).2.2.2.1, ?_, ?_, s2, s4⟩
  · intro x env T0 n ideal delay h1 h2 h3 h4 h5 h6 h7 h8
    obtain ⟨e1, -, e3, e4, e5⟩ := OnTimerExpire_schedule_delay x env T0 n ideal delay
      h1 h2 h3 h4 h5 h6 h7 h8
    refine ⟨by rw [e1], e3, ?_, e4, e5⟩
    rw [e3]; exact Int.natCast_nonneg delay
  · rw [s1]

/-- C5: no timer callback chooses a wake time. On every device two timer callbacks, one
after the other, both stop in `WdfWaitLockAcquire` without a call to the timer, and the
timer is not armed after either; so it is on the started device with a working clock.
The scheduling step itself, were it reached on two ticks of a cycle with start time
`T0`, would aim at `T0 + m_Interval * (n + 1)` and then at `T0 + m_Interval * (n + 2)`,
exactly `m_Interval` later, whatever the clock reads. -/
theorem ticks_choose_no_wake_time :
    (∀ (d : AlsDevice) (tick1 tick2 : TimerEnv),
      (OnTimerExpire (some d) tick1).3 = false ∧
      timerStarts (OnTimerExpire (some d) tick1).2 = [] ∧
      (step d (Op.OnTimerExpire tick1)).m_Timer = none ∧
      (OnTimerExpire (some (step d (Op.OnTimerExpire tick1))) tick2).3 = false ∧
      timerStarts (OnTimerExpire (some (step d (Op.OnTimerExpire tick1))) tick2).2 = [] ∧
      (run d [Op.OnTimerExpire tick1, Op.OnTimerExpire tick2]).m_Timer = none) ∧
    NT_SUCCESS (sampleTick 1350).PerfStatus = true ∧
    NT_SUCCESS (sampleTick 1450).PerfStatus = true ∧
    (OnTimerExpire (some sampleActive) (sampleTick 1350)).3 = false ∧
    timerStarts (OnTimerExpire (some sampleActive) (sampleTick 1350)).2 = [] ∧
    (run sampleActive [Op.OnTimerExpire (sampleTick 1350),
      Op.OnTimerExpire (sampleTick 1450)]).m_Timer = none ∧
    (∀ (x : AlsDevice) (tick1 tick2 : TimerEnv) (T0 n : Nat),
      x.m_StartTime = T0 → T0 ≠ 0 → NT_SUCCESS tick1.PerfStatus = true →
      NT_SUCCESS tick2.PerfStatus = true → x.m_SampleCount + 1 = n → n + 1 < 2 ^ 64 →
      (T0 + x.m_Interval * (n + 2)) * 10000 < 2 ^ 63 →
      idealNextTime (OnTimerExpire_schedule x tick1).1 = T0 + x.m_Interval * (n + 1) ∧
      idealNextTime (OnTimerExpire_schedule (OnTimerExpire_schedule x tick1).1 tick2).1 =
        T0 + x.m_Interval * (n + 2) ∧
      idealNextTime (OnTimerExpire_schedule (OnTimerExpire_schedule x tick1).1 tick2).1 =
        idealNextTime (OnTimerExpire_schedule x tick1).1 + x.m_Interval) := by
  have hAll : ∀ (d : AlsDevice) (tick1 tick2 : TimerEnv),
      (OnTimerExpire (some d) tick1).3 = false ∧
      timerStarts (OnTimerExpire (some d) tick1).2 = [] ∧
      (step d (Op.OnTimerExpire tick1)).m_Timer = none ∧
      (OnTimerExpire (some (step d (Op.OnTimerExpire tick1))) tick2).3 = false ∧
      timerStarts (OnTimerExpire (some (step d (Op.OnTimerExpire tick1))) tick2).2 = [] ∧
      (run d [Op.OnTimerExpire tick1, Op.OnTimerExpire tick2]).m_Timer = none := by
    intro d tick1 tick2
    obtain ⟨h1, -, h3, -⟩ := OnTimerExpire_stops d tick1
    obtain ⟨g1, -, g3, -⟩ := OnTimerExpire_stops (step d (Op.OnTimerExpire tick1)) tick2
    obtain ⟨k, hk⟩ := step_OnTimerExpire d tick1
    obtain ⟨k2, hk2⟩ := step_OnTimerExpire (step d (Op.OnTimerExpire tick1)) tick2
    refine ⟨h1, h3, by rw [hk], g1, g3, ?_⟩
    show (step (step d (Op.OnTimerExpire tick1)) (Op.OnTimerExpire tick2)).m_Timer = none
    rw [hk2]
  refine ⟨hAll, by decide, by decide, (hAll _ (sampleTick 1350) (sampleTick 1450)).1,
    (hAll _ (sampleTick 1350) (sampleTick 1450)).2.1,
    (hAll _ (sampleTick 1350) (sampleTick 1450)).2.2.2.2.2, ?_⟩
  intro x tick1 tick2 T0 n h1 h2 h3 h4 h5 h6 h7
  have hle : x.m_Interval * (n + 1) ≤ x.m_Interval * (n + 2) :=
    Nat.mul_le_mul_left _ (by omega)
  obtain ⟨e1, e2, -⟩ := OnTimerExpire_schedule_delay x tick1 T0 n
    (T0 + x.m_Interval * (n + 1)) _ h1 h2 h3 h5 (by omega) rfl (by omega) rfl
  have hS : (OnTimerExpire_schedule x tick1).1.m_StartTime = T0 := by rw [e1]; exact h1
  have hC : (OnTimerExpire_schedule x tick1).1.m_SampleCount + 1 = n + 1 := by rw [e1]
  have hI : (OnTimerExpire_schedule x tick1).1.m_Interval = x.m_Interval := by rw [e1]
  obtain ⟨-, f2, -⟩ := OnTimerExpire_schedule_delay (OnTimerExpire_schedule x tick1).1 tick2
    T0 (n + 1) (T0 + x.m_Interval * (n + 2)) _ hS h2 h4 hC h6 (by rw [hI]) h7 rfl
  refine ⟨e2, f2, ?_⟩
  rw [e2, f2]
  have e : x.m_Interval * (n + 2) = x.m_Interval * (n + 1) + x.m_Interval := by ring
  omega

/-- C23: a first tick whose clock read fails. A call of `GetData` with `m_FirstSample`
set and a failing clock read publishes the candidate and sets `m_StartTime` and
`m_SampleCount` to 0, and the scheduling step on a device whose `m_StartTime` is 0, or
with a failing clock read of its own, asks for the due time of exactly `m_Interval`
milliseconds and does not increment `m_SampleCount`. But the timer callback reaches
neither: on every device it stops in `WdfWaitLockAcquire`, publishes nothing, makes no
call to the timer and leaves `m_StartTime`, `m_SampleCount` and `m_FirstSample` as they
are; so it is on the started device with both clock reads failing. -/
theorem clock_failure_tick_stops :
    (∀ (d : AlsDevice) (env : TimerEnv),
      (OnTimerExpire (some d) env).3 = false ∧
      published (OnTimerExpire (some d) env).2 = [] ∧
      timerStarts (OnTimerExpire (some d) env).2 = [] ∧
      (step d (Op.OnTimerExpire env)).m_Timer = none ∧
      (step d (Op.OnTimerExpire env)).m_StartTime = d.m_StartTime ∧
      (step d (Op.OnTimerExpire env)).m_SampleCount = d.m_SampleCount ∧
      (step d (Op.OnTimerExpire env)).m_FirstSample = d.m_FirstSample) ∧
    sampleActive.m_FirstSample = true ∧
    (sampleActive.m_MinimumInterval ≤ sampleActive.m_Interval ∧
      sampleActive.m_PoweredOn = true ∧ sampleActive.m_Started = true) ∧
    NT_SUCCESS sampleTickClockFails.getData.PerfStatus = false ∧
    (OnTimerExpire (some sampleActive) sampleTickClockFails).3 = false ∧
    published (OnTimerExpire (some sampleActive) sampleTickClockFails).2 = [] ∧
    timerStarts (OnTimerExpire (some sampleActive) sampleTickClockFails).2 = [] ∧
    (step sampleActive (Op.OnTimerExpire sampleTickClockFails)).m_Timer = none ∧
    (∀ (d : AlsDevice) (env : GetDataEnv),
      d.m_FirstSample = true → NT_SUCCESS env.PerfStatus = false →
      published (GetData d env).2.2 = [sampleRecord d env (candidate d env)] ∧
      (GetData d env).2.1.m_StartTime = 0 ∧ (GetData d env).2.1.m_SampleCount = 0) ∧
    (∀ (x : AlsDevice) (env : TimerEnv),
      x.m_StartTime = 0 ∨ NT_SUCCESS env.PerfStatus = false →
      OnTimerExpire_schedule x env = (x, WDF_REL_TIMEOUT_IN_MS x.m_Interval) ∧
      (x.m_Interval * 10000 < 2 ^ 63 →
        WDF_REL_TIMEOUT_IN_MS x.m_Interval = -((x.m_Interval : Int) * 10000))) := by
  have hAll : ∀ (d : AlsDevice) (env : TimerEnv),
      (OnTimerExpire (some d) env).3 = false ∧
      published (OnTimerExpire (some d) env).2 = [] ∧
      timerStarts (OnTimerExpire (some d) env).2 = [] ∧
      (step d (Op.OnTimerExpire env)).m_Timer = none ∧
      (step d (Op.OnTimerExpire env)).m_StartTime = d.m_StartTime ∧
      (step d (Op.OnTimerExpire env)).m_SampleCount = d.m_SampleCount ∧
      (step d (Op.OnTimerExpire env)).m_FirstSample = d.m_FirstSample := by
    intro d env
    obtain ⟨h1, h2, h3, -⟩ := OnTimerExpire_stops d env
    obtain ⟨k, hk⟩ := step_OnTimerExpire d env
    refine ⟨h1, h2, h3, ?_, ?_, ?_, ?_⟩ <;> rw [hk]
  refine ⟨hAll, by decide, by decide, by decide, (hAll _ _).1, (hAll _ _).2.1,
    (hAll _ _).2.2.1, (hAll _ _).2.2.2.1, ?_, ?_⟩
  · intro d env hF hC
    refine ⟨?_, ?_, ?_⟩
    · rw [published_GetData, DataReady_of_first d env hF]; rfl
    · rw [GetData_m_StartTime, hF]; simp [hC]
    · rw [GetData_m_SampleCount, hF]; rfl
  · intro x env h
    refine ⟨?_, fun hr => WDF_REL_TIMEOUT_IN_MS_eq _ hr⟩
    by_cases h0 : x.m_StartTime = 0
    · simp [OnTimerExpire_schedule, h0]
    · have hP : NT_SUCCESS env.PerfStatus = false := h.resolve_left h0
      simp [OnTimerExpire_schedule, h0, hP]

/-- C26: the first tick of a cycle records no cycle start time. On the started device
with the clock reading 1000, the timer callback stops in `WdfWaitLockAcquire`:
`m_StartTime` stays 0, `m_SampleCount` is not written, and the timer is not rearmed; so
it is on every device. A call of `GetData` with `m_FirstSample` set and a working clock
records the clock reading as `m_StartTime` and sets `m_SampleCount` to 0; the
scheduling step after it, which the callback does not reach either, increments
`m_SampleCount` on every tick with a working clock and a start time that is not zero,
the first of a cycle included: from 0 to 1, aiming at `T0 + m_Interval * 2`. -/
theorem first_tick_records_no_start_time :
    sampleActive.m_FirstSample = true ∧ sampleActive.m_StartTime = 0 ∧
    NT_SUCCESS (sampleTick 1000).getData.PerfStatus = true ∧
    (sampleTick 1000).getData.PerfTime = 1000 ∧
    NT_SUCCESS (sampleTick 1000).PerfStatus = true ∧
    (OnTimerExpire (some sampleActive) (sampleTick 1000)).3 = false ∧
    (step sampleActive (Op.OnTimerExpire (sampleTick 1000))).m_StartTime = 0 ∧
    (step sampleActive (Op.OnTimerExpire (sampleTick 1000))).m_FirstSample = true ∧
    timerStarts (OnTimerExpire (some sampleActive) (sampleTick 1000)).2 = [] ∧
    (step sampleActive (Op.OnTimerExpire (sampleTick 1000))).m_Timer = none ∧
    (∀ (d : AlsDevice) (env : TimerEnv),
      (OnTimerExpire (some d) env).3 = false ∧
      timerStarts (OnTimerExpire (some d) env).2 = [] ∧
      (step d (Op.OnTimerExpire env)).m_StartTime = d.m_StartTime ∧
      (step d (Op.OnTimerExpire env)).m_SampleCount = d.m_SampleCount) ∧
    (∀ (d : AlsDevice) (env : GetDataEnv),
      d.m_FirstSample = true → NT_SUCCESS env.PerfStatus = true →
      (GetData d env).2.1.m_StartTime = env.PerfTime ∧
      (GetData d env).2.1.m_SampleCount = 0) ∧
    (∀ (x : AlsDevice) (env : TimerEnv) (T0 : Nat),
      x.m_StartTime = T0 → T0 ≠ 0 → NT_SUCCESS env.PerfStatus = true →
      x.m_SampleCount = 0 → (T0 + x.m_Interval * 2) * 10000 < 2 ^ 63 →
      (OnTimerExpire_schedule x env).1.m_SampleCount = 1 ∧
      idealNextTime (OnTimerExpire_schedule x env).1 = T0 + x.m_Interval * 2) := by
  have hAll : ∀ (d : AlsDevice) (env : TimerEnv),
      (OnTimerExpire (some d) env).3 = false ∧
      timerStarts (OnTimerExpire (some d) env).2 = [] ∧
      (step d (Op.OnTimerExpire env)).m_StartTime = d.m_StartTime ∧
      (step d (Op.OnTimerExpire env)).m_SampleCount = d.m_SampleCount := by
    intro d env
    obtain ⟨h1, -, h3, -⟩ := OnTimerExpire_stops d env
    obtain ⟨k, hk⟩ := step_OnTimerExpire d env
    refine ⟨h1, h3, ?_, ?_⟩ <;> rw [hk]
  obtain ⟨k, hk⟩ := step_OnTimerExpire sampleActive (sampleTick 1000)
  refine ⟨by decide, by decide, by decide, rfl, by decide, (hAll _ _).1, ?_, ?_,
    (hAll _ _).2.1, ?_, hAll, ?_, ?_⟩
  · rw [(hAll _ _).2.2.1]; decide
  · rw [hk]
    show sampleActive.m_FirstSample = true
    decide
  · rw [hk]
  · intro d env hF hC
    refine ⟨?_, ?_⟩
    · rw [GetData_m_StartTime, hF]; simp [hC]
    · rw [GetData_m_SampleCount, hF]; rfl
  · intro x env T0 h1 h2 h3 h4 h5
    obtain ⟨e1, e2, -⟩ := OnTimerExpire_schedule_delay x env T0 1 (T0 + x.m_Interval * (1 + 1))
      _ h1 h2 h3 (by rw [h4]) (by decide) rfl h5 rfl
    exact ⟨by rw [e1], e2⟩

/-- C27: a tick on which the three conditions hold does not rearm the timer. On every
device, whether `m_MinimumInterval <= m_Interval`, `m_PoweredOn` and `m_Started` hold or
not, the timer callback stops in `WdfWaitLockAcquire` before it tests them: it makes no
call to the timer, the timer, which has fired, is not armed afterwards, and
`m_SampleCount` is unchanged. So no further tick follows either way; on the started
device the three conditions hold and the timer is armed before the tick and not after
it. -/
theorem engaged_tick_leaves_timer_unarmed :
    (∀ (d : AlsDevice) (env : TimerEnv), OnTimerExpire_engaged d →
      (OnTimerExpire (some d) env).3 = false ∧
      timerStarts (OnTimerExpire (some d) env).2 = [] ∧
      (step d (Op.OnTimerExpire env)).m_Timer = none ∧
      OnTimerExpire_engaged (step d (Op.OnTimerExpire env))) ∧
    (∀ (d : AlsDevice) (env : TimerEnv), ¬ OnTimerExpire_engaged d →
      timerCalls (OnTimerExpire (some d) env).2 = [] ∧
      (step d (Op.OnTimerExpire env)).m_Timer = none ∧
      (step d (Op.OnTimerExpire env)).m_SampleCount = d.m_SampleCount) ∧
    OnTimerExpire_engaged sampleActive ∧
    sampleActive.m_Timer = some (-900000) ∧
    (OnTimerExpire (some sampleActive) (sampleTick 1000)).3 = false ∧
    timerStarts (OnTimerExpire (some sampleActive) (sampleTick 1000)).2 = [] ∧
    (step sampleActive (Op.OnTimerExpire (sampleTick 1000))).m_Timer = none := by
  have hAll : ∀ (d : AlsDevice) (env : TimerEnv),
      (OnTimerExpire (some d) env).3 = false ∧
      timerStarts (OnTimerExpire (some d) env).2 = [] ∧
      timerCalls (OnTimerExpire (some d) env).2 = [] ∧
      (step d (Op.OnTimerExpire env)).m_Timer = none ∧
      (step d (Op.OnTimerExpire env)).m_SampleCount = d.m_SampleCount := by
    intro d env
    obtain ⟨h1, -, h3, h4, -⟩ := OnTimerExpire_stops d env
    obtain ⟨k, hk⟩ := step_OnTimerExpire d env
    refine ⟨h1, h3, h4, ?_, ?_⟩ <;> rw [hk]
  refine ⟨?_, ?_, by decide, by decide, (hAll _ _).1, (hAll _ _).2.1, (hAll _ _).2.2.2.1⟩
  · intro d env hE
    obtain ⟨h1, h2, -, h4, -⟩ := hAll d env
    obtain ⟨k, hk⟩ := step_OnTimerExpire d env
    refine ⟨h1, h2, h4, ?_⟩
    rw [hk]
    exact hE
  · intro d env _
    obtain ⟨-, -, h3, h4, h5⟩ := hAll d env
    exact ⟨h3, h4, h5⟩

/-! ## Data-field properties of the supported keys -/

/-- No operation changes the data-field-property catalog or the list of supported data
fields. -/
theorem dataFieldCatalog_step (d : AlsDevice) (op : Op) :
    (step d op).m_pDataFieldProperties = d.m_pDataFieldProperties ∧
    (step d op).m_pSupportedDataFields = d.m_pSupportedDataFields := by
  cases op with
  | PowerOn WriteStatus =>
    simp only [step, PowerOn]
    split <;> exact ⟨rfl, rfl⟩
  | PowerOff WriteStatus =>
    simp only [step, PowerOff]
    split <;> exact ⟨rfl, rfl⟩
  | OnStart WriteStatus =>
    simp only [step, OnStart]
    split
    · exact ⟨rfl, rfl⟩
    · split <;> exact ⟨rfl, rfl⟩
  | OnStop env =>
    simp only [step, OnStop]
    split
    · exact ⟨rfl, rfl⟩
    · split <;> exact ⟨rfl, rfl⟩
  | OnSetDataInterval DataRateMs =>
    simp only [step, OnSetDataInterval]
    split
    · exact ⟨rfl, rfl⟩
    · split <;> exact ⟨rfl, rfl⟩
  | OnSetDataThresholds pThresholds =>
    simp only [step, OnSetDataThresholds]
    split
    · simp only [UpdateCachedThreshold]
      split <;> exact ⟨rfl, rfl⟩
    · exact ⟨rfl, rfl⟩
  | OnTimerExpire env =>
    obtain ⟨k, hk⟩ := step_OnTimerExpire d env
    rw [hk]
    exact ⟨rfl, rfl⟩
  | OnInterruptWorkItem env =>
    show (GetData d env).2.1.m_pDataFieldProperties = d.m_pDataFieldProperties ∧
      (GetData d env).2.1.m_pSupportedDataFields = d.m_pSupportedDataFields
    rw [GetData_eq]
    cases DataReady d env <;> exact ⟨rfl, rfl⟩

theorem dataFieldCatalog_run (ops : List Op) (d : AlsDevice) :
    (run d ops).m_pDataFieldProperties = d.m_pDataFieldProperties ∧
    (run d ops).m_pSupportedDataFields = d.m_pSupportedDataFields := by
  induction ops generalizing d with
  | nil => exact ⟨rfl, rfl⟩
  | cons op rest ih =>
    obtain ⟨h1, h2⟩ := dataFieldCatalog_step d op
    obtain ⟨r1, r2⟩ := ih (step d op)
    simp only [run]
    exact ⟨r1.trans h1, r2.trans h2⟩

/-- C10: on the device a successful `Initialize` leaves, and after every sequence of
operations on it, the supported data fields are exactly the time stamp and the lux
level and the data-field-property catalog holds the resolution, the range minimum 0 and
the range maximum 4000. A data-field-property query, size-only or copy-out, returns a
success status only if the requested key is one of the two; for every other key it
returns `STATUS_NOT_SUPPORTED`, a failure, with output size 0 and the destination
untouched. For each of the two supported keys alike, the size-only query succeeds and
reports the marshalled size of that catalog, a copy-out into too small a destination
fails with size 0, and a copy-out into a destination that is large enough returns what
the library's copy of that catalog into the destination gives, status and list, and
reports the marshalled size of the catalog when the copy succeeds. -/
theorem data_field_properties_supported_keys (U : SensorsUtils) (CreateStatus : Nat → NTSTATUS)
    (Time : Nat) (ops : List Op) (d : AlsDevice)
    (hInit : NT_SUCCESS (Initialize U CreateStatus Time).1 = true)
    (hd : d = run (Initialize U CreateStatus Time).2 ops) :
    d.m_pSupportedDataFields.List =
      [PROPERTYKEY.PKEY_SensorData_Timestamp, PROPERTYKEY.PKEY_SensorData_LightLevel_Lux] ∧
    d.m_pDataFieldProperties =
      { AllocatedSizeInBytes := U.SENSOR_COLLECTION_LIST_SIZE SENSOR_DATA_FIELD_PROPERTIES_COUNT,
        List :=
          [ { Key := PROPERTYKEY.PKEY_SensorDataField_Resolution,
              Value := PROPVARIANT.VT_R4 AlsDevice_Resolution_Lux },
            { Key := PROPERTYKEY.PKEY_SensorDataField_RangeMinimum,
              Value := PROPVARIANT.VT_R4 AlsDevice_Minimum_Lux },
            { Key := PROPERTYKEY.PKEY_SensorDataField_RangeMaximum,
              Value := PROPVARIANT.VT_R4 AlsDevice_Maximum_Lux } ] } ∧
    (∀ DataField pProperties pSize st out sz,
      OnGetDataFieldProperties U (some d) DataField pProperties pSize = Except.ok (st, out, sz) →
      NT_SUCCESS st = true →
      DataField = some PROPERTYKEY.PKEY_SensorData_Timestamp ∨
        DataField = some PROPERTYKEY.PKEY_SensorData_LightLevel_Lux) ∧
    (∀ key pProperties s, key ≠ PROPERTYKEY.PKEY_SensorData_Timestamp →
      key ≠ PROPERTYKEY.PKEY_SensorData_LightLevel_Lux →
      OnGetDataFieldProperties U (some d) (some key) pProperties (some s) =
        Except.ok (STATUS_NOT_SUPPORTED, pProperties, some 0)) ∧
    NT_SUCCESS STATUS_NOT_SUPPORTED = false ∧
    (∀ key s, key = PROPERTYKEY.PKEY_SensorData_Timestamp ∨
        key = PROPERTYKEY.PKEY_SensorData_LightLevel_Lux →
      OnGetDataFieldProperties U (some d) (some key) none (some s) =
        Except.ok (STATUS_SUCCESS, none,
          some (U.CollectionsListGetMarshalledSize d.m_pDataFieldProperties)) ∧
      (∀ dst : SENSOR_COLLECTION_LIST,
        dst.AllocatedSizeInBytes < U.CollectionsListGetMarshalledSize d.m_pDataFieldProperties →
        OnGetDataFieldProperties U (some d) (some key) (some dst) (some s) =
          Except.ok (STATUS_INSUFFICIENT_RESOURCES, some dst, some 0)) ∧
      (∀ dst : SENSOR_COLLECTION_LIST,
        U.CollectionsListGetMarshalledSize d.m_pDataFieldProperties ≤ dst.AllocatedSizeInBytes →
        OnGetDataFieldProperties U (some d) (some key) (some dst) (some s) =
          Except.ok
            ((U.CollectionsListCopyAndMarshall dst d.m_pDataFieldProperties).1,
             some (U.CollectionsListCopyAndMarshall dst d.m_pDataFieldProperties).2,
             some (if NT_SUCCESS (U.CollectionsListCopyAndMarshall dst
                 d.m_pDataFieldProperties).1
               then U.CollectionsListGetMarshalledSize d.m_pDataFieldProperties else 0)))) := by
  have hS : NT_SUCCESS STATUS_SUCCESS = true := by decide
  have hN : NT_SUCCESS STATUS_NOT_SUPPORTED = false := by decide
  have hP : NT_SUCCESS STATUS_INVALID_PARAMETER = false := by decide
  have hI : NT_SUCCESS STATUS_INSUFFICIENT_RESOURCES = false := by decide
  obtain ⟨r1, r2⟩ := dataFieldCatalog_run ops (Initialize U CreateStatus Time).2
  have hF : d.m_pSupportedDataFields.List =
      [PROPERTYKEY.PKEY_SensorData_Timestamp, PROPERTYKEY.PKEY_SensorData_LightLevel_Lux] := by
    rw [hd, r2, Initialize_success U CreateStatus Time hInit]
    simp [Initialize, hS]
  have hC : d.m_pDataFieldProperties =
      { AllocatedSizeInBytes := U.SENSOR_COLLECTION_LIST_SIZE SENSOR_DATA_FIELD_PROPERTIES_COUNT,
        List :=
          [ { Key := PROPERTYKEY.PKEY_SensorDataField_Resolution,
              Value := PROPVARIANT.VT_R4 AlsDevice_Resolution_Lux },
            { Key := PROPERTYKEY.PKEY_SensorDataField_RangeMinimum,
              Value := PROPVARIANT.VT_R4 AlsDevice_Minimum_Lux },
            { Key := PROPERTYKEY.PKEY_SensorDataField_RangeMaximum,
              Value := PROPVARIANT.VT_R4 AlsDevice_Maximum_Lux } ] } := by
    rw [hd, r1, Initialize_success U CreateStatus Time hInit]
    simp [Initialize, hS]
  have hK : ∀ key, IsKeyPresentInPropertyList d.m_pSupportedDataFields key = true ↔
      (key = PROPERTYKEY.PKEY_SensorData_Timestamp ∨
        key = PROPERTYKEY.PKEY_SensorData_LightLevel_Lux) := by
    intro key
    simp [IsKeyPresentInPropertyList, hF]
  refine ⟨hF, hC, ?_, ?_, hN, ?_⟩
  · intro DataField pProperties pSize st out sz h hs
    cases DataField with
    | none =>
      cases pSize with
      | none => simp [OnGetDataFieldProperties, OnGet_Exit, hP] at h
      | some s' =>
        simp only [OnGetDataFieldProperties, OnGet_Exit_some, Except.ok.injEq,
          Prod.mk.injEq] at h
        obtain ⟨rfl, -, -⟩ := h
        exact absurd hs (by decide)
    | some key =>
      by_cases hk : IsKeyPresentInPropertyList d.m_pSupportedDataFields key = true
      · rcases (hK key).1 hk with h1 | h1
        · exact Or.inl (by rw [h1])
        · exact Or.inr (by rw [h1])
      · cases pSize with
        | none => simp [OnGetDataFieldProperties, OnGet_Exit, hP] at h
        | some s' =>
          simp only [OnGetDataFieldProperties, hk, if_false, OnGet_Exit_some, Except.ok.injEq,
            Prod.mk.injEq] at h
          obtain ⟨rfl, -, -⟩ := h
          exact absurd hs (by decide)
  · intro key pProperties s h1 h2
    have hk : ¬ IsKeyPresentInPropertyList d.m_pSupportedDataFields key = true := by
      rw [hK key]; exact fun h => h.elim h1 h2
    simp [OnGetDataFieldProperties, hk, OnGet_Exit_some, hN]
  · intro key s hkey
    have hk := (hK key).2 hkey
    refine ⟨?_, ?_, ?_⟩
    · simp [OnGetDataFieldProperties, hk, OnGet_fill, OnGet_Exit_some, hS]
    · intro dst hlt
      simp [OnGetDataFieldProperties, hk, OnGet_fill, OnGet_Exit_some, hlt, hI]
    · intro dst hle
      have hnlt : ¬ dst.AllocatedSizeInBytes <
          U.CollectionsListGetMarshalledSize d.m_pDataFieldProperties := not_lt.mpr hle
      cases hc : NT_SUCCESS (U.CollectionsListCopyAndMarshall dst d.m_pDataFieldProperties).1 <;>
        simp [OnGetDataFieldProperties, hk, OnGet_fill, OnGet_Exit_some, hnlt, hc]

/-- C10 at a concrete input: the device after a successful `Initialize`, a `PowerOn` and
an `OnStart`, with 16 bytes a list and 32 bytes an entry. The key `PKEY_Sensor_State` is
refused; for the time stamp key and for the lux key the size-only query reports 112
bytes, and the copy-out into a destination of 200 bytes returns the three entries of
the catalog and reports 112 bytes. -/
theorem data_field_properties_supported_keys_witness :
    OnGetDataFieldProperties sampleUtils (some sampleActive)
        (some PROPERTYKEY.PKEY_Sensor_State) none (some 7) =
      Except.ok (STATUS_NOT_SUPPORTED, none, some 0) ∧
    OnGetDataFieldProperties sampleUtils (some sampleActive)
        (some PROPERTYKEY.PKEY_SensorData_Timestamp) none (some 7) =
      Except.ok (STATUS_SUCCESS, none, some 112) ∧
    OnGetDataFieldProperties sampleUtils (some sampleActive)
        (some PROPERTYKEY.PKEY_SensorData_LightLevel_Lux) none (some 7) =
      Except.ok (STATUS_SUCCESS, none, some 112) ∧
    OnGetDataFieldProperties sampleUtils (some sampleActive)
        (some PROPERTYKEY.PKEY_SensorData_Timestamp)
        (some { AllocatedSizeInBytes := 200, List := [] }) (some 7) =
      Except.ok (STATUS_SUCCESS,
        some { AllocatedSizeInBytes := 200,
               List :=
                 [ { Key := PROPERTYKEY.PKEY_SensorDataField_Resolution,
                     Value := PROPVARIANT.VT_R4 AlsDevice_Resolution_Lux },
                   { Key := PROPERTYKEY.PKEY_SensorDataField_RangeMinimum,
                     Value := PROPVARIANT.VT_R4 AlsDevice_Minimum_Lux },
                   { Key := PROPERTYKEY.PKEY_SensorDataField_RangeMaximum,
                     Value := PROPVARIANT.VT_R4 AlsDevice_Maximum_Lux } ] },
        some 112) ∧
    OnGetDataFieldProperties sampleUtils (some sampleActive)
        (some PROPERTYKEY.PKEY_SensorData_LightLevel_Lux)
        (some { AllocatedSizeInBytes := 200, List := [] }) (some 7) =
      OnGetDataFieldProperties sampleUtils (some sampleActive)
        (some PROPERTYKEY.PKEY_SensorData_Timestamp)
        (some { AllocatedSizeInBytes := 200, List := [] }) (some 7) := by
  have h := data_field_properties_supported_keys sampleUtils (fun _ => STATUS_SUCCESS) 0
    [Op.PowerOn (fun _ => STATUS_SUCCESS), Op.OnStart STATUS_SUCCESS] sampleActive
    (by decide) rfl
  obtain ⟨-, hC, -, hN, -, hK⟩ := h
  obtain ⟨t1, -, t3⟩ := hK PROPERTYKEY.PKEY_SensorData_Timestamp 7 (Or.inl rfl)
  obtain ⟨l1, -, l3⟩ := hK PROPERTYKEY.PKEY_SensorData_LightLevel_Lux 7 (Or.inr rfl)
  have hsize : sampleUtils.CollectionsListGetMarshalledSize sampleActive.m_pDataFieldProperties
      = 112 := by rw [hC]; rfl
  have t3' := t3 { AllocatedSizeInBytes := 200, List := [] } (by rw [hsize]; decide)
  have l3' := l3 { AllocatedSizeInBytes := 200, List := [] } (by rw [hsize]; decide)
  refine ⟨hN PROPERTYKEY.PKEY_Sensor_State none 7 (by decide) (by decide), ?_, ?_, ?_, ?_⟩
  · rw [t1, hsize]
  · rw [l1, hsize]
  · rw [t3', hsize, hC]
    rfl
  · rw [l3', t3']

end ISL29018
